import Mathlib

/-!
# Solar-system scene update: a shallow embedding of `solar.cpp`

The C++ program keeps its state in global variables and updates them from GLFW
callbacks and from the render loop.  Here every function of the program that is
reasoned about becomes a pure Lean function on explicit state.

Conventions of the embedding

* `float` and `double` values are elements of a linearly ordered field `α`
  (exact arithmetic: rounding, infinities and NaN are not represented).  The
  definitions are polymorphic in `α`, so they run on `ℚ` and are reasoned about
  on `ℝ`.  Where a property turns on rounding, the expression concerned is read
  a second time in binary32, every operation rounded by `round32` (section
  "Single precision").
* The C library functions `cos`, `sin`, `sqrt` and the constant behind
  `glm::radians` are not part of the program; they are supplied through a
  `MathFns α` record.  `realMath` interprets them as the real functions.
* `int` values are `Int`; `std::vector` is `List`; an out-of-range write is
  dropped and an out-of-range read yields `0` (in C++ both are undefined).
* The keyboard is a function from GLFW key codes to `GLFW_PRESS` or
  `GLFW_RELEASE`, the answer of `glfwGetKey` during one call of `processInput`;
  the `static` locals of `processInput` are fields of the state, and so is what
  it writes to `std::cout`.
* OpenGL is a set of names in use per kind of object, the values of the global
  handle variables, and a log of calls; `glGen*` is an allocator parameter that
  returns a name not in use.  A function that only issues GL calls is the list
  of its calls in source order.
-/

namespace SolarSystem

/-! ## Data model -/

/-- The `glm::vec3` type: three scalar components. -/
structure Vec3 (α : Type) where
  x : α
  y : α
  z : α
deriving DecidableEq, Repr

instance {α : Type} [Zero α] : Zero (Vec3 α) := ⟨⟨0, 0, 0⟩⟩

instance {α : Type} [Add α] : Add (Vec3 α) := ⟨fun a b => ⟨a.x + b.x, a.y + b.y, a.z + b.z⟩⟩

/-- The `struct Moon` of the source. -/
structure Moon (α : Type) where
  parentPlanet : Int
  orbitRadius : α
  orbitSpeed : α
  size : α
  texture : Nat
deriving DecidableEq, Repr

/-- The `struct OrbitData` of the source. -/
structure OrbitData (α : Type) where
  semiMajor : α
  eccentricity : α
  segments : Int
deriving DecidableEq, Repr

/-- The `struct GeographicLocation` of the source. -/
structure GeographicLocation (α : Type) where
  name : String
  description : String
  latitude : α
  longitude : α
  color : Vec3 α
deriving DecidableEq, Repr

/-- The functions of the C math library that the program calls, and the
constant `π` that `glm::radians` is built on. -/
structure MathFns (α : Type) where
  cos : α → α
  sin : α → α
  sqrt : α → α
  pi : α

/-- The math library read over the real numbers. -/
noncomputable def realMath : MathFns ℝ :=
  { cos := Real.cos, sin := Real.sin, sqrt := Real.sqrt, pi := Real.pi }

section Program

variable {α : Type} [LinearOrderedField α]

/-- The library function `glm::radians`: degrees times `π / 180`. -/
def radians (m : MathFns α) (degrees : α) : α :=
  degrees * (m.pi / 180)

/-- The library call `glm::rotate(glm::mat4(1.0f), angle, glm::vec3(0, 1, 0)) * glm::vec4(v, 1.0f)`
cut back to its first three components: a rotation about the vertical axis. -/
def rotateY (m : MathFns α) (angle : α) (v : Vec3 α) : Vec3 α :=
  ⟨m.cos angle * v.x + m.sin angle * v.z, v.y, -(m.sin angle) * v.x + m.cos angle * v.z⟩

/-! ## Static tables -/

/-- The table `orbitParams` of the source; entry `i` belongs to planet `i + 1`
and the last entry to the Moon. -/
def orbitParams : List (OrbitData α) :=
  [ ⟨12.0, 0.45, 100⟩,   -- Mercury
    ⟨16.0, 0.25, 100⟩,   -- Venus
    ⟨22.0, 0.30, 100⟩,   -- Earth
    ⟨30.0, 0.40, 100⟩,   -- Mars
    ⟨50.0, 0.25, 100⟩,   -- Jupiter
    ⟨70.0, 0.35, 100⟩,   -- Saturn
    ⟨85.0, 0.30, 100⟩,   -- Uranus
    ⟨100.0, 0.25, 100⟩,  -- Neptune
    ⟨2.5, 0.25, 64⟩ ]    -- Moon

/-- The table `earthLocations` of the source. -/
def earthLocations : List (GeographicLocation α) :=
  [ ⟨"Ocean", "Pacific Ocean - Deep Blue Waters", 0.0, -150.0, ⟨0.0, 0.3, 0.8⟩⟩,
    ⟨"Mountain", "Himalayan Mountains - Snow Peaks", 28.0, 84.0, ⟨0.9, 0.9, 0.95⟩⟩,
    ⟨"Land", "Amazon Rainforest - Green Land", -5.0, -65.0, ⟨0.1, 0.6, 0.2⟩⟩,
    ⟨"Desert", "Sahara Desert - Golden Sand", 20.0, 10.0, ⟨0.9, 0.75, 0.3⟩⟩ ]

/-- The table `saturnLocations` of the source. -/
def saturnLocations : List (GeographicLocation α) :=
  [ ⟨"Diamond Mountain", "Diamond Mountain - Crystalline Peak", 45.0, 0.0, ⟨0.85, 0.85, 0.9⟩⟩,
    ⟨"Chloric Ocean", "Chloric Ocean - Hydrogen Seas", -30.0, 90.0, ⟨0.2, 0.7, 0.5⟩⟩ ]

/-- The moon list as `main` fills it before the render loop starts. -/
def startupMoons : List (Moon α) :=
  [ ⟨4, 2.0, 15.0, 0.2, 0⟩,   -- Phobos
    ⟨5, 4.5, 8.0, 0.3, 0⟩,    -- Io
    ⟨5, 6.0, 5.0, 0.35, 0⟩,   -- Europa
    ⟨5, 8.0, 3.0, 0.25, 0⟩,   -- Ganymede
    ⟨6, 5.5, 10.0, 0.3, 0⟩,   -- Titan
    ⟨6, 7.0, 7.0, 0.2, 0⟩,    -- Enceladus
    ⟨3, 2.5, 13.0, 0.4, 0⟩ ]  -- Moon

/-- The constant `g_daySpeed`. -/
def g_daySpeed : α := 2.0

/-- The function `latLonToSpherePosition` of the source. -/
def latLonToSpherePosition (m : MathFns α) (latitude longitude radius : α) : Vec3 α :=
  let lat := radians m latitude
  let lon := radians m longitude
  let x := radius * m.cos lat * m.cos lon
  let y := radius * m.sin lat
  let z := radius * m.cos lat * m.sin lon
  ⟨x, y, z⟩

end Program

/-! ## Moon removal -/

/-- The loop of `removeMoonsOfPlanet`: `it` is the position of the iterator in
`moons`.  An element whose parent is `planetIndex` is erased and the iterator
stays where it is (`it = moons.erase(it)`), otherwise the iterator advances. -/
def removeMoonsLoop {α : Type} (planetIndex : Int) (moons : List (Moon α)) (it : Nat) :
    List (Moon α) :=
  if h : it < moons.length then
    if (moons.get ⟨it, h⟩).parentPlanet = planetIndex then
      removeMoonsLoop planetIndex (moons.eraseIdx it) it
    else
      removeMoonsLoop planetIndex moons (it + 1)
  else moons
termination_by moons.length - it
decreasing_by
  all_goals simp_wf
  · rw [List.length_eraseIdx]
    simp [h]
    omega
  · omega

/-- The function `removeMoonsOfPlanet` of the source: the loop started at
`moons.begin()`. -/
def removeMoonsOfPlanet {α : Type} (planetIndex : Int) (moons : List (Moon α)) :
    List (Moon α) :=
  removeMoonsLoop planetIndex moons 0

/-! ## Per-frame position update (render loop of `main`) -/

section Frame

variable {α : Type} [LinearOrderedField α]

/-- The local `g_animationAngle` of the render loop:
`static_cast<float>(g_simulationTime * 20.0)`. -/
def animationAngle (g_simulationTime : α) : α :=
  g_simulationTime * 20.0

/-- The block "Update all planet positions" of the render loop.  The star is
written first; then one of two branches, chosen by `focusedPlanet`, fills
entries 1 to 8: the first writes them directly, the second fills the local
array `orbitPositions` and copies it in a loop. -/
def updatePlanetPositions (m : MathFns α) (focusedPlanet : Int) (g_animationAngle : α)
    (planetPositions : List (Vec3 α)) : List (Vec3 α) :=
  let pp := planetPositions.set 0 ⟨0.0, 0.0, 0.0⟩
  if focusedPlanet = 0 then
    let pp := pp.set 1 ⟨m.cos (radians m (g_animationAngle * 4.15)) * 12.0, 0.0,
                        m.sin (radians m (g_animationAngle * 4.15)) * 12.0⟩
    let pp := pp.set 2 ⟨m.cos (radians m (g_animationAngle * 1.62)) * 16.0, 0.0,
                        m.sin (radians m (g_animationAngle * 1.62)) * 16.0⟩
    let pp := pp.set 3 ⟨m.cos (radians m (g_animationAngle * 1.0)) * 22.0, 0.0,
                        m.sin (radians m (g_animationAngle * 1.0)) * 22.0⟩
    let pp := pp.set 4 ⟨m.cos (radians m (g_animationAngle * 0.53)) * 30.0, 0.0,
                        m.sin (radians m (g_animationAngle * 0.53)) * 30.0⟩
    let pp := pp.set 5 ⟨m.cos (radians m (g_animationAngle * 0.08)) * 50.0, 0.0,
                        m.sin (radians m (g_animationAngle * 0.08)) * 50.0⟩
    let pp := pp.set 6 ⟨m.cos (radians m (g_animationAngle * 0.03)) * 70.0, 0.0,
                        m.sin (radians m (g_animationAngle * 0.03)) * 70.0⟩
    let pp := pp.set 7 ⟨m.cos (radians m (g_animationAngle * 0.01)) * 85.0, 0.0,
                        m.sin (radians m (g_animationAngle * 0.01)) * 85.0⟩
    let pp := pp.set 8 ⟨m.cos (radians m (g_animationAngle * 0.006)) * 100.0, 0.0,
                        m.sin (radians m (g_animationAngle * 0.006)) * 100.0⟩
    pp
  else
    -- `glm::vec3 orbitPositions[9]`; entry 0 is never written nor read
    let orbitPositions : List (Vec3 α) :=
      [ 0,
        ⟨m.cos (radians m (g_animationAngle * 4.15)) * 12.0, 0.0,
         m.sin (radians m (g_animationAngle * 4.15)) * 12.0⟩,
        ⟨m.cos (radians m (g_animationAngle * 1.62)) * 16.0, 0.0,
         m.sin (radians m (g_animationAngle * 1.62)) * 16.0⟩,
        ⟨m.cos (radians m (g_animationAngle * 1.0)) * 22.0, 0.0,
         m.sin (radians m (g_animationAngle * 1.0)) * 22.0⟩,
        ⟨m.cos (radians m (g_animationAngle * 0.53)) * 30.0, 0.0,
         m.sin (radians m (g_animationAngle * 0.53)) * 30.0⟩,
        ⟨m.cos (radians m (g_animationAngle * 0.08)) * 50.0, 0.0,
         m.sin (radians m (g_animationAngle * 0.08)) * 50.0⟩,
        ⟨m.cos (radians m (g_animationAngle * 0.03)) * 70.0, 0.0,
         m.sin (radians m (g_animationAngle * 0.03)) * 70.0⟩,
        ⟨m.cos (radians m (g_animationAngle * 0.01)) * 85.0, 0.0,
         m.sin (radians m (g_animationAngle * 0.01)) * 85.0⟩,
        ⟨m.cos (radians m (g_animationAngle * 0.006)) * 100.0, 0.0,
         m.sin (radians m (g_animationAngle * 0.006)) * 100.0⟩ ]
    -- `for (int i = 1; i <= 8; i++) planetPositions[i] = orbitPositions[i];`
    (List.range' 1 8).foldl (fun pp i => pp.set i (orbitPositions.getD i 0)) pp

/-- One iteration of the loop "Update moon positions": the body for index `i`. -/
def updateMoonPosition (m : MathFns α) (g_animationAngle : α) (moons : List (Moon α))
    (planetPositions : List (Vec3 α)) (i : Nat) : List (Vec3 α) :=
  match moons.get? i with
  | none => planetPositions
  | some moon =>
    let parentPos := planetPositions.getD moon.parentPlanet.toNat 0
    let angle := radians m (g_animationAngle * moon.orbitSpeed)
    planetPositions.set (9 + i)
      (parentPos + ⟨m.cos angle * moon.orbitRadius, 0.0, m.sin angle * moon.orbitRadius⟩)

/-- The loop "Update moon positions":
`for (int i = 0; i < moons.size(); ++i)`. -/
def updateMoonPositions (m : MathFns α) (g_animationAngle : α) (moons : List (Moon α))
    (planetPositions : List (Vec3 α)) : List (Vec3 α) :=
  (List.range moons.length).foldl (updateMoonPosition m g_animationAngle moons) planetPositions

/-- The positions of one frame: the planet block followed by the moon loop, both
at the animation angle of the frame. -/
def framePositions (m : MathFns α) (focusedPlanet : Int) (g_simulationTime : α)
    (moons : List (Moon α)) (planetPositions : List (Vec3 α)) : List (Vec3 α) :=
  let g_animationAngle := animationAngle g_simulationTime
  updateMoonPositions m g_animationAngle moons
    (updatePlanetPositions m focusedPlanet g_animationAngle planetPositions)

/-- The planet position as the specification words it (section 4.1), kept apart
from the code for comparison: the point at angle `theta` of the ellipse whose
semi-major axis `a` and eccentricity `e` are the `orbitParams` entry of planet
`i`, with semi-minor axis `b = a * sqrt (1 - e * e)`. -/
def specPlanetPosition (m : MathFns α) (i : Nat) (theta : α) : Vec3 α :=
  let o := (orbitParams (α := α)).getD (i - 1) ⟨0, 0, 0⟩
  let a := o.semiMajor
  let e := o.eccentricity
  let b := a * m.sqrt (1 - e * e)
  ⟨a * m.cos theta, 0, b * m.sin theta⟩

/-- The world position of the Earth location marker, as the block "Draw Location
Pointer on Earth" computes it (`markerWorldPos`); `none` when the block is
skipped. -/
def earthMarkerWorldPos (m : MathFns α) (focusedPlanet : Int) (showEarthLocation : Bool)
    (currentLocationIndex : Int) (g_animationAngle : α) (planetPositions : List (Vec3 α)) :
    Option (Vec3 α) :=
  if focusedPlanet = 3 ∧ showEarthLocation = true ∧ currentLocationIndex ≥ 0
      ∧ currentLocationIndex < (earthLocations (α := α)).length then
    let earthRotation := radians m (g_animationAngle * g_daySpeed * 1.0)
    let loc := (earthLocations (α := α)).getD currentLocationIndex.toNat
      ⟨"", "", 0, 0, 0⟩
    let locPos := latLonToSpherePosition m loc.latitude loc.longitude 1.8
    let rotatedPos := rotateY m earthRotation locPos
    some (planetPositions.getD 3 0 + rotatedPos)
  else none

end Frame

/-! ## Interaction state and GLFW callbacks -/

/-- What `processInput` writes to `std::cout`, one entry for the lines of one
block: the banner "SPEED INCREASED" or "SPEED DECREASED" with the new time
scale, and the line of the key-9 block, "Focused on Earth's moon (index: ...)"
or "Earth's moon not found". -/
inductive ConsoleMessage (α : Type) where
  | speedIncreased (timeScale : α)
  | speedDecreased (timeScale : α)
  | moonFocused (index : Int)
  | moonNotFound

/-- The global variables of the program that the callbacks and the camera code
read and write. -/
structure State (α : Type) where
  SCR_WIDTH : Nat
  SCR_HEIGHT : Nat
  cameraDistance : α
  cameraYaw : α
  cameraPitch : α
  focusedPlanet : Int
  isDragging : Bool
  lastMouseX : α
  lastMouseY : α
  focusedLocationIndex : Int
  isMovingToLocation : Bool
  g_simulationTime : α
  timeScale : α
  planetPositions : List (Vec3 α)
  moons : List (Moon α)
  currentLocationIndex : Int
  showEarthLocation : Bool
  selectedLocationIndex : Int
  currentSaturnLocationIndex : Int
  showSaturnLocation : Bool
  selectedSaturnLocationIndex : Int
  targetCameraPos : Vec3 α
  currentCameraPos : Vec3 α
  -- the flag set by `glfwSetWindowShouldClose`
  windowShouldClose : Bool
  -- the `static` locals of `processInput`
  plusKeyPressed : Bool
  minusKeyPressed : Bool
  nineKeyPressed : Bool
  locKeyPressed0 : Bool
  locKeyPressed1 : Bool
  locKeyPressed2 : Bool
  locKeyPressed3 : Bool
  saturnLocKeyPressed0 : Bool
  saturnLocKeyPressed1 : Bool
  -- what `processInput` has written to `std::cout` so far
  console : List (ConsoleMessage α)

section Callbacks

variable {α : Type} [LinearOrderedField α]

/-- The globals as initialised at program start, with the moon list as `main`
fills it before the first frame. -/
def initialState : State α :=
  { SCR_WIDTH := 1920
    SCR_HEIGHT := 1080
    cameraDistance := 50.0
    cameraYaw := 90.0
    cameraPitch := 20.0
    focusedPlanet := 0
    isDragging := false
    lastMouseX := 0
    lastMouseY := 0
    focusedLocationIndex := -1
    isMovingToLocation := false
    g_simulationTime := 0.0
    timeScale := 1.0
    planetPositions := List.replicate 17 0
    moons := startupMoons
    currentLocationIndex := 0
    showEarthLocation := false
    selectedLocationIndex := -1
    currentSaturnLocationIndex := 0
    showSaturnLocation := false
    selectedSaturnLocationIndex := -1
    targetCameraPos := ⟨0.0, 0.0, 0.0⟩
    currentCameraPos := ⟨0.0, 0.0, 0.0⟩
    windowShouldClose := false
    plusKeyPressed := false
    minusKeyPressed := false
    nineKeyPressed := false
    locKeyPressed0 := false
    locKeyPressed1 := false
    locKeyPressed2 := false
    locKeyPressed3 := false
    saturnLocKeyPressed0 := false
    saturnLocKeyPressed1 := false
    console := [] }

/-- The callback `mouse_callback` of the source (cursor moved to `xpos`, `ypos`). -/
def mouse_callback (s : State α) (xpos ypos : α) : State α :=
  if s.isDragging then
    let xoffset := s.lastMouseX - xpos
    let yoffset := ypos - s.lastMouseY
    let sensitivity : α := 0.1
    let xoffset := xoffset * sensitivity
    let yoffset := yoffset * sensitivity
    let cameraYaw := s.cameraYaw + xoffset
    let cameraPitch := s.cameraPitch + yoffset
    let cameraPitch := if cameraPitch > 89.0 then 89.0 else cameraPitch
    let cameraPitch := if cameraPitch < -89.0 then 89.0 else cameraPitch
    { s with lastMouseX := xpos, lastMouseY := ypos,
             cameraYaw := cameraYaw, cameraPitch := cameraPitch }
  else s

/-- The GLFW constant `GLFW_MOUSE_BUTTON_LEFT`. -/
def GLFW_MOUSE_BUTTON_LEFT : Int := 0

/-- The GLFW constant `GLFW_PRESS`. -/
def GLFW_PRESS : Int := 1

/-- The GLFW constant `GLFW_RELEASE`. -/
def GLFW_RELEASE : Int := 0

/-- The local `distFromCenter` of `mouse_button_callback`: the distance of the
cursor from the centre of a window of `SCR_WIDTH` by `SCR_HEIGHT` pixels. -/
def distFromCenter (m : MathFns α) (SCR_WIDTH SCR_HEIGHT : Nat) (mouseX mouseY : α) : α :=
  m.sqrt ((mouseX - (SCR_WIDTH : α) / 2.0) * (mouseX - (SCR_WIDTH : α) / 2.0)
        + (mouseY - (SCR_HEIGHT : α) / 2.0) * (mouseY - (SCR_HEIGHT : α) / 2.0))

/-- The callback `mouse_button_callback` of the source.  `cursorX`, `cursorY` is
what `glfwGetCursorPos` reports during the call. -/
def mouse_button_callback (m : MathFns α) (s : State α) (button action : Int)
    (cursorX cursorY : α) : State α :=
  if button = GLFW_MOUSE_BUTTON_LEFT then
    if action = GLFW_PRESS then
      let s := { s with lastMouseX := cursorX, lastMouseY := cursorY }
      if s.focusedPlanet = 3 then
        let mouseX := cursorX
        let mouseY := cursorY
        let distFromCenter :=
          m.sqrt ((mouseX - (s.SCR_WIDTH : α) / 2.0) * (mouseX - (s.SCR_WIDTH : α) / 2.0)
                + (mouseY - (s.SCR_HEIGHT : α) / 2.0) * (mouseY - (s.SCR_HEIGHT : α) / 2.0))
        if distFromCenter < 300.0 then
          -- the sum is converted to `size_t` before `%`; the table has 4 entries
          let nextIndex : Int :=
            (s.focusedLocationIndex + 1) % ((earthLocations (α := α)).length : Int)
          { s with selectedLocationIndex := nextIndex
                   currentLocationIndex := nextIndex
                   focusedLocationIndex := nextIndex
                   showEarthLocation := true
                   cameraDistance := 2.5
                   isDragging := false }
        else
          { s with isDragging := true }
      else
        { s with isDragging := true }
    else if action = GLFW_RELEASE then
      { s with isDragging := false }
    else s
  else s

/-- The callback `scroll_callback` of the source. -/
def scroll_callback (s : State α) (_xoffset yoffset : α) : State α :=
  let cameraDistance := s.cameraDistance - yoffset * (s.cameraDistance * 0.1)
  let cameraDistance := if cameraDistance < 1.0 then 1.0 else cameraDistance
  let cameraDistance := if cameraDistance > 800.0 then 800.0 else cameraDistance
  { s with cameraDistance := cameraDistance }

/-- An input event delivered to one of the three mouse callbacks. -/
inductive MouseEvent (α : Type) where
  | cursorPos (xpos ypos : α)
  | mouseButton (button action : Int) (cursorX cursorY : α)
  | scroll (xoffset yoffset : α)

/-- Dispatch of one event to its callback. -/
def handleEvent (m : MathFns α) (s : State α) : MouseEvent α → State α
  | .cursorPos xpos ypos => mouse_callback s xpos ypos
  | .mouseButton button action cursorX cursorY =>
      mouse_button_callback m s button action cursorX cursorY
  | .scroll xoffset yoffset => scroll_callback s xoffset yoffset

/-- The state after a finite sequence of events, delivered in order. -/
def handleEvents (m : MathFns α) (s : State α) (events : List (MouseEvent α)) : State α :=
  events.foldl (handleEvent m) s

end Callbacks

/-! ## Keyboard polling (`processInput`) and the buttons of the overlay -/

section Keyboard

variable {α : Type} [LinearOrderedField α]

/-- The GLFW key code `GLFW_KEY_ESCAPE`. -/
def GLFW_KEY_ESCAPE : Int := 256

/-- The GLFW key code `GLFW_KEY_EQUAL`. -/
def GLFW_KEY_EQUAL : Int := 61

/-- The GLFW key code `GLFW_KEY_MINUS`. -/
def GLFW_KEY_MINUS : Int := 45

/-- The GLFW key code `GLFW_KEY_0`; the digits follow one another up to `GLFW_KEY_9`. -/
def GLFW_KEY_0 : Int := 48

/-- The GLFW key code `GLFW_KEY_1`. -/
def GLFW_KEY_1 : Int := 49

/-- The GLFW key code `GLFW_KEY_2`. -/
def GLFW_KEY_2 : Int := 50

/-- The GLFW key code `GLFW_KEY_3`. -/
def GLFW_KEY_3 : Int := 51

/-- The GLFW key code `GLFW_KEY_4`. -/
def GLFW_KEY_4 : Int := 52

/-- The GLFW key code `GLFW_KEY_5`. -/
def GLFW_KEY_5 : Int := 53

/-- The GLFW key code `GLFW_KEY_6`. -/
def GLFW_KEY_6 : Int := 54

/-- The GLFW key code `GLFW_KEY_7`. -/
def GLFW_KEY_7 : Int := 55

/-- The GLFW key code `GLFW_KEY_8`. -/
def GLFW_KEY_8 : Int := 56

/-- The GLFW key code `GLFW_KEY_9`. -/
def GLFW_KEY_9 : Int := 57

/-- The GLFW key code `GLFW_KEY_A`. -/
def GLFW_KEY_A : Int := 65

/-- The GLFW key code `GLFW_KEY_C`. -/
def GLFW_KEY_C : Int := 67

/-- The GLFW key code `GLFW_KEY_D`. -/
def GLFW_KEY_D : Int := 68

/-- The GLFW key code `GLFW_KEY_H`. -/
def GLFW_KEY_H : Int := 72

/-- The GLFW key code `GLFW_KEY_L` (named in the help text of the Earth
panel; `processInput` never polls it). -/
def GLFW_KEY_L : Int := 76

/-- The GLFW key code `GLFW_KEY_M`. -/
def GLFW_KEY_M : Int := 77

/-- The GLFW key code `GLFW_KEY_O`. -/
def GLFW_KEY_O : Int := 79

/-- `processInput`, the Escape test. -/
def processEscapeKey (s : State α) (glfwGetKey : Int → Int) : State α :=
  if glfwGetKey GLFW_KEY_ESCAPE = GLFW_PRESS then { s with windowShouldClose := true } else s

/-- `processInput`, the two statements on `GLFW_KEY_EQUAL` (speed up). -/
def processSpeedUpKey (s : State α) (glfwGetKey : Int → Int) : State α :=
  let s :=
    if glfwGetKey GLFW_KEY_EQUAL = GLFW_PRESS ∧ s.plusKeyPressed = false then
      { s with timeScale := s.timeScale * 1.1,
               console := s.console ++ [ .speedIncreased (s.timeScale * 1.1) ],
               plusKeyPressed := true }
    else s
  if glfwGetKey GLFW_KEY_EQUAL = GLFW_RELEASE then { s with plusKeyPressed := false } else s

/-- `processInput`, the two statements on `GLFW_KEY_MINUS` (slow down). -/
def processSlowDownKey (s : State α) (glfwGetKey : Int → Int) : State α :=
  let s :=
    if glfwGetKey GLFW_KEY_MINUS = GLFW_PRESS ∧ s.minusKeyPressed = false then
      let timeScale := s.timeScale * 0.9
      let timeScale := if timeScale < 0.01 then 0.01 else timeScale
      { s with timeScale := timeScale,
               console := s.console ++ [ .speedDecreased timeScale ],
               minusKeyPressed := true }
    else s
  if glfwGetKey GLFW_KEY_MINUS = GLFW_RELEASE then { s with minusKeyPressed := false } else s

/-- One statement `if (glfwGetKey(window, key) == GLFW_PRESS) focusedPlanet = planet;`
of `processInput`. -/
def focusKey (s : State α) (glfwGetKey : Int → Int) (key planet : Int) : State α :=
  if glfwGetKey key = GLFW_PRESS then { s with focusedPlanet := planet } else s

/-- `processInput`, the nine statements on `GLFW_KEY_0` to `GLFW_KEY_8`. -/
def processFocusKeys (s : State α) (glfwGetKey : Int → Int) : State α :=
  let s := focusKey s glfwGetKey GLFW_KEY_0 0
  let s := focusKey s glfwGetKey GLFW_KEY_1 1
  let s := focusKey s glfwGetKey GLFW_KEY_2 2
  let s := focusKey s glfwGetKey GLFW_KEY_3 3
  let s := focusKey s glfwGetKey GLFW_KEY_4 4
  let s := focusKey s glfwGetKey GLFW_KEY_5 5
  let s := focusKey s glfwGetKey GLFW_KEY_6 6
  let s := focusKey s glfwGetKey GLFW_KEY_7 7
  let s := focusKey s glfwGetKey GLFW_KEY_8 8
  s

/-- The scan "Find Earth's moon index" of the key-9 block:
`for (int i = 0; i < (int)moons.size(); ++i) if (moons[i].parentPlanet == 3) ... break`,
with `earthMoonIndex` starting at -1.  The first argument is the part of the list
from position `i` on. -/
def earthMoonScan : List (Moon α) → Nat → Int
  | [], _ => -1
  | moon :: rest, i => if moon.parentPlanet = 3 then (i : Int) else earthMoonScan rest (i + 1)

/-- The body of the key-9 block of `processInput`: remove the moons of planet 4,
scan for the first moon of planet 3, set the focus and print the line that
tells which branch was taken. -/
def key9Action (s : State α) : State α :=
  let moons := removeMoonsOfPlanet 4 s.moons
  let earthMoonIndex := earthMoonScan moons 0
  let focusedPlanet : Int := if earthMoonIndex ≥ 0 then 9 + earthMoonIndex else 3
  let line : ConsoleMessage α :=
    if earthMoonIndex ≥ 0 then .moonFocused (9 + earthMoonIndex) else .moonNotFound
  { s with moons := moons, focusedPlanet := focusedPlanet, console := s.console ++ [ line ],
           nineKeyPressed := true }

/-- `processInput`, the two statements on `GLFW_KEY_9`. -/
def processKey9 (s : State α) (glfwGetKey : Int → Int) : State α :=
  let s :=
    if glfwGetKey GLFW_KEY_9 = GLFW_PRESS ∧ s.nineKeyPressed = false then key9Action s else s
  if glfwGetKey GLFW_KEY_9 = GLFW_RELEASE then { s with nineKeyPressed := false } else s

/-- `processInput`, Earth block: "O for Ocean". -/
def processKeyO (s : State α) (glfwGetKey : Int → Int) : State α :=
  let s :=
    if glfwGetKey GLFW_KEY_O = GLFW_PRESS ∧ s.locKeyPressed0 = false then
      { s with currentLocationIndex := 0, focusedLocationIndex := 0, showEarthLocation := true,
               isMovingToLocation := true, locKeyPressed0 := true }
    else s
  if glfwGetKey GLFW_KEY_O = GLFW_RELEASE then { s with locKeyPressed0 := false } else s

/-- `processInput`, Earth block: "M for Mountain". -/
def processKeyM (s : State α) (glfwGetKey : Int → Int) : State α :=
  let s :=
    if glfwGetKey GLFW_KEY_M = GLFW_PRESS ∧ s.locKeyPressed1 = false then
      { s with currentLocationIndex := 1, focusedLocationIndex := 1, showEarthLocation := true,
               isMovingToLocation := true, locKeyPressed1 := true }
    else s
  if glfwGetKey GLFW_KEY_M = GLFW_RELEASE then { s with locKeyPressed1 := false } else s

/-- `processInput`, Earth block: "D for Desert". -/
def processKeyD (s : State α) (glfwGetKey : Int → Int) : State α :=
  let s :=
    if glfwGetKey GLFW_KEY_D = GLFW_PRESS ∧ s.locKeyPressed2 = false then
      { s with currentLocationIndex := 3, focusedLocationIndex := 3, showEarthLocation := true,
               isMovingToLocation := true, locKeyPressed2 := true }
    else s
  if glfwGetKey GLFW_KEY_D = GLFW_RELEASE then { s with locKeyPressed2 := false } else s

/-- `processInput`, Earth block: "A for Amazon (Land)". -/
def processKeyA (s : State α) (glfwGetKey : Int → Int) : State α :=
  let s :=
    if glfwGetKey GLFW_KEY_A = GLFW_PRESS ∧ s.locKeyPressed3 = false then
      { s with currentLocationIndex := 2, focusedLocationIndex := 2, showEarthLocation := true,
               isMovingToLocation := true, locKeyPressed3 := true }
    else s
  if glfwGetKey GLFW_KEY_A = GLFW_RELEASE then { s with locKeyPressed3 := false } else s

/-- `processInput`, the block "Geographic location controls when Earth is
focused": the keys O, M, D and A, in that order. -/
def processEarthLocationKeys (s : State α) (glfwGetKey : Int → Int) : State α :=
  if s.focusedPlanet = 3 then
    let s := processKeyO s glfwGetKey
    let s := processKeyM s glfwGetKey
    let s := processKeyD s glfwGetKey
    let s := processKeyA s glfwGetKey
    s
  else
    { s with showEarthLocation := false, isMovingToLocation := false }

/-- `processInput`, Saturn block: "H for Diamond Mountain". -/
def processKeyH (s : State α) (glfwGetKey : Int → Int) : State α :=
  let s :=
    if glfwGetKey GLFW_KEY_H = GLFW_PRESS ∧ s.saturnLocKeyPressed0 = false then
      { s with currentSaturnLocationIndex := 0, selectedSaturnLocationIndex := 0,
               showSaturnLocation := true, saturnLocKeyPressed0 := true }
    else s
  if glfwGetKey GLFW_KEY_H = GLFW_RELEASE then { s with saturnLocKeyPressed0 := false } else s

/-- `processInput`, Saturn block: "C for Chloric Ocean". -/
def processKeyC (s : State α) (glfwGetKey : Int → Int) : State α :=
  let s :=
    if glfwGetKey GLFW_KEY_C = GLFW_PRESS ∧ s.saturnLocKeyPressed1 = false then
      { s with currentSaturnLocationIndex := 1, selectedSaturnLocationIndex := 1,
               showSaturnLocation := true, saturnLocKeyPressed1 := true }
    else s
  if glfwGetKey GLFW_KEY_C = GLFW_RELEASE then { s with saturnLocKeyPressed1 := false } else s

/-- `processInput`, the block "Geographic location controls when Saturn is
focused": the keys H and C. -/
def processSaturnLocationKeys (s : State α) (glfwGetKey : Int → Int) : State α :=
  if s.focusedPlanet = 6 then
    let s := processKeyH s glfwGetKey
    let s := processKeyC s glfwGetKey
    s
  else
    { s with showSaturnLocation := false }

/-- The function `processInput` of the source.  `glfwGetKey key` is the state of
`key` that GLFW reports during the call (`GLFW_PRESS` or `GLFW_RELEASE`); what
the call prints is appended to `console`. -/
def processInput (s : State α) (glfwGetKey : Int → Int) : State α :=
  let s := processEscapeKey s glfwGetKey
  let s := processSpeedUpKey s glfwGetKey
  let s := processSlowDownKey s glfwGetKey
  let s := processFocusKeys s glfwGetKey
  let s := processKey9 s glfwGetKey
  let s := processEarthLocationKeys s glfwGetKey
  let s := processSaturnLocationKeys s glfwGetKey
  s

/-- A click on button `i` of the "Earth Locations" panel.  The panel and its
buttons, one per entry of `earthLocations`, exist only while Earth is focused. -/
def earthLocationButton (s : State α) (i : Nat) : State α :=
  if s.focusedPlanet = 3 ∧ i < (earthLocations (α := α)).length then
    { s with currentLocationIndex := (i : Int), selectedLocationIndex := (i : Int),
             showEarthLocation := true }
  else s

/-- A click on button `i` of the "Saturn Locations" panel, which exists only
while Saturn is focused. -/
def saturnLocationButton (s : State α) (i : Nat) : State α :=
  if s.focusedPlanet = 6 ∧ i < (saturnLocations (α := α)).length then
    { s with currentSaturnLocationIndex := (i : Int), selectedSaturnLocationIndex := (i : Int),
             showSaturnLocation := true }
  else s

/-- Everything that changes the interaction state between two frames: a call of
`processInput` with the key states of that moment, a click on a panel button, or
an event delivered to a mouse callback. -/
inductive InputEvent (α : Type) where
  | keys (glfwGetKey : Int → Int)
  | earthButton (i : Nat)
  | saturnButton (i : Nat)
  | mouse (e : MouseEvent α)

/-- The effect of one input event. -/
def applyInput (m : MathFns α) (s : State α) : InputEvent α → State α
  | .keys glfwGetKey => processInput s glfwGetKey
  | .earthButton i => earthLocationButton s i
  | .saturnButton i => saturnLocationButton s i
  | .mouse e => handleEvent m s e

/-- The state after a finite sequence of input events. -/
def applyInputs (m : MathFns α) (s : State α) (events : List (InputEvent α)) : State α :=
  events.foldl (applyInput m) s

/-- A key state in which exactly the keys of `down` are pressed. -/
def keysDown (down : List Int) : Int → Int :=
  fun key => if key ∈ down then GLFW_PRESS else GLFW_RELEASE

/-- The bounds that hold in every state reachable from startup (used as the
invariant of the event loop): the location indices stay inside their tables,
the moon list is a sublist of the startup table, the focus is a planet or a
moon of the current list, and the time scale stays at or above its floor. -/
def ReachableInvariant (s : State α) : Prop :=
  (0 ≤ s.currentLocationIndex ∧ s.currentLocationIndex < 4)
  ∧ (-1 ≤ s.focusedLocationIndex ∧ s.focusedLocationIndex < 4)
  ∧ (0 ≤ s.currentSaturnLocationIndex ∧ s.currentSaturnLocationIndex < 2)
  ∧ s.moons.Sublist startupMoons
  ∧ (0 ≤ s.focusedPlanet ∧ (s.focusedPlanet ≤ 8 ∨ s.focusedPlanet < 9 + s.moons.length))
  ∧ 0.01 ≤ s.timeScale

/-- The indexed accesses of one frame whose index is a program variable, each
with the size of the container it goes into: the moon loops
(`planetPositions[moon.parentPlanet]`, `planetPositions[9 + i]`), the camera
target (`planetPositions[focusedPlanet]`), the guarded uses of
`focusedLocationIndex`, `currentLocationIndex` and `currentSaturnLocationIndex`
by the camera and marker code, and the unguarded uses
`earthLocations[currentLocationIndex]` and
`saturnLocations[currentSaturnLocationIndex]` in the two panels. -/
def frameIndexedAccesses (s : State α) : List (Int × Nat) :=
  -- "Update moon positions" and "Draw Moons"
  ((List.range s.moons.length).flatMap fun i =>
      [ (((s.moons.getD i ⟨0, 0, 0, 0, 0⟩).parentPlanet, 17) : Int × Nat),
        ((9 + (i : Int), 17) : Int × Nat),
        ((9 + (i : Int), 17) : Int × Nat) ])
  -- `cameraTarget = planetPositions[focusedPlanet]`
  ++ [ (s.focusedPlanet, 17) ]
  -- camera target on a focused Earth location
  ++ (if s.focusedPlanet = 3 ∧ s.focusedLocationIndex ≥ 0
        ∧ s.focusedLocationIndex < (earthLocations (α := α)).length then
        [ (s.focusedLocationIndex, (earthLocations (α := α)).length) ] else [])
  -- smooth camera movement
  ++ (if s.focusedPlanet = 3 ∧ s.isMovingToLocation = true ∧ s.currentLocationIndex ≥ 0
        ∧ s.currentLocationIndex < (earthLocations (α := α)).length then
        [ (s.currentLocationIndex, (earthLocations (α := α)).length) ] else [])
  -- Earth marker
  ++ (if s.focusedPlanet = 3 ∧ s.showEarthLocation = true ∧ s.currentLocationIndex ≥ 0
        ∧ s.currentLocationIndex < (earthLocations (α := α)).length then
        [ (s.currentLocationIndex, (earthLocations (α := α)).length) ] else [])
  -- Saturn marker
  ++ (if s.focusedPlanet = 6 ∧ s.showSaturnLocation = true ∧ s.currentSaturnLocationIndex ≥ 0
        ∧ s.currentSaturnLocationIndex < (saturnLocations (α := α)).length then
        [ (s.currentSaturnLocationIndex, (saturnLocations (α := α)).length) ] else [])
  -- "Earth Locations" panel
  ++ (if s.focusedPlanet = 3 ∧ s.showEarthLocation = true then
        [ (s.currentLocationIndex, (earthLocations (α := α)).length) ] else [])
  -- "Saturn Locations" panel
  ++ (if s.focusedPlanet = 6 ∧ s.showSaturnLocation = true then
        [ (s.currentSaturnLocationIndex, (saturnLocations (α := α)).length) ] else [])

end Keyboard

/-! ## Camera of the frame (render loop of `main`) -/

section Camera

variable {α : Type} [LinearOrderedField α]

/-- The global `locationCameraDistance`; the program never assigns it. -/
def locationCameraDistance : α := 3.5

/-- The global `cameraLerpSpeed`; the program never assigns it. -/
def cameraLerpSpeed : α := 0.08

/-- The library operation `glm::vec3 * float`. -/
def Vec3.scale (v : Vec3 α) (k : α) : Vec3 α :=
  ⟨v.x * k, v.y * k, v.z * k⟩

/-- The library function `glm::normalize`: the vector times the inverse square
root of its dot product with itself. -/
def normalize (m : MathFns α) (v : Vec3 α) : Vec3 α :=
  Vec3.scale v (1 / m.sqrt (v.x * v.x + v.y * v.y + v.z * v.z))

/-- The library function `glm::mix`: `x * (1 - a) + y * a`, component by component. -/
def mix (x y : Vec3 α) (a : α) : Vec3 α :=
  ⟨x.x * (1 - a) + y.x * a, x.y * (1 - a) + y.y * a, x.z * (1 - a) + y.z * a⟩

/-- What the camera code of one frame produces: the arguments `cameraPos` and
`cameraTarget` of `glm::lookAt`, and the two globals it may assign. -/
structure CameraFrame (α : Type) where
  cameraPos : Vec3 α
  cameraTarget : Vec3 α
  targetCameraPos : Vec3 α
  currentCameraPos : Vec3 α

/-- The camera code of the render loop, from "Compute camera target" to the call
of `glm::lookAt`, for the positions `planetPositions` of the frame. -/
def frameCamera (m : MathFns α) (s : State α) (g_animationAngle : α)
    (planetPositions : List (Vec3 α)) : CameraFrame α :=
  let cameraTarget := planetPositions.getD s.focusedPlanet.toNat 0
  -- "If a location on Earth is focused, position camera to view that location"
  let cameraTarget :=
    if s.focusedPlanet = 3 ∧ s.focusedLocationIndex ≥ 0
        ∧ s.focusedLocationIndex < (earthLocations (α := α)).length then
      let loc := (earthLocations (α := α)).getD s.focusedLocationIndex.toNat ⟨"", "", 0, 0, 0⟩
      let locPos := latLonToSpherePosition m loc.latitude loc.longitude 1.8
      let earthRotation := radians m (g_animationAngle * g_daySpeed * 1.0)
      let rotatedPos := rotateY m earthRotation locPos
      planetPositions.getD 3 0 + rotatedPos
    else cameraTarget
  let camX := cameraTarget.x
    + s.cameraDistance * m.cos (radians m s.cameraPitch) * m.sin (radians m s.cameraYaw)
  let camY := cameraTarget.y + s.cameraDistance * m.sin (radians m s.cameraPitch)
  let camZ := cameraTarget.z
    + s.cameraDistance * m.cos (radians m s.cameraPitch) * m.cos (radians m s.cameraYaw)
  let cameraPos : Vec3 α := ⟨camX, camY, camZ⟩
  -- "Smooth Camera Movement to Location"
  if s.focusedPlanet = 3 ∧ s.isMovingToLocation = true ∧ s.currentLocationIndex ≥ 0
      ∧ s.currentLocationIndex < (earthLocations (α := α)).length then
    let loc := (earthLocations (α := α)).getD s.currentLocationIndex.toNat ⟨"", "", 0, 0, 0⟩
    let locPos := latLonToSpherePosition m loc.latitude loc.longitude 1.8
    let earthRotation := radians m (g_animationAngle * g_daySpeed * 1.0)
    let rotatedPos := rotateY m earthRotation locPos
    let locationOnEarth := planetPositions.getD 3 0 + rotatedPos
    let dirToLocation := normalize m rotatedPos
    let newTargetPos := locationOnEarth
    let newCameraPos := locationOnEarth + Vec3.scale dirToLocation locationCameraDistance
    let targetCameraPos := newCameraPos
    let currentCameraPos := mix s.currentCameraPos targetCameraPos cameraLerpSpeed
    { cameraPos := currentCameraPos, cameraTarget := newTargetPos,
      targetCameraPos := targetCameraPos, currentCameraPos := currentCameraPos }
  else
    { cameraPos := cameraPos, cameraTarget := cameraTarget,
      targetCameraPos := s.targetCameraPos, currentCameraPos := s.currentCameraPos }

/-- The world position of the Saturn location marker, as the block "Draw
Location Pointer on Saturn" computes it (`markerWorldPos`); `none` when the
block is skipped. -/
def saturnMarkerWorldPos (m : MathFns α) (focusedPlanet : Int) (showSaturnLocation : Bool)
    (currentSaturnLocationIndex : Int) (g_animationAngle : α)
    (planetPositions : List (Vec3 α)) : Option (Vec3 α) :=
  if focusedPlanet = 6 ∧ showSaturnLocation = true ∧ currentSaturnLocationIndex ≥ 0
      ∧ currentSaturnLocationIndex < (saturnLocations (α := α)).length then
    let saturnRotation := radians m (g_animationAngle * g_daySpeed * 0.45)
    let loc := (saturnLocations (α := α)).getD currentSaturnLocationIndex.toNat
      ⟨"", "", 0, 0, 0⟩
    let locPos := latLonToSpherePosition m loc.latitude loc.longitude 4.7
    let rotatedPos := rotateY m saturnRotation locPos
    some (planetPositions.getD 6 0 + rotatedPos)
  else none

end Camera

/-! ## GL objects: `createFramebuffers` and the resize callback -/

/-- The three kinds of GL object that `createFramebuffers` manages; each kind
has its own space of names. -/
inductive ObjectKind where
  | framebuffer
  | texture
  | renderbuffer
deriving DecidableEq, Repr

/-- The global handle variables of the post-processing chain and of the
minimap; the two-element arrays `fboBloom` and `texBloom` are two variables each. -/
inductive Handle where
  | fboScene
  | texSceneColor
  | texBrightMap
  | rboDepth
  | fboBloom0
  | fboBloom1
  | texBloom0
  | texBloom1
  | fboGodRays
  | texGodRays
  | fboComposite
  | texComposite
  | fboFinal
  | texFinal
  | fboMinimap
  | texMinimap
deriving DecidableEq, Repr

/-- The kind of object a handle variable names. -/
def Handle.kind : Handle → ObjectKind
  | .fboScene => .framebuffer
  | .texSceneColor => .texture
  | .texBrightMap => .texture
  | .rboDepth => .renderbuffer
  | .fboBloom0 => .framebuffer
  | .fboBloom1 => .framebuffer
  | .texBloom0 => .texture
  | .texBloom1 => .texture
  | .fboGodRays => .framebuffer
  | .texGodRays => .texture
  | .fboComposite => .framebuffer
  | .texComposite => .texture
  | .fboFinal => .framebuffer
  | .texFinal => .texture
  | .fboMinimap => .framebuffer
  | .texMinimap => .texture

/-- All handle variables, in the order of their declaration. -/
def allHandles : List Handle :=
  [ .fboScene, .texSceneColor, .texBrightMap, .rboDepth, .fboBloom0, .fboBloom1, .texBloom0,
    .texBloom1, .fboGodRays, .texGodRays, .fboComposite, .texComposite, .fboFinal, .texFinal,
    .fboMinimap, .texMinimap ]

/-- The element `fboBloom[i]`, indexed by a `bool` as the bloom loop does. -/
def fboBloom : Bool → Handle
  | false => .fboBloom0
  | true => .fboBloom1

/-- The element `texBloom[i]`, indexed by a `bool` as the bloom loop does. -/
def texBloom : Bool → Handle
  | false => .texBloom0
  | true => .texBloom1

/-- The OpenGL calls that the model records.  Objects are referred to through
the handle variable that holds their name; `bindFramebuffer none` binds the
default framebuffer 0.  Calls that set parameters, viewports, shaders or
uniforms other than `u_horizontal`, and status checks, are left out. -/
inductive GLCall where
  | deleteObject (h : Handle)
  | genObject (h : Handle)
  | bindFramebuffer (fb : Option Handle)
  | bindTexture (tex : Handle)
  | activeTexture (unit : Nat)
  | texImage2D (width height : Int)
  | framebufferTexture2D (attachment : Nat) (tex : Handle)
  | bindRenderbuffer (rbo : Handle)
  | renderbufferStorage (width height : Int)
  | framebufferRenderbuffer (rbo : Handle)
  | setHorizontal (value : Bool)
  | clear
  | draw (what : String)
deriving DecidableEq, Repr

/-- The constant `MINIMAP_WIDTH`. -/
def MINIMAP_WIDTH : Int := 400

/-- The constant `MINIMAP_HEIGHT`. -/
def MINIMAP_HEIGHT : Int := 400

/-- The calls of `createFramebuffers(width, height)`, in source order. -/
def createFramebuffers (width height : Int) : List GLCall :=
  [ .deleteObject .fboScene,
    .deleteObject .texSceneColor,
    .deleteObject .texBrightMap,
    .deleteObject .rboDepth,
    .deleteObject .fboBloom0, .deleteObject .fboBloom1,   -- glDeleteFramebuffers(2, fboBloom)
    .deleteObject .texBloom0, .deleteObject .texBloom1,   -- glDeleteTextures(2, texBloom)
    .deleteObject .fboGodRays,
    .deleteObject .texGodRays,
    .deleteObject .fboComposite,
    .deleteObject .texComposite,
    .deleteObject .fboFinal,
    .deleteObject .texFinal,
    -- FBO Pass 1 (Scene)
    .genObject .fboScene,
    .bindFramebuffer (some .fboScene),
    .genObject .texSceneColor,
    .bindTexture .texSceneColor,
    .texImage2D width height,
    .framebufferTexture2D 0 .texSceneColor,
    .genObject .texBrightMap,
    .bindTexture .texBrightMap,
    .texImage2D width height,
    .framebufferTexture2D 1 .texBrightMap,
    .genObject .rboDepth,
    .bindRenderbuffer .rboDepth,
    .renderbufferStorage width height,
    .framebufferRenderbuffer .rboDepth,
    -- FBO Pass 2 (Bloom)
    .genObject .fboBloom0, .genObject .fboBloom1,         -- glGenFramebuffers(2, fboBloom)
    .genObject .texBloom0, .genObject .texBloom1,         -- glGenTextures(2, texBloom)
    .bindFramebuffer (some .fboBloom0),
    .bindTexture .texBloom0,
    .texImage2D width height,
    .framebufferTexture2D 0 .texBloom0,
    .bindFramebuffer (some .fboBloom1),
    .bindTexture .texBloom1,
    .texImage2D width height,
    .framebufferTexture2D 0 .texBloom1,
    -- FBO Pass 3 (God Rays)
    .genObject .fboGodRays,
    .genObject .texGodRays,
    .bindFramebuffer (some .fboGodRays),
    .bindTexture .texGodRays,
    .texImage2D width height,
    .framebufferTexture2D 0 .texGodRays,
    -- FBO Pass 4 (Composite)
    .genObject .fboComposite,
    .genObject .texComposite,
    .bindFramebuffer (some .fboComposite),
    .bindTexture .texComposite,
    .texImage2D width height,
    .framebufferTexture2D 0 .texComposite,
    -- FBO Pass 5 (Final)
    .genObject .fboFinal,
    .genObject .texFinal,
    .bindFramebuffer (some .fboFinal),
    .bindTexture .texFinal,
    .texImage2D width height,
    .framebufferTexture2D 0 .texFinal,
    -- Minimap FBO
    .deleteObject .fboMinimap,
    .deleteObject .texMinimap,
    .genObject .fboMinimap,
    .bindFramebuffer (some .fboMinimap),
    .genObject .texMinimap,
    .bindTexture .texMinimap,
    .texImage2D MINIMAP_WIDTH MINIMAP_HEIGHT,
    .framebufferTexture2D 0 .texMinimap,
    .bindFramebuffer none ]

/-- The part of the GL context that object creation and deletion act on: the
names in use for each kind of object, the values of the handle variables, and
the calls made so far (latest first). -/
structure GLState where
  live : ObjectKind → Finset Nat
  handle : Handle → Nat
  log : List GLCall

/-- The GL context before the first call of `createFramebuffers`: the handle
variables are zero-initialised globals; `others` are the names already taken
by objects that the handle variables do not own. -/
def initialGLState (others : ObjectKind → Finset Nat) : GLState :=
  { live := others, handle := fun _ => 0, log := [] }

/-- The effect of one call.  `alloc used` is the name that `glGen*` returns when
the names `used` are taken.  `glDelete*` ignores the name 0 and names that are
not in use. -/
def glCall (alloc : Finset Nat → Nat) (g : GLState) (c : GLCall) : GLState :=
  match c with
  | .deleteObject h =>
      if g.handle h = 0 then { g with log := c :: g.log }
      else
        { g with live := Function.update g.live h.kind ((g.live h.kind).erase (g.handle h)),
                 log := c :: g.log }
  | .genObject h =>
      { live := Function.update g.live h.kind (insert (alloc (g.live h.kind)) (g.live h.kind)),
        handle := Function.update g.handle h (alloc (g.live h.kind)),
        log := c :: g.log }
  | _ => { g with log := c :: g.log }

/-- The effect of a sequence of calls, made in order. -/
def glCalls (alloc : Finset Nat → Nat) (g : GLState) (cs : List GLCall) : GLState :=
  cs.foldl (glCall alloc) g

section Resize

variable {α : Type} [LinearOrderedField α]

/-- The callback `framebuffer_size_callback` of the source. -/
def framebuffer_size_callback (alloc : Finset Nat → Nat) (s : State α) (g : GLState)
    (width height : Int) : State α × GLState :=
  if width > 0 ∧ height > 0 then
    ({ s with SCR_WIDTH := width.toNat, SCR_HEIGHT := height.toNat },
     glCalls alloc g (createFramebuffers width height))
  else (s, g)

end Resize

/-- The allocator that returns the successor of the largest name in use. -/
def nextName (used : Finset Nat) : Nat :=
  used.sup id + 1

/-- The handle variables of one kind. -/
def handlesOfKind (k : ObjectKind) : List Handle :=
  allHandles.filter (fun h => decide (h.kind = k))

/-- The calls of a sequence that create or delete an object. -/
def lifetimeCalls (cs : List GLCall) : List GLCall :=
  cs.filter fun c =>
    match c with
    | .deleteObject _ => true
    | .genObject _ => true
    | _ => false

/-- Ownership of the live objects by the handle variables, used as the invariant
of a call sequence.  `D` lists the handle variables whose object has been deleted
and not yet regenerated (their value is stale), `Z` those among them that still
hold the initial 0, and `B k` is the set of names of kind `k` that belong to
objects no handle variable owns.  Every other handle variable names a live
object of its kind, no two of them the same one, and the live names are exactly
these and the names of `B`. -/
structure Owned (g : GLState) (D Z : List Handle) (B : ObjectKind → Finset Nat) : Prop where
  live_iff : ∀ k n, n ∈ g.live k ↔ (n ∈ B k ∨ ∃ h, h ∉ D ∧ h.kind = k ∧ g.handle h = n)
  not_base : ∀ h, h ∉ D → g.handle h ∉ B h.kind
  inj : ∀ h1 h2, h1 ∉ D → h2 ∉ D → h1.kind = h2.kind → g.handle h1 = g.handle h2 → h1 = h2
  zero : ∀ h, h ∈ Z → g.handle h = 0
  nonzero : ∀ k, 0 ∉ g.live k
  sub : ∀ h, h ∈ Z → h ∈ D

/-- The delete/generate discipline of a call sequence, checked by running it on
the lists `D` and `Z` of `Owned`: a delete must hit a handle variable that owns
an object or still holds 0, a generate one whose object has been deleted.  The
result is the pair of lists after the sequence, or `none` if a call breaks the
discipline. -/
def bracketCheck : List Handle → List Handle → List GLCall → Option (List Handle × List Handle)
  | D, Z, [] => some (D, Z)
  | D, Z, c :: cs =>
    match c with
    | .deleteObject h =>
        if h ∉ D then bracketCheck (h :: D) Z cs
        else if h ∈ Z then bracketCheck D Z cs
        else none
    | .genObject h =>
        if h ∈ D then
          bracketCheck (D.filter fun x => decide (x ≠ h)) (Z.filter fun x => decide (x ≠ h)) cs
        else none
    | _ => bracketCheck D Z cs

/-- The color attachments that a call sequence makes: each
`glFramebufferTexture2D` attaches its texture to the framebuffer bound by the
latest `glBindFramebuffer` before it. -/
def colorAttachments : List GLCall → Option Handle → List (Handle × Handle)
  | [], _ => []
  | .bindFramebuffer fb :: cs, _ => colorAttachments cs fb
  | .framebufferTexture2D _ tex :: cs, some fb => (fb, tex) :: colorAttachments cs (some fb)
  | _ :: cs, bound => colorAttachments cs bound

/-- Whether `tex` is a color attachment of `fb` after `createFramebuffers`. -/
def isAttached (fb tex : Handle) : Bool :=
  decide ((fb, tex) ∈ colorAttachments (createFramebuffers 0 0) none)

/-! ## Render passes of one frame -/

/-- One pass of the bloom loop: the framebuffer it binds, the value it gives the
uniform `u_horizontal`, and the texture it binds as `u_image`. -/
structure BlurPass where
  framebuffer : Handle
  u_horizontal : Bool
  image : Handle
deriving DecidableEq, Repr

/-- The bloom loop `for (int i = 0; i < amount; i++)`: the first argument is the
number of iterations still to run, the other two are the locals `horizontal` and
`first_iteration`. -/
def bloomLoop : Nat → Bool → Bool → List BlurPass
  | 0, _, _ => []
  | n + 1, horizontal, first_iteration =>
      { framebuffer := fboBloom horizontal,
        u_horizontal := horizontal,
        image := if first_iteration then Handle.texBrightMap else texBloom (!horizontal) }
        :: bloomLoop n (!horizontal) false

/-- The bloom passes of a frame for `amount` iterations: the loop started with
`horizontal = true` and `first_iteration = true`. -/
def bloomPasses (amount : Nat) : List BlurPass :=
  bloomLoop amount true true

/-- The calls of one bloom pass. -/
def BlurPass.calls (p : BlurPass) : List GLCall :=
  [ .bindFramebuffer (some p.framebuffer), .setHorizontal p.u_horizontal, .bindTexture p.image,
    .draw "quad" ]

/-- The local `amount` of the render loop. -/
def bloomAmount : Nat := 4

section Passes

variable {α : Type} [LinearOrderedField α]

/-- The local `shouldShowMinimap` of the render loop. -/
def shouldShowMinimap (s : State α) : Bool :=
  (decide (s.focusedPlanet = 3) && s.showEarthLocation)
    || (decide (s.focusedPlanet = 6) && s.showSaturnLocation)

/-- The framebuffer binds, clears, draws and post-processing texture binds of
one frame, in source order.  The draw calls of the scene pass and of the
minimap pass are collapsed into one entry each (none of them binds a
framebuffer); so is the overlay drawn onto the visible surface. -/
def frameRenderCalls (s : State α) : List GLCall :=
  -- STEP 4: FBO PASS 1 (Scene + BrightMap)
  [ .bindFramebuffer (some .fboScene), .clear, .draw "scene" ]
  -- RENDER MINIMAP TO FBO
  ++ (if shouldShowMinimap s then
        [ .bindFramebuffer (some .fboMinimap), .clear, .draw "minimap" ]
      else [])
  -- "Bind back to main FBO for post-processing"
  ++ [ .bindFramebuffer (some .fboScene) ]
  -- STEP 5: FBO PASS 2 (Bloom)
  ++ [ .activeTexture 0 ]
  ++ (bloomPasses bloomAmount).flatMap BlurPass.calls
  -- STEP 6: FBO PASS 3 (God Rays)
  ++ [ .bindFramebuffer (some .fboGodRays), .activeTexture 0, .bindTexture .texBrightMap,
       .draw "quad" ]
  -- STEP 7: FBO PASS 4 (Composite)
  ++ [ .bindFramebuffer (some .fboComposite),
       .activeTexture 0, .bindTexture .texSceneColor,
       .activeTexture 1, .bindTexture .texBloom0,
       .activeTexture 2, .bindTexture .texGodRays,
       .draw "quad" ]
  -- STEP 9/10: FINAL RENDER TO SCREEN, then the overlay
  ++ [ .bindFramebuffer none, .clear, .activeTexture 0, .bindTexture .texComposite,
       .draw "quad", .draw "overlay" ]

end Passes

/-- The framebuffers bound by a call sequence, in order. -/
def boundFramebuffers : List GLCall → List (Option Handle)
  | [] => []
  | .bindFramebuffer fb :: cs => fb :: boundFramebuffers cs
  | _ :: cs => boundFramebuffers cs

/-- The render targets written by a call sequence, in order: a binding of a
framebuffer counts once if a clear or a draw follows before the next binding,
and not at all otherwise.  `bound` is the binding in force, `written` tells
whether it has been counted. -/
def writtenTargets : List GLCall → Option Handle → Bool → List (Option Handle)
  | [], _, _ => []
  | .bindFramebuffer fb :: cs, _, _ => writtenTargets cs fb false
  | .clear :: cs, bound, written =>
      if written then writtenTargets cs bound true else bound :: writtenTargets cs bound true
  | .draw _ :: cs, bound, written =>
      if written then writtenTargets cs bound true else bound :: writtenTargets cs bound true
  | _ :: cs, bound, written => writtenTargets cs bound written

/-! ## Draw list of the scene pass -/

/-- The constant `ASTEROID_COUNT`. -/
def ASTEROID_COUNT : Nat := 2000

/-- One draw call of the scene pass (the calls collapsed into the entry
`draw "scene"` of `frameRenderCalls`): what is drawn.  `planet i` is the call
`drawBody` for `planetPositions[i]`, `shell i` the atmosphere or cloud sphere
drawn at planet `i`, `moon i` the call `drawBody` for `moons[i]`, and
`orbit i centre` the trace `orbitVAO[i]`, drawn around the origin (`none`) or
translated to `planetPositions[k]` (`some k`). -/
inductive SceneDraw where
  | sky
  | star
  | planet (i : Nat)
  | shell (i : Nat)
  | earthMarker
  | saturnMarker
  | moon (i : Nat)
  | innerAsteroid (i : Nat)
  | saturnRing
  | outerAsteroid (i : Nat)
  | orbit (i : Nat) (centre : Option Nat)
deriving DecidableEq, Repr

/-- The loop "Show all orbits as dotted lines": `for (int i = 0; i < 9; ++i)`,
where entry 8 is skipped unless `focusedPlanet == 3` and is the only one that is
translated (to `planetPositions[3]`). -/
def orbitDraws (focusedPlanet : Int) : List SceneDraw :=
  (List.range 9).flatMap fun i =>
    if i = 8 ∧ focusedPlanet ≠ 3 then []
    else [ SceneDraw.orbit i (if i = 8 then some 3 else none) ]

section SceneList

variable {α : Type} [LinearOrderedField α]

/-- The draw calls of the scene pass, in source order, from "Draw Sky Sphere"
to "Draw Orbits". -/
def sceneDraws (s : State α) : List SceneDraw :=
  [ .sky, .star,
    .planet 1,               -- Mercury
    .planet 2, .shell 2,     -- Venus and its atmosphere
    .planet 3, .shell 3 ]    -- Earth and its clouds
  -- "Draw Location Pointer on Earth for Selected Location Only"
  ++ (if s.focusedPlanet = 3 ∧ s.showEarthLocation = true ∧ s.currentLocationIndex ≥ 0
        ∧ s.currentLocationIndex < (earthLocations (α := α)).length then [ .earthMarker ]
      else [])
  -- "Draw Location Pointer on Saturn for Selected Location Only"
  ++ (if s.focusedPlanet = 6 ∧ s.showSaturnLocation = true ∧ s.currentSaturnLocationIndex ≥ 0
        ∧ s.currentSaturnLocationIndex < (saturnLocations (α := α)).length then [ .saturnMarker ]
      else [])
  ++ [ .planet 4 ]           -- Mars
  -- "Draw Moons": `for (int i = 0; i < moons.size(); ++i)`
  ++ (List.range s.moons.length).map SceneDraw.moon
  -- inner belt: `for (int i = 0; i < ASTEROID_COUNT; i++)`
  ++ (List.range ASTEROID_COUNT).map SceneDraw.innerAsteroid
  ++ [ .planet 5,            -- Jupiter
       .planet 6, .saturnRing,
       .planet 7, .planet 8 ]
  -- "Draw Outer Asteroid Belt": `for (int i = 0; i < ASTEROID_COUNT * 25; i++)`
  ++ (List.range (ASTEROID_COUNT * 25)).map SceneDraw.outerAsteroid
  -- "Draw Orbits"
  ++ orbitDraws s.focusedPlanet

end SceneList

/-- The stages of the scene pass in the order the code runs them, used to state
the order of the draw list: the sky, the star, the inner planets with their
shells and the location markers, the moons, the inner belt, the outer planets
with Saturn's ring, the outer belt, the orbit traces. -/
def SceneDraw.stage : SceneDraw → Nat
  | .sky => 0
  | .star => 1
  | .planet i => if i ≤ 4 then 2 else 5
  | .shell _ => 2
  | .earthMarker => 2
  | .saturnMarker => 2
  | .moon _ => 3
  | .innerAsteroid _ => 4
  | .saturnRing => 5
  | .outerAsteroid _ => 6
  | .orbit _ _ => 7

/-! ## Texture units of the post-processing chain -/

/-- The texture bound to each texture unit at the first draw into the
framebuffer `target`: `glActiveTexture` selects the unit and `glBindTexture`
binds to the selected unit.  `bound` is the framebuffer binding in force,
`unit` the active texture unit and `units` the bindings made so far; the result
is `none` when the sequence never draws into `target`. -/
def texturesAtDraw (target : Handle) :
    List GLCall → Option Handle → Nat → (Nat → Option Handle) → Option (Nat → Option Handle)
  | [], _, _, _ => none
  | .bindFramebuffer fb :: cs, _, unit, units => texturesAtDraw target cs fb unit units
  | .activeTexture u :: cs, bound, _, units => texturesAtDraw target cs bound u units
  | .bindTexture tex :: cs, bound, unit, units =>
      texturesAtDraw target cs bound unit (fun u => if u = unit then some tex else units u)
  | .draw _ :: cs, bound, unit, units =>
      if bound = some target then some units else texturesAtDraw target cs bound unit units
  | _ :: cs, bound, unit, units => texturesAtDraw target cs bound unit units

/-- The texture unit that the sampler `texBloom` of the composite shader reads:
`compositeShader.setInt("texBloom", 1)`. -/
def compositeBloomUnit : Nat := 1

/-! ## The edge-triggered actions of `processInput` -/

section Edges

variable {α : Type}

/-- Whether a console entry is the banner of the speed-up block. -/
def ConsoleMessage.isSpeedIncreased : ConsoleMessage α → Bool
  | .speedIncreased _ => true
  | _ => false

/-- Whether a console entry is the banner of the slow-down block. -/
def ConsoleMessage.isSpeedDecreased : ConsoleMessage α → Bool
  | .speedDecreased _ => true
  | _ => false

/-- Whether a console entry is the line of the key-9 block. -/
def ConsoleMessage.isKey9Line : ConsoleMessage α → Bool
  | .moonFocused _ => true
  | .moonNotFound => true
  | _ => false

/-- The number of times the speed-up block has run so far: it prints its banner
each time, and nothing else prints it. -/
def speedUpRuns (s : State α) : Nat :=
  s.console.countP ConsoleMessage.isSpeedIncreased

/-- The number of times the slow-down block has run so far. -/
def slowDownRuns (s : State α) : Nat :=
  s.console.countP ConsoleMessage.isSpeedDecreased

/-- The number of times the key-9 block has run so far. -/
def key9Runs (s : State α) : Nat :=
  s.console.countP ConsoleMessage.isKey9Line

/-- The number of polls in which `key` is down while it was up at the previous
poll; `prev` tells whether it was down at the poll before the first event.
Events other than polls do not count. -/
def risingEdges (key : Int) : Bool → List (InputEvent α) → Nat
  | _, [] => 0
  | prev, e :: es =>
      match e with
      | .keys glfwGetKey =>
          (if glfwGetKey key = GLFW_PRESS ∧ prev = false then 1 else 0)
          + risingEdges key (decide (glfwGetKey key = GLFW_PRESS)) es
      | _ => risingEdges key prev es

end Edges

/-! ## One iteration of the render loop -/

section Loop

variable {α : Type} [LinearOrderedField α]

/-- The condition of the block "Smooth Camera Movement to Location". -/
def movingToLocation (s : State α) : Bool :=
  decide (s.focusedPlanet = 3 ∧ s.isMovingToLocation = true ∧ s.currentLocationIndex ≥ 0
    ∧ s.currentLocationIndex < (earthLocations (α := α)).length)

/-- The assignments of the camera code of one frame to the globals
`targetCameraPos` and `currentCameraPos`. -/
def cameraStep (m : MathFns α) (g_animationAngle : α) (planetPositions : List (Vec3 α))
    (s : State α) : State α :=
  { s with
    targetCameraPos := (frameCamera m s g_animationAngle planetPositions).targetCameraPos
    currentCameraPos := (frameCamera m s g_animationAngle planetPositions).currentCameraPos }

/-- The head of one iteration of the render loop, up to the camera code: the
simulated time advances by `deltaTime * timeScale`, the animation angle is taken
from it, `processInput` runs, and the positions of the planets and the moons are
written.  The result is the state in which the camera code runs and the local
`g_animationAngle`. -/
def frameSetup (m : MathFns α) (s : State α) (deltaTime : α) (glfwGetKey : Int → Int) :
    State α × α :=
  let s := { s with g_simulationTime := s.g_simulationTime + deltaTime * s.timeScale }
  let g_animationAngle := animationAngle s.g_simulationTime
  let s := processInput s glfwGetKey
  let s := { s with
    planetPositions := updateMoonPositions m g_animationAngle s.moons
      (updatePlanetPositions m s.focusedPlanet g_animationAngle s.planetPositions) }
  (s, g_animationAngle)

/-- The camera of one iteration of the render loop: what `glm::lookAt` receives. -/
def frameEye (m : MathFns α) (s : State α) (deltaTime : α) (glfwGetKey : Int → Int) :
    CameraFrame α :=
  frameCamera m (frameSetup m s deltaTime glfwGetKey).1 (frameSetup m s deltaTime glfwGetKey).2
    (frameSetup m s deltaTime glfwGetKey).1.planetPositions

/-- The effect of one iteration of the render loop on the globals; the drawing
that follows the camera code writes none of them. -/
def renderFrame (m : MathFns α) (s : State α) (deltaTime : α) (glfwGetKey : Int → Int) :
    State α :=
  cameraStep m (frameSetup m s deltaTime glfwGetKey).2
    (frameSetup m s deltaTime glfwGetKey).1.planetPositions (frameSetup m s deltaTime glfwGetKey).1

/-- What happens while the program runs: an iteration of the render loop, with
the frame time and the key states of that iteration, or an input event
delivered between two iterations. -/
inductive LoopStep (α : Type) where
  | frame (deltaTime : α) (glfwGetKey : Int → Int)
  | input (e : InputEvent α)

/-- The effect of one step on the globals. -/
def loopStep (m : MathFns α) (s : State α) : LoopStep α → State α
  | .frame deltaTime glfwGetKey => renderFrame m s deltaTime glfwGetKey
  | .input e => applyInput m s e

/-- The globals after a finite sequence of steps. -/
def runLoop (m : MathFns α) (s : State α) (steps : List (LoopStep α)) : State α :=
  steps.foldl (loopStep m) s

/-- The number of iterations of the render loop, among the steps run from state
`s`, in which the block "Smooth Camera Movement to Location" is executed. -/
def movingFrames (m : MathFns α) : State α → List (LoopStep α) → Nat
  | _, [] => 0
  | s, step :: rest =>
      (match step with
        | .frame deltaTime glfwGetKey =>
            if movingToLocation (frameSetup m s deltaTime glfwGetKey).1 then 1 else 0
        | .input _ => 0)
      + movingFrames m (loopStep m s step) rest

end Loop

/-! ## Single precision

The definitions above compute in an ordered field.  The program computes in
IEEE 754 binary32 (`float`): every operation rounds its result to 24 significant
binary digits.  This section reads three expressions of the source with every
operation rounded; binary32 values are the rationals that `round32` leaves as
they are. -/

section RemovalTheorems

variable {α : Type}

/-- The loop started at iterator position `it` keeps the first `it` elements and
filters the rest. -/
theorem removeMoonsLoop_eq (planetIndex : Int) (moons : List (Moon α)) (it : Nat) :
    removeMoonsLoop planetIndex moons it
      = moons.take it ++ (moons.drop it).filter (fun mn => decide (mn.parentPlanet ≠ planetIndex)) := by
  induction moons, it using removeMoonsLoop.induct planetIndex with
  | case1 moons it h hp ih =>
    rw [removeMoonsLoop, dif_pos h, if_pos hp, ih]
    have hd : moons.drop it = moons.get ⟨it, h⟩ :: moons.drop (it + 1) := by
      simp
    rw [hd, List.filter_cons_of_neg (by simpa using hp)]
    rw [List.eraseIdx_eq_take_drop_succ]
    have hlen : (moons.take it).length = it := by
      rw [List.length_take]; omega
    have hnil : (moons.take it).drop it = [] :=
      List.drop_eq_nil_of_le (by rw [hlen])
    rw [List.take_append_eq_append_take, List.drop_append_eq_append_drop]
    simp [hlen, hnil, List.take_take]
  | case2 moons it h hp ih =>
    rw [removeMoonsLoop, dif_pos h, if_neg hp, ih]
    have hd : moons.drop it = moons.get ⟨it, h⟩ :: moons.drop (it + 1) := by
      simp
    rw [hd, List.filter_cons_of_pos (by simpa using hp)]
    have ht : moons.take (it + 1) = moons.take it ++ [moons.get ⟨it, h⟩] := by
      rw [List.take_succ]
      simp [List.getElem?_eq_getElem h]
    rw [ht, List.append_assoc, List.singleton_append]
  | case3 moons it h =>
    rw [removeMoonsLoop, dif_neg h]
    have h1 : moons.length ≤ it := Nat.le_of_not_lt h
    simp [List.take_of_length_le h1, List.drop_of_length_le h1]

/-- The function `removeMoonsOfPlanet` is the filter by `parentPlanet ≠ p`. -/
theorem removal_is_filter (planetIndex : Int) (moons : List (Moon α)) :
    removeMoonsOfPlanet planetIndex moons
      = moons.filter (fun mn => decide (mn.parentPlanet ≠ planetIndex)) := by
  simp [removeMoonsOfPlanet, removeMoonsLoop_eq]

/-- C1: `removeMoonsOfPlanet p` returns the moon list filtered by
`parentPlanet ≠ p` (so the survivors keep their relative order and are unchanged);
afterwards no moon with parent `p` remains, and every moon with another parent
is still in the list. -/
theorem removeMoonsOfPlanet_eq_filter (planetIndex : Int) (moons : List (Moon α)) :
    removeMoonsOfPlanet planetIndex moons
        = moons.filter (fun mn => decide (mn.parentPlanet ≠ planetIndex))
      ∧ (∀ mn ∈ removeMoonsOfPlanet planetIndex moons, mn.parentPlanet ≠ planetIndex)
      ∧ (∀ mn ∈ moons, mn.parentPlanet ≠ planetIndex →
            mn ∈ removeMoonsOfPlanet planetIndex moons) := by
  have h : removeMoonsOfPlanet planetIndex moons
      = moons.filter (fun mn => decide (mn.parentPlanet ≠ planetIndex)) := by
    simp [removeMoonsOfPlanet, removeMoonsLoop_eq]
  refine ⟨h, ?_, ?_⟩
  · intro mn hmn
    rw [h] at hmn
    simpa using (List.mem_filter.mp hmn).2
  · intro mn hmn hne
    rw [h]
    exact List.mem_filter.mpr ⟨hmn, by simpa using hne⟩

end RemovalTheorems

/-! ## Theorems: per-frame positions -/

section FrameTheorems

variable {α : Type} [LinearOrderedField α]

/-- A list with at least nine entries splits into its first nine and the rest. -/
theorem exists_nine_of_length {β : Type} (l : List β) (h : 9 ≤ l.length) :
    ∃ a0 a1 a2 a3 a4 a5 a6 a7 a8 rest,
      l = a0 :: a1 :: a2 :: a3 :: a4 :: a5 :: a6 :: a7 :: a8 :: rest := by
  match l, h with
  | a0 :: a1 :: a2 :: a3 :: a4 :: a5 :: a6 :: a7 :: a8 :: rest, _ =>
    exact ⟨a0, a1, a2, a3, a4, a5, a6, a7, a8, rest, rfl⟩

/-- Both branches of the planet block leave the same nine leading entries: the
origin and eight points on circles around it; the entries from 9 on are kept. -/
theorem updatePlanetPositions_eq (m : MathFns α) (focusedPlanet : Int) (a : α)
    (pp : List (Vec3 α)) (h : 9 ≤ pp.length) :
    updatePlanetPositions m focusedPlanet a pp =
      [ ⟨0.0, 0.0, 0.0⟩,
        ⟨m.cos (radians m (a * 4.15)) * 12.0, 0.0, m.sin (radians m (a * 4.15)) * 12.0⟩,
        ⟨m.cos (radians m (a * 1.62)) * 16.0, 0.0, m.sin (radians m (a * 1.62)) * 16.0⟩,
        ⟨m.cos (radians m (a * 1.0)) * 22.0, 0.0, m.sin (radians m (a * 1.0)) * 22.0⟩,
        ⟨m.cos (radians m (a * 0.53)) * 30.0, 0.0, m.sin (radians m (a * 0.53)) * 30.0⟩,
        ⟨m.cos (radians m (a * 0.08)) * 50.0, 0.0, m.sin (radians m (a * 0.08)) * 50.0⟩,
        ⟨m.cos (radians m (a * 0.03)) * 70.0, 0.0, m.sin (radians m (a * 0.03)) * 70.0⟩,
        ⟨m.cos (radians m (a * 0.01)) * 85.0, 0.0, m.sin (radians m (a * 0.01)) * 85.0⟩,
        ⟨m.cos (radians m (a * 0.006)) * 100.0, 0.0, m.sin (radians m (a * 0.006)) * 100.0⟩ ]
      ++ pp.drop 9 := by
  obtain ⟨a0, a1, a2, a3, a4, a5, a6, a7, a8, rest, rfl⟩ := exists_nine_of_length pp h
  unfold updatePlanetPositions
  by_cases hf : focusedPlanet = 0
  · simp only [hf, if_true, List.set_cons_zero, List.set_cons_succ, List.drop_succ_cons,
      List.drop_zero, List.cons_append, List.nil_append]
  · simp only [hf, if_false, List.range', List.foldl, List.set_cons_zero, List.set_cons_succ,
      List.drop_succ_cons, List.drop_zero, List.cons_append, List.nil_append, List.getD_cons_succ,
      List.getD_cons_zero]

/-- One moon step keeps the length of the position vector. -/
theorem updateMoonPosition_length (m : MathFns α) (a : α) (moons : List (Moon α))
    (pp : List (Vec3 α)) (i : Nat) :
    (updateMoonPosition m a moons pp i).length = pp.length := by
  unfold updateMoonPosition
  cases moons.get? i <;> simp

/-- One moon step changes no entry other than `9 + i`. -/
theorem updateMoonPosition_getElem?_ne (m : MathFns α) (a : α) (moons : List (Moon α))
    (pp : List (Vec3 α)) (i j : Nat) (hj : j ≠ 9 + i) :
    (updateMoonPosition m a moons pp i)[j]? = pp[j]? := by
  unfold updateMoonPosition
  cases moons.get? i with
  | none => rfl
  | some moon => simp [List.getElem?_set_ne (Ne.symm hj)]

/-- One moon step writes the parent's entry plus the circular offset at `9 + i`. -/
theorem updateMoonPosition_getElem?_eq (m : MathFns α) (a : α) (moons : List (Moon α))
    (pp : List (Vec3 α)) (i : Nat) (moon : Moon α) (hm : moons.get? i = some moon)
    (hi : 9 + i < pp.length) :
    (updateMoonPosition m a moons pp i)[9 + i]?
      = some (pp.getD moon.parentPlanet.toNat 0
          + ⟨m.cos (radians m (a * moon.orbitSpeed)) * moon.orbitRadius, 0.0,
             m.sin (radians m (a * moon.orbitSpeed)) * moon.orbitRadius⟩) := by
  unfold updateMoonPosition
  simp only [hm]
  rw [List.getElem?_set_self hi]

/-- The state of the moon loop after its first `n` iterations: the length is
kept, entries outside `9 .. 9 + n - 1` are untouched, and entry `9 + i` of a
moon whose parent index is below 9 holds the parent's entry plus the offset. -/
theorem updateMoonPositions_fold (m : MathFns α) (a : α) (moons : List (Moon α))
    (pp : List (Vec3 α)) (n : Nat) :
    ((List.range n).foldl (updateMoonPosition m a moons) pp).length = pp.length
    ∧ (∀ j, (j < 9 ∨ 9 + n ≤ j) →
        ((List.range n).foldl (updateMoonPosition m a moons) pp)[j]? = pp[j]?)
    ∧ (∀ i moon, i < n → moons.get? i = some moon → moon.parentPlanet.toNat < 9 →
        9 + i < pp.length →
        ((List.range n).foldl (updateMoonPosition m a moons) pp)[9 + i]?
          = some (pp.getD moon.parentPlanet.toNat 0
              + ⟨m.cos (radians m (a * moon.orbitSpeed)) * moon.orbitRadius, 0.0,
                 m.sin (radians m (a * moon.orbitSpeed)) * moon.orbitRadius⟩)) := by
  induction n with
  | zero => simp
  | succ n ih =>
    obtain ⟨ihlen, ihframe, ihval⟩ := ih
    rw [List.range_succ, List.foldl_append]
    simp only [List.foldl_cons, List.foldl_nil]
    refine ⟨?_, ?_, ?_⟩
    · rw [updateMoonPosition_length, ihlen]
    · intro j hj
      rw [updateMoonPosition_getElem?_ne m a moons _ n j (by omega)]
      exact ihframe j (by omega)
    · intro i moon hi hm hp hlen
      by_cases hin : i = n
      · subst hin
        rw [updateMoonPosition_getElem?_eq m a moons _ i moon hm (by rw [ihlen]; exact hlen)]
        have hpar := ihframe moon.parentPlanet.toNat (Or.inl hp)
        simp only [List.getD_eq_getElem?_getD, hpar]
      · rw [updateMoonPosition_getElem?_ne m a moons _ n (9 + i) (by omega)]
        exact ihval i moon (by omega) hm hp hlen

/-- The moon loop does not change the entries of the star and the planets. -/
theorem updateMoonPositions_getD_planet (m : MathFns α) (a : α) (moons : List (Moon α))
    (pp : List (Vec3 α)) (j : Nat) (hj : j < 9) :
    (updateMoonPositions m a moons pp).getD j 0 = pp.getD j 0 := by
  unfold updateMoonPositions
  simp only [List.getD_eq_getElem?_getD,
    (updateMoonPositions_fold m a moons pp moons.length).2.1 j (Or.inl hj)]

/-- Entries 0 to 8 of the frame's positions, for any focus and any moon list. -/
theorem framePositions_getD_planet (m : MathFns α) (focusedPlanet : Int) (t : α)
    (moons : List (Moon α)) (pp : List (Vec3 α)) (h : 9 ≤ pp.length) (j : Nat) (hj : j < 9) :
    (framePositions m focusedPlanet t moons pp).getD j 0 =
      ([ ⟨0.0, 0.0, 0.0⟩,
        ⟨m.cos (radians m (animationAngle t * 4.15)) * 12.0, 0.0,
         m.sin (radians m (animationAngle t * 4.15)) * 12.0⟩,
        ⟨m.cos (radians m (animationAngle t * 1.62)) * 16.0, 0.0,
         m.sin (radians m (animationAngle t * 1.62)) * 16.0⟩,
        ⟨m.cos (radians m (animationAngle t * 1.0)) * 22.0, 0.0,
         m.sin (radians m (animationAngle t * 1.0)) * 22.0⟩,
        ⟨m.cos (radians m (animationAngle t * 0.53)) * 30.0, 0.0,
         m.sin (radians m (animationAngle t * 0.53)) * 30.0⟩,
        ⟨m.cos (radians m (animationAngle t * 0.08)) * 50.0, 0.0,
         m.sin (radians m (animationAngle t * 0.08)) * 50.0⟩,
        ⟨m.cos (radians m (animationAngle t * 0.03)) * 70.0, 0.0,
         m.sin (radians m (animationAngle t * 0.03)) * 70.0⟩,
        ⟨m.cos (radians m (animationAngle t * 0.01)) * 85.0, 0.0,
         m.sin (radians m (animationAngle t * 0.01)) * 85.0⟩,
        ⟨m.cos (radians m (animationAngle t * 0.006)) * 100.0, 0.0,
         m.sin (radians m (animationAngle t * 0.006)) * 100.0⟩ ] : List (Vec3 α)).getD j 0 := by
  unfold framePositions
  simp only []
  rw [updateMoonPositions_getD_planet m _ moons _ j hj, updatePlanetPositions_eq m _ _ pp h]
  rw [List.getD_append _ _ _ _ (by simpa using hj)]

/-- The length of a point on the circle of radius `a` in the orbital plane. -/
theorem sqrt_circle (theta a : ℝ) (ha : 0 ≤ a) :
    Real.sqrt ((Real.cos theta * a) ^ 2 + (0.0 : ℝ) ^ 2 + (Real.sin theta * a) ^ 2) = a := by
  have h : (Real.cos theta * a) ^ 2 + (0.0 : ℝ) ^ 2 + (Real.sin theta * a) ^ 2 = a ^ 2 := by
    have := Real.cos_sq_add_sin_sq theta
    norm_num
    nlinarith [this]
  rw [h, Real.sqrt_sq ha]

/-- C2 (evaluation of the code where it leaves the claimed ellipse): at simulated
time 4.5 the animation angle is 90 degrees and the frame update puts Earth at
`(0, 0, 22)`, on the circle of radius 22, whatever body is focused; no point
of the ellipse of the claim, whose semi-minor axis is `22 * sqrt (1 - 0.3 ^ 2)`,
has that position, at any angle. -/
theorem earth_position_on_circle_not_ellipse (focusedPlanet : Int) :
    (framePositions realMath focusedPlanet (4.5 : ℝ) startupMoons (List.replicate 17 0)).getD 3 0
        = ⟨0, 0, 22⟩
      ∧ ∀ theta : ℝ, specPlanetPosition realMath 3 theta ≠ ⟨0, 0, 22⟩ := by
  constructor
  · rw [framePositions_getD_planet realMath focusedPlanet _ _ _ (by simp) 3 (by norm_num)]
    have hang : radians realMath (animationAngle (4.5 : ℝ) * 1.0) = Real.pi / 2 := by
      simp only [radians, animationAngle, realMath]
      ring
    simp only [List.getD_cons_succ, List.getD_cons_zero, hang]
    simp only [realMath, Real.cos_pi_div_two, Real.sin_pi_div_two]
    norm_num
  · intro theta h
    have hz := congrArg Vec3.z h
    simp only [specPlanetPosition, orbitParams, List.getD_cons_succ, List.getD_cons_zero,
      realMath] at hz
    have hs : Real.sqrt (1 - (0.30 : ℝ) * 0.30) < 1 := by
      rw [Real.sqrt_lt' (by norm_num)]
      norm_num
    have h0 : 0 ≤ Real.sqrt (1 - (0.30 : ℝ) * 0.30) := Real.sqrt_nonneg _
    have h1 := Real.sin_le_one theta
    norm_num at hz hs h0
    nlinarith

/-- C3: for every planet `i` in 1..8, every simulated time, every focus and
moon list, the Euclidean distance from the origin of the planet's position in
the frame lies between `semiMajor * (1 - e)` and `semiMajor * (1 + e)` of its
`orbitParams` entry. -/
theorem planet_distance_bounds (focusedPlanet : Int) (t : ℝ) (moons : List (Moon ℝ))
    (pp : List (Vec3 ℝ)) (hpp : pp.length = 17) (i : Nat) (h1 : 1 ≤ i) (h8 : i ≤ 8) :
    ((orbitParams (α := ℝ)).getD (i - 1) ⟨0, 0, 0⟩).semiMajor
        * (1 - ((orbitParams (α := ℝ)).getD (i - 1) ⟨0, 0, 0⟩).eccentricity)
      ≤ Real.sqrt (((framePositions realMath focusedPlanet t moons pp).getD i 0).x ^ 2
          + ((framePositions realMath focusedPlanet t moons pp).getD i 0).y ^ 2
          + ((framePositions realMath focusedPlanet t moons pp).getD i 0).z ^ 2)
    ∧ Real.sqrt (((framePositions realMath focusedPlanet t moons pp).getD i 0).x ^ 2
          + ((framePositions realMath focusedPlanet t moons pp).getD i 0).y ^ 2
          + ((framePositions realMath focusedPlanet t moons pp).getD i 0).z ^ 2)
      ≤ ((orbitParams (α := ℝ)).getD (i - 1) ⟨0, 0, 0⟩).semiMajor
        * (1 + ((orbitParams (α := ℝ)).getD (i - 1) ⟨0, 0, 0⟩).eccentricity) := by
  rw [framePositions_getD_planet realMath focusedPlanet t moons pp (by omega) i (by omega)]
  interval_cases i <;>
    simp only [orbitParams, List.getD_cons_succ, List.getD_cons_zero, realMath, Nat.sub_self,
      Nat.reduceSub] <;>
    rw [sqrt_circle _ _ (by norm_num)] <;>
    constructor <;> norm_num

/-- Witness of `planet_distance_bounds`: Earth (planet 3, entry 2 of
`orbitParams`) at simulated time 0 with the startup moon list. -/
theorem planet_distance_bounds_witness :
    ((orbitParams (α := ℝ)).getD (3 - 1) ⟨0, 0, 0⟩).semiMajor
        * (1 - ((orbitParams (α := ℝ)).getD (3 - 1) ⟨0, 0, 0⟩).eccentricity)
      ≤ Real.sqrt (((framePositions realMath 0 0 startupMoons (List.replicate 17 0)).getD 3 0).x ^ 2
          + ((framePositions realMath 0 0 startupMoons (List.replicate 17 0)).getD 3 0).y ^ 2
          + ((framePositions realMath 0 0 startupMoons (List.replicate 17 0)).getD 3 0).z ^ 2)
    ∧ Real.sqrt (((framePositions realMath 0 0 startupMoons (List.replicate 17 0)).getD 3 0).x ^ 2
          + ((framePositions realMath 0 0 startupMoons (List.replicate 17 0)).getD 3 0).y ^ 2
          + ((framePositions realMath 0 0 startupMoons (List.replicate 17 0)).getD 3 0).z ^ 2)
      ≤ ((orbitParams (α := ℝ)).getD (3 - 1) ⟨0, 0, 0⟩).semiMajor
        * (1 + ((orbitParams (α := ℝ)).getD (3 - 1) ⟨0, 0, 0⟩).eccentricity) :=
  planet_distance_bounds 0 0 startupMoons (List.replicate 17 0) (by simp) 3 (by decide)
    (by decide)

/-- C4: for every simulated time, every focused body and every moon list, the
`y` coordinate of the frame's position of the star and of each of the eight
planets (entries 0 to 8 of `planetPositions`) is 0. -/
theorem planet_position_y_zero (m : MathFns α) (focusedPlanet : Int) (t : α)
    (moons : List (Moon α)) (pp : List (Vec3 α)) (hpp : pp.length = 17) (i : Nat)
    (hi : i ≤ 8) :
    ((framePositions m focusedPlanet t moons pp).getD i 0).y = 0 := by
  rw [framePositions_getD_planet m focusedPlanet t moons pp (by omega) i (by omega)]
  interval_cases i <;>
    simp only [List.getD_cons_succ, List.getD_cons_zero] <;>
    norm_num

/-- Witness of `planet_position_y_zero`: Saturn in a frame at time 7 with
Earth focused. -/
theorem planet_position_y_zero_witness :
    ((framePositions realMath 3 (7 : ℝ) startupMoons (List.replicate 17 0)).getD 6 0).y = 0 :=
  planet_position_y_zero realMath 3 7 startupMoons (List.replicate 17 0) (by simp) 6
    (by decide)

/-- Every moon of the startup table has a parent index between 3 and 6. -/
theorem startupMoons_parent (mn : Moon α) (h : mn ∈ (startupMoons : List (Moon α))) :
    3 ≤ mn.parentPlanet ∧ mn.parentPlanet ≤ 6 := by
  simp only [startupMoons, List.mem_cons, List.mem_singleton, List.not_mem_nil, or_false] at h
  rcases h with h | h | h | h | h | h | h <;> subst h <;> simp

/-- The planet block keeps the length of the position vector. -/
theorem updatePlanetPositions_length (m : MathFns α) (focusedPlanet : Int) (a : α)
    (pp : List (Vec3 α)) (h : 9 ≤ pp.length) :
    (updatePlanetPositions m focusedPlanet a pp).length = pp.length := by
  rw [updatePlanetPositions_eq m focusedPlanet a pp h]
  simp
  omega

/-- C6: for every surviving moon (element `i` of a sublist of the startup moon
table) and every simulated time, the frame stores at entry `9 + i` the position
of the moon's parent planet in the same frame plus
`(orbitRadius * cos theta, 0, orbitRadius * sin theta)`, where `theta` is the
animation angle of the frame times the moon's `orbitSpeed`, in radians. -/
theorem moon_position (m : MathFns α) (focusedPlanet : Int) (t : α) (moons : List (Moon α))
    (hms : moons.Sublist startupMoons) (pp : List (Vec3 α)) (hpp : pp.length = 17)
    (i : Nat) (hi : i < moons.length) :
    (framePositions m focusedPlanet t moons pp).getD (9 + i) 0
      = (framePositions m focusedPlanet t moons pp).getD (moons.get ⟨i, hi⟩).parentPlanet.toNat 0
        + ⟨m.cos (radians m (animationAngle t * (moons.get ⟨i, hi⟩).orbitSpeed))
              * (moons.get ⟨i, hi⟩).orbitRadius,
           0,
           m.sin (radians m (animationAngle t * (moons.get ⟨i, hi⟩).orbitSpeed))
              * (moons.get ⟨i, hi⟩).orbitRadius⟩ := by
  have hlen : moons.length ≤ 7 := by
    have := hms.length_le
    simpa [startupMoons] using this
  have hmem : moons.get ⟨i, hi⟩ ∈ (startupMoons : List (Moon α)) :=
    hms.subset (List.get_mem moons i hi)
  have hpar := startupMoons_parent (moons.get ⟨i, hi⟩) hmem
  have hp9 : (moons.get ⟨i, hi⟩).parentPlanet.toNat < 9 := by omega
  have hget : moons.get? i = some (moons.get ⟨i, hi⟩) := List.get?_eq_get hi
  unfold framePositions
  simp only []
  have hfold := updateMoonPositions_fold m (animationAngle t) moons
    (updatePlanetPositions m focusedPlanet (animationAngle t) pp) moons.length
  have hval := hfold.2.2 i (moons.get ⟨i, hi⟩) hi hget hp9
    (by rw [updatePlanetPositions_length m focusedPlanet _ pp (by omega)]; omega)
  rw [updateMoonPositions_getD_planet m _ moons _ _ hp9]
  unfold updateMoonPositions
  rw [List.getD_eq_getElem?_getD, hval]
  have hz : (0.0 : α) = 0 := by norm_num
  simp only [Option.getD_some, hz, List.get_eq_getElem]

/-- Witness of `moon_position`: the Moon (entry 6 of the startup table, stored
at entry 15) at simulated time 0 with the Sun focused. -/
theorem moon_position_witness :
    (framePositions realMath 0 (0 : ℝ) startupMoons (List.replicate 17 0)).getD (9 + 6) 0
      = (framePositions realMath 0 (0 : ℝ) startupMoons (List.replicate 17 0)).getD
          ((startupMoons (α := ℝ)).get ⟨6, by simp [startupMoons]⟩).parentPlanet.toNat 0
        + ⟨realMath.cos (radians realMath (animationAngle (0 : ℝ)
              * ((startupMoons (α := ℝ)).get ⟨6, by simp [startupMoons]⟩).orbitSpeed))
              * ((startupMoons (α := ℝ)).get ⟨6, by simp [startupMoons]⟩).orbitRadius,
           0,
           realMath.sin (radians realMath (animationAngle (0 : ℝ)
              * ((startupMoons (α := ℝ)).get ⟨6, by simp [startupMoons]⟩).orbitSpeed))
              * ((startupMoons (α := ℝ)).get ⟨6, by simp [startupMoons]⟩).orbitRadius⟩ :=
  moon_position realMath 0 0 startupMoons (List.Sublist.refl _) (List.replicate 17 0)
    (by simp) 6 (by simp [startupMoons])

/-- The cosine of -150 degrees. -/
theorem cos_neg_150 : Real.cos (-150.0 * (Real.pi / 180)) = -(Real.sqrt 3 / 2) := by
  have h : (-150.0 : ℝ) * (Real.pi / 180) = -(Real.pi - Real.pi / 6) := by
    norm_num
    ring
  rw [h, Real.cos_neg, Real.cos_pi_sub, Real.cos_pi_div_six]

/-- The sine of -150 degrees. -/
theorem sin_neg_150 : Real.sin (-150.0 * (Real.pi / 180)) = -(1 / 2) := by
  have h : (-150.0 : ℝ) * (Real.pi / 180) = -(Real.pi - Real.pi / 6) := by
    norm_num
    ring
  rw [h, Real.sin_neg, Real.sin_pi_sub, Real.sin_pi_div_six]

/-- C7: `latLonToSpherePosition` returns
`(r * cos lat * cos lon, r * sin lat, r * cos lat * sin lon)` with both angles
converted from degrees to radians; entry 0 of `earthLocations` is "Ocean" with
latitude 0 and longitude -150, and when Earth is focused with that location
shown at animation angle 0 (Earth rotation angle 0) the marker is drawn at
Earth's position plus `(1.8 * cos (-150 deg), 0, 1.8 * sin (-150 deg))`, which is
`(-0.9 * sqrt 3, 0, -0.9)`. -/
theorem latLonToSpherePosition_ocean_marker :
    (∀ latitude longitude radius : ℝ,
        latLonToSpherePosition realMath latitude longitude radius
          = ⟨radius * Real.cos (latitude * (Real.pi / 180))
                * Real.cos (longitude * (Real.pi / 180)),
             radius * Real.sin (latitude * (Real.pi / 180)),
             radius * Real.cos (latitude * (Real.pi / 180))
                * Real.sin (longitude * (Real.pi / 180))⟩)
    ∧ ((earthLocations (α := ℝ)).getD 0 ⟨"", "", 0, 0, 0⟩).name = "Ocean"
    ∧ ((earthLocations (α := ℝ)).getD 0 ⟨"", "", 0, 0, 0⟩).latitude = 0
    ∧ ((earthLocations (α := ℝ)).getD 0 ⟨"", "", 0, 0, 0⟩).longitude = -150
    ∧ (∀ pp : List (Vec3 ℝ),
        earthMarkerWorldPos realMath 3 true 0 0 pp
          = some (pp.getD 3 0
              + ⟨1.8 * Real.cos (-150 * (Real.pi / 180)), 0,
                 1.8 * Real.sin (-150 * (Real.pi / 180))⟩))
    ∧ (⟨1.8 * Real.cos (-150 * (Real.pi / 180)), 0, 1.8 * Real.sin (-150 * (Real.pi / 180))⟩
          : Vec3 ℝ) = ⟨-(0.9 * Real.sqrt 3), 0, -0.9⟩ := by
  have hc := cos_neg_150
  have hs := sin_neg_150
  norm_num at hc hs
  refine ⟨?_, ?_, ?_, ?_, ?_, ?_⟩
  · intro latitude longitude radius
    rfl
  · simp [earthLocations]
  · norm_num [earthLocations]
  · norm_num [earthLocations]
  · intro pp
    simp only [earthMarkerWorldPos, earthLocations, latLonToSpherePosition, rotateY, radians,
      realMath, g_daySpeed]
    norm_num
  · norm_num [hc, hs]
    ring

end FrameTheorems

/-! ## Theorems: camera distance and pitch under input events -/

section CameraTheorems

variable {α : Type} [LinearOrderedField α]

/-- The bounds that the callbacks maintain: the distance in `[1, 800]` and the
pitch in `[-89, 89]`. -/
theorem scroll_callback_bounds (s : State α) (xoffset yoffset : α) :
    1 ≤ (scroll_callback s xoffset yoffset).cameraDistance
      ∧ (scroll_callback s xoffset yoffset).cameraDistance ≤ 800
      ∧ (scroll_callback s xoffset yoffset).cameraPitch = s.cameraPitch := by
  unfold scroll_callback
  refine ⟨?_, ?_, ?_⟩
  · simp only []
    split_ifs with h1 h2 h2
    all_goals norm_num at *
    all_goals assumption
  · simp only []
    split_ifs with h1 h2 h2
    all_goals norm_num at *
    all_goals assumption
  · rfl

/-- `mouse_callback` leaves the distance alone and, when it moves the pitch,
leaves it in `[-89, 89]`. -/
theorem mouse_callback_bounds (s : State α) (xpos ypos : α)
    (hp : -89 ≤ s.cameraPitch ∧ s.cameraPitch ≤ 89) :
    (mouse_callback s xpos ypos).cameraDistance = s.cameraDistance
      ∧ -89 ≤ (mouse_callback s xpos ypos).cameraPitch
      ∧ (mouse_callback s xpos ypos).cameraPitch ≤ 89 := by
  unfold mouse_callback
  by_cases hd : s.isDragging = true
  · rw [if_pos hd]
    refine ⟨?_, ?_, ?_⟩
    · rfl
    · simp only []
      split_ifs with h1 h2 h2
      all_goals norm_num at *
      all_goals assumption
    · simp only []
      split_ifs with h1 h2 h2
      all_goals norm_num at *
      all_goals assumption
  · rw [if_neg hd]
    exact ⟨rfl, hp.1, hp.2⟩

/-- `mouse_button_callback` never changes the pitch, and leaves the distance
either as it was or at 2.5. -/
theorem mouse_button_callback_bounds (m : MathFns α) (s : State α) (button action : Int)
    (cursorX cursorY : α) :
    (mouse_button_callback m s button action cursorX cursorY).cameraPitch = s.cameraPitch
      ∧ ((mouse_button_callback m s button action cursorX cursorY).cameraDistance
            = s.cameraDistance
          ∨ (mouse_button_callback m s button action cursorX cursorY).cameraDistance = 2.5) := by
  unfold mouse_button_callback
  simp only []
  split_ifs <;> simp

/-- One event keeps the distance in `[1, 800]` and the pitch in `[-89, 89]`. -/
theorem handleEvent_bounds (m : MathFns α) (s : State α) (e : MouseEvent α)
    (hd : 1 ≤ s.cameraDistance ∧ s.cameraDistance ≤ 800)
    (hp : -89 ≤ s.cameraPitch ∧ s.cameraPitch ≤ 89) :
    (1 ≤ (handleEvent m s e).cameraDistance ∧ (handleEvent m s e).cameraDistance ≤ 800)
      ∧ (-89 ≤ (handleEvent m s e).cameraPitch ∧ (handleEvent m s e).cameraPitch ≤ 89) := by
  cases e with
  | cursorPos xpos ypos =>
    obtain ⟨h1, h2, h3⟩ := mouse_callback_bounds s xpos ypos hp
    simp only [handleEvent]
    rw [h1]
    exact ⟨hd, h2, h3⟩
  | mouseButton button action cursorX cursorY =>
    obtain ⟨h1, h2⟩ := mouse_button_callback_bounds m s button action cursorX cursorY
    simp only [handleEvent]
    rw [h1]
    refine ⟨?_, hp⟩
    rcases h2 with h2 | h2 <;> rw [h2]
    · exact hd
    · norm_num
  | scroll xoffset yoffset =>
    obtain ⟨h1, h2, h3⟩ := scroll_callback_bounds s xoffset yoffset
    simp only [handleEvent]
    rw [h3]
    exact ⟨⟨h1, h2⟩, hp⟩

/-- Any finite sequence of events keeps the distance in `[1, 800]` and the pitch
in `[-89, 89]`. -/
theorem handleEvents_bounds (m : MathFns α) (events : List (MouseEvent α)) (s : State α)
    (hd : 1 ≤ s.cameraDistance ∧ s.cameraDistance ≤ 800)
    (hp : -89 ≤ s.cameraPitch ∧ s.cameraPitch ≤ 89) :
    (1 ≤ (handleEvents m s events).cameraDistance
        ∧ (handleEvents m s events).cameraDistance ≤ 800)
      ∧ (-89 ≤ (handleEvents m s events).cameraPitch
        ∧ (handleEvents m s events).cameraPitch ≤ 89) := by
  induction events generalizing s with
  | nil => exact ⟨hd, hp⟩
  | cons e es ih =>
    have h := handleEvent_bounds m s e hd hp
    simpa [handleEvents] using ih (handleEvent m s e) h.1 h.2

/-- C9: from the startup state, whose pitch is 20 degrees, after any finite
sequence of cursor moves with arbitrary positions, interleaved with any
mouse-button and scroll events, `cameraPitch` is strictly between -90 and 90. -/
theorem cameraPitch_in_open_range (m : MathFns α) (events : List (MouseEvent α)) :
    (initialState (α := α)).cameraPitch = 20
      ∧ -90 < (handleEvents m initialState events).cameraPitch
      ∧ (handleEvents m initialState events).cameraPitch < 90 := by
  have h := (handleEvents_bounds m events initialState (by norm_num [initialState])
    (by norm_num [initialState])).2
  refine ⟨by norm_num [initialState], ?_, ?_⟩
  · linarith [h.1]
  · linarith [h.2]

/-- C10 (evaluation of the code where the clamp is not symmetric): a drag from
cursor height 1000 to 0 takes the pitch from 20 to -80; a second drag from 1000
to 900 gives -90, below the lower bound, and `mouse_callback` stores 89, where
the symmetric clamp `max (-89) (min 89 (p + d))` gives -89. -/
theorem mouse_callback_underflow_gives_89 (m : MathFns ℚ) :
    (handleEvents m initialState
        [ .mouseButton GLFW_MOUSE_BUTTON_LEFT GLFW_PRESS 0 1000,
          .cursorPos 0 0 ]).cameraPitch = -80
    ∧ (handleEvents m initialState
        [ .mouseButton GLFW_MOUSE_BUTTON_LEFT GLFW_PRESS 0 1000,
          .cursorPos 0 0,
          .mouseButton GLFW_MOUSE_BUTTON_LEFT GLFW_RELEASE 0 0,
          .mouseButton GLFW_MOUSE_BUTTON_LEFT GLFW_PRESS 0 1000,
          .cursorPos 0 900 ]).cameraPitch = 89
    ∧ max (-89) (min 89 ((-80 : ℚ) + (900 - 1000) * 0.1)) = -89 := by
  refine ⟨?_, ?_, ?_⟩
  · norm_num [handleEvents, handleEvent, mouse_button_callback, mouse_callback, initialState,
      GLFW_MOUSE_BUTTON_LEFT, GLFW_PRESS, GLFW_RELEASE]
  · norm_num [handleEvents, handleEvent, mouse_button_callback, mouse_callback, initialState,
      GLFW_MOUSE_BUTTON_LEFT, GLFW_PRESS, GLFW_RELEASE]
  · norm_num

end CameraTheorems

/-! ## Theorems: keyboard actions -/

section ScanTheorems

variable {α : Type}

/-- The scan returns the start index plus the position of the first moon of
planet 3, and -1 when there is none. -/
theorem earthMoonScan_spec (moons : List (Moon α)) (start : Nat) :
    ((∀ mn ∈ moons, mn.parentPlanet ≠ 3) → earthMoonScan moons start = -1)
    ∧ (∀ (i : Nat) (mi : Moon α), moons.get? i = some mi → mi.parentPlanet = 3 →
        (∀ mn ∈ moons.take i, mn.parentPlanet ≠ 3) →
        earthMoonScan moons start = ((start + i : Nat) : Int)) := by
  induction moons generalizing start with
  | nil =>
    refine ⟨fun _ => rfl, ?_⟩
    intro i mi h
    simp at h
  | cons mn rest ih =>
    refine ⟨?_, ?_⟩
    · intro h
      have h1 : mn.parentPlanet ≠ 3 := h mn (List.mem_cons_self _ _)
      rw [earthMoonScan, if_neg h1]
      exact (ih (start + 1)).1 (fun x hx => h x (List.mem_cons_of_mem _ hx))
    · intro i mi hget hpar hbefore
      cases i with
      | zero =>
        simp only [List.get?_cons_zero, Option.some.injEq] at hget
        subst hget
        rw [earthMoonScan, if_pos hpar]
        simp
      | succ i =>
        simp only [List.get?_cons_succ] at hget
        have h1 : mn.parentPlanet ≠ 3 := hbefore mn (by simp)
        rw [earthMoonScan, if_neg h1]
        rw [(ih (start + 1)).2 i mi hget hpar
          (fun x hx => hbefore x (by simp [List.take_succ_cons, hx]))]
        congr 1
        omega

/-- A successful scan returns an index inside the scanned part. -/
theorem earthMoonScan_range (moons : List (Moon α)) (start : Nat) :
    earthMoonScan moons start = -1
      ∨ ((start : Int) ≤ earthMoonScan moons start
          ∧ earthMoonScan moons start < (start : Int) + (moons.length : Int)) := by
  induction moons generalizing start with
  | nil => exact Or.inl rfl
  | cons mn rest ih =>
    rw [earthMoonScan]
    split_ifs with h
    · right
      simp only [List.length_cons]
      omega
    · rcases ih (start + 1) with h1 | h1
      · exact Or.inl h1
      · right
        simp only [List.length_cons]
        omega

end ScanTheorems

section KeyboardTheorems

variable {α : Type} [LinearOrderedField α]

/-- C12: the key-9 action removes the moons of planet 4 (the new list is the old
one filtered by `parentPlanet ≠ 4`) and then sets `focusedPlanet` to `9 + i` for
the smallest index `i` of the new list whose moon has parent 3, or to 3 when
the new list has no such moon; with the startup moon table the focus becomes 14.
`processInput` runs the action when key 9 is down and was up at the previous
poll. -/
theorem key9Action_focus (s : State α) :
    (key9Action s).moons = s.moons.filter (fun mn => decide (mn.parentPlanet ≠ 4))
    ∧ (∀ (i : Nat) (mi : Moon α), (key9Action s).moons.get? i = some mi →
        mi.parentPlanet = 3 →
        (∀ mn ∈ (key9Action s).moons.take i, mn.parentPlanet ≠ 3) →
        (key9Action s).focusedPlanet = 9 + (i : Int))
    ∧ ((∀ mn ∈ (key9Action s).moons, mn.parentPlanet ≠ 3) → (key9Action s).focusedPlanet = 3)
    ∧ (s.moons = startupMoons → (key9Action s).focusedPlanet = 14)
    ∧ (∀ glfwGetKey : Int → Int, glfwGetKey GLFW_KEY_9 = GLFW_PRESS →
        s.nineKeyPressed = false → processKey9 s glfwGetKey = key9Action s) := by
  have hmoons : (key9Action s).moons = s.moons.filter (fun mn => decide (mn.parentPlanet ≠ 4)) :=
    (removal_is_filter 4 s.moons)
  have hfocus : (key9Action s).focusedPlanet
      = if earthMoonScan (key9Action s).moons 0 ≥ 0
          then 9 + earthMoonScan (key9Action s).moons 0 else 3 := rfl
  have hfound : ∀ (i : Nat) (mi : Moon α), (key9Action s).moons.get? i = some mi →
        mi.parentPlanet = 3 →
        (∀ mn ∈ (key9Action s).moons.take i, mn.parentPlanet ≠ 3) →
        (key9Action s).focusedPlanet = 9 + (i : Int) := by
    intro i mi hget hpar hbefore
    have h := (earthMoonScan_spec (key9Action s).moons 0).2 i mi hget hpar hbefore
    rw [hfocus, h]
    simp
  refine ⟨hmoons, hfound, ?_, ?_, ?_⟩
  · intro hnone
    have h := (earthMoonScan_spec (key9Action s).moons 0).1 hnone
    rw [hfocus, h]
    simp
  · intro hstart
    have h := hfound 5 ⟨3, 2.5, 13.0, 0.4, 0⟩
    rw [hmoons, hstart] at h
    have h5 := h (by simp [startupMoons]) rfl (by simp [startupMoons])
    simpa using h5
  · intro glfwGetKey hpress hflag
    unfold processKey9
    simp only [hpress, hflag, and_self, if_true]
    rw [if_neg (by decide)]

/-- The effect of a left-button press near the centre with Earth focused. -/
theorem centre_click (m : MathFns α) (s : State α) (cursorX cursorY : α)
    (hf : s.focusedPlanet = 3)
    (hd : distFromCenter m s.SCR_WIDTH s.SCR_HEIGHT cursorX cursorY < 300) :
    mouse_button_callback m s GLFW_MOUSE_BUTTON_LEFT GLFW_PRESS cursorX cursorY
      = { s with lastMouseX := cursorX, lastMouseY := cursorY,
                 selectedLocationIndex := (s.focusedLocationIndex + 1) % 4,
                 currentLocationIndex := (s.focusedLocationIndex + 1) % 4,
                 focusedLocationIndex := (s.focusedLocationIndex + 1) % 4,
                 showEarthLocation := true, cameraDistance := 2.5, isDragging := false } := by
  have hd2 : m.sqrt ((cursorX - (s.SCR_WIDTH : α) / 2.0) * (cursorX - (s.SCR_WIDTH : α) / 2.0)
        + (cursorY - (s.SCR_HEIGHT : α) / 2.0) * (cursorY - (s.SCR_HEIGHT : α) / 2.0))
      < 300.0 := by
    have h300 : (300.0 : α) = 300 := by norm_num
    rw [h300]
    exact hd
  have hlen : (((earthLocations (α := α)).length : Nat) : Int) = 4 := by
    simp [earthLocations]
  unfold mouse_button_callback
  simp only [if_true, hf, hd2, hlen]

/-- The effect of a left-button press that is not a centre click on Earth. -/
theorem drag_click (m : MathFns α) (s : State α) (cursorX cursorY : α)
    (h : s.focusedPlanet ≠ 3
      ∨ ¬ distFromCenter m s.SCR_WIDTH s.SCR_HEIGHT cursorX cursorY < 300) :
    mouse_button_callback m s GLFW_MOUSE_BUTTON_LEFT GLFW_PRESS cursorX cursorY
      = { s with lastMouseX := cursorX, lastMouseY := cursorY, isDragging := true } := by
  have h300 : (300.0 : α) = 300 := by norm_num
  unfold mouse_button_callback
  simp only [if_true]
  by_cases hf : s.focusedPlanet = 3
  · have hd : ¬ distFromCenter m s.SCR_WIDTH s.SCR_HEIGHT cursorX cursorY < 300 := by
      rcases h with h | h
      · exact absurd hf h
      · exact h
    rw [if_pos hf, h300]
    exact if_neg hd
  · rw [if_neg hf]

/-- What a centre click keeps and what it advances. -/
theorem centre_click_step (m : MathFns α) (s : State α) (cursorX cursorY : α)
    (hf : s.focusedPlanet = 3)
    (hd : distFromCenter m s.SCR_WIDTH s.SCR_HEIGHT cursorX cursorY < 300) :
    (mouse_button_callback m s GLFW_MOUSE_BUTTON_LEFT GLFW_PRESS cursorX cursorY).focusedPlanet
        = 3
    ∧ (mouse_button_callback m s GLFW_MOUSE_BUTTON_LEFT GLFW_PRESS cursorX cursorY).SCR_WIDTH
        = s.SCR_WIDTH
    ∧ (mouse_button_callback m s GLFW_MOUSE_BUTTON_LEFT GLFW_PRESS cursorX cursorY).SCR_HEIGHT
        = s.SCR_HEIGHT
    ∧ (mouse_button_callback m s GLFW_MOUSE_BUTTON_LEFT GLFW_PRESS cursorX
          cursorY).focusedLocationIndex = (s.focusedLocationIndex + 1) % 4 := by
  rw [centre_click m s cursorX cursorY hf hd]
  exact ⟨hf, rfl, rfl, rfl⟩

/-- C16: with Earth focused, a left-button press less than 300 pixels from the
screen centre leaves `isDragging` false and selects location
`(focusedLocationIndex + 1) mod 4`; four such presses in a row bring a selected
location (index 0 to 3) back to itself; a press at 300 pixels or more from the
centre, or with another body focused, sets `isDragging` and leaves the location
variables as they were. -/
theorem centre_click_cycles (m : MathFns α) (s : State α) :
    (∀ cursorX cursorY : α, s.focusedPlanet = 3 →
        distFromCenter m s.SCR_WIDTH s.SCR_HEIGHT cursorX cursorY < 300 →
        (mouse_button_callback m s GLFW_MOUSE_BUTTON_LEFT GLFW_PRESS cursorX cursorY).isDragging
            = false
        ∧ (mouse_button_callback m s GLFW_MOUSE_BUTTON_LEFT GLFW_PRESS cursorX
              cursorY).focusedLocationIndex = (s.focusedLocationIndex + 1) % 4
        ∧ (mouse_button_callback m s GLFW_MOUSE_BUTTON_LEFT GLFW_PRESS cursorX
              cursorY).currentLocationIndex = (s.focusedLocationIndex + 1) % 4
        ∧ (mouse_button_callback m s GLFW_MOUSE_BUTTON_LEFT GLFW_PRESS cursorX
              cursorY).selectedLocationIndex = (s.focusedLocationIndex + 1) % 4
        ∧ (mouse_button_callback m s GLFW_MOUSE_BUTTON_LEFT GLFW_PRESS cursorX
              cursorY).showEarthLocation = true)
    ∧ (∀ x1 y1 x2 y2 x3 y3 x4 y4 : α, s.focusedPlanet = 3 →
        distFromCenter m s.SCR_WIDTH s.SCR_HEIGHT x1 y1 < 300 →
        distFromCenter m s.SCR_WIDTH s.SCR_HEIGHT x2 y2 < 300 →
        distFromCenter m s.SCR_WIDTH s.SCR_HEIGHT x3 y3 < 300 →
        distFromCenter m s.SCR_WIDTH s.SCR_HEIGHT x4 y4 < 300 →
        (handleEvents m s
            [ .mouseButton GLFW_MOUSE_BUTTON_LEFT GLFW_PRESS x1 y1,
              .mouseButton GLFW_MOUSE_BUTTON_LEFT GLFW_PRESS x2 y2,
              .mouseButton GLFW_MOUSE_BUTTON_LEFT GLFW_PRESS x3 y3,
              .mouseButton GLFW_MOUSE_BUTTON_LEFT GLFW_PRESS x4 y4 ]).focusedLocationIndex
          = s.focusedLocationIndex % 4
        ∧ (0 ≤ s.focusedLocationIndex → s.focusedLocationIndex < 4 →
            (handleEvents m s
              [ .mouseButton GLFW_MOUSE_BUTTON_LEFT GLFW_PRESS x1 y1,
                .mouseButton GLFW_MOUSE_BUTTON_LEFT GLFW_PRESS x2 y2,
                .mouseButton GLFW_MOUSE_BUTTON_LEFT GLFW_PRESS x3 y3,
                .mouseButton GLFW_MOUSE_BUTTON_LEFT GLFW_PRESS x4 y4 ]).focusedLocationIndex
              = s.focusedLocationIndex))
    ∧ (∀ cursorX cursorY : α,
        (s.focusedPlanet ≠ 3
          ∨ ¬ distFromCenter m s.SCR_WIDTH s.SCR_HEIGHT cursorX cursorY < 300) →
        (mouse_button_callback m s GLFW_MOUSE_BUTTON_LEFT GLFW_PRESS cursorX cursorY).isDragging
            = true
        ∧ (mouse_button_callback m s GLFW_MOUSE_BUTTON_LEFT GLFW_PRESS cursorX
              cursorY).focusedLocationIndex = s.focusedLocationIndex
        ∧ (mouse_button_callback m s GLFW_MOUSE_BUTTON_LEFT GLFW_PRESS cursorX
              cursorY).currentLocationIndex = s.currentLocationIndex
        ∧ (mouse_button_callback m s GLFW_MOUSE_BUTTON_LEFT GLFW_PRESS cursorX
              cursorY).selectedLocationIndex = s.selectedLocationIndex
        ∧ (mouse_button_callback m s GLFW_MOUSE_BUTTON_LEFT GLFW_PRESS cursorX
              cursorY).showEarthLocation = s.showEarthLocation) := by
  refine ⟨?_, ?_, ?_⟩
  · intro cursorX cursorY hf hd
    rw [centre_click m s cursorX cursorY hf hd]
    exact ⟨rfl, rfl, rfl, rfl, rfl⟩
  · intro x1 y1 x2 y2 x3 y3 x4 y4 hf h1 h2 h3 h4
    have key : (handleEvents m s
            [ .mouseButton GLFW_MOUSE_BUTTON_LEFT GLFW_PRESS x1 y1,
              .mouseButton GLFW_MOUSE_BUTTON_LEFT GLFW_PRESS x2 y2,
              .mouseButton GLFW_MOUSE_BUTTON_LEFT GLFW_PRESS x3 y3,
              .mouseButton GLFW_MOUSE_BUTTON_LEFT GLFW_PRESS x4 y4 ]).focusedLocationIndex
          = ((((s.focusedLocationIndex + 1) % 4 + 1) % 4 + 1) % 4 + 1) % 4 := by
      simp only [handleEvents, List.foldl_cons, List.foldl_nil, handleEvent]
      obtain ⟨f1, w1, v1, i1⟩ := centre_click_step m s x1 y1 hf h1
      obtain ⟨f2, w2, v2, i2⟩ := centre_click_step m _ x2 y2 f1 (by rw [w1, v1]; exact h2)
      obtain ⟨f3, w3, v3, i3⟩ := centre_click_step m _ x3 y3 f2
        (by rw [w2, v2, w1, v1]; exact h3)
      obtain ⟨_, _, _, i4⟩ := centre_click_step m _ x4 y4 f3
        (by rw [w3, v3, w2, v2, w1, v1]; exact h4)
      rw [i4, i3, i2, i1]
    rw [key]
    constructor
    · omega
    · intro h0 h4
      omega
  · intro cursorX cursorY h
    rw [drag_click m s cursorX cursorY h]
    exact ⟨rfl, rfl, rfl, rfl, rfl⟩

/-- Witness of `centre_click_cycles`: with Earth focused in a 1920 by 1080
window, a press at the centre (960, 540) selects location 0 and starts no drag. -/
theorem centre_click_cycles_witness :
    (mouse_button_callback realMath { (initialState (α := ℝ)) with focusedPlanet := 3 }
        GLFW_MOUSE_BUTTON_LEFT GLFW_PRESS 960 540).isDragging = false
    ∧ (mouse_button_callback realMath { (initialState (α := ℝ)) with focusedPlanet := 3 }
        GLFW_MOUSE_BUTTON_LEFT GLFW_PRESS 960 540).focusedLocationIndex = (-1 + 1) % 4 :=
  ⟨((centre_click_cycles realMath { (initialState (α := ℝ)) with focusedPlanet := 3 }).1
      960 540 rfl (by norm_num [distFromCenter, realMath, initialState])).1,
   ((centre_click_cycles realMath { (initialState (α := ℝ)) with focusedPlanet := 3 }).1
      960 540 rfl (by norm_num [distFromCenter, realMath, initialState])).2.1⟩

/-- C17 (evaluation of the code against its help text "O=Ocean, M=Mountain,
L=Land, D=Desert" and "H=Diamond Mountain, C=Chloric Ocean"): `processInput`
never reads key L, so its state changes nothing; with Earth focused, a poll with
only L down selects no location (the current index stays 0, "Ocean", and no
location is shown), while O, M and D select the entries of their names and key A
selects "Land"; with Saturn focused, H and C select the entries of their names. -/
theorem location_hotkeys :
    (∀ (s : State ℚ) (glfwGetKey : Int → Int) (v : Int),
        processInput s (Function.update glfwGetKey GLFW_KEY_L v) = processInput s glfwGetKey)
    ∧ (processInput (initialState (α := ℚ)) (keysDown [GLFW_KEY_3])).focusedPlanet = 3
    ∧ (processInput (processInput (initialState (α := ℚ)) (keysDown [GLFW_KEY_3]))
          (keysDown [GLFW_KEY_L])).showEarthLocation = false
    ∧ ((earthLocations (α := ℚ)).getD
          (processInput (processInput (initialState (α := ℚ)) (keysDown [GLFW_KEY_3]))
            (keysDown [GLFW_KEY_L])).currentLocationIndex.toNat ⟨"", "", 0, 0, 0⟩).name = "Ocean"
    ∧ (processInput (processInput (initialState (α := ℚ)) (keysDown [GLFW_KEY_3]))
          (keysDown [GLFW_KEY_A])).showEarthLocation = true
    ∧ ((earthLocations (α := ℚ)).getD
          (processInput (processInput (initialState (α := ℚ)) (keysDown [GLFW_KEY_3]))
            (keysDown [GLFW_KEY_A])).currentLocationIndex.toNat ⟨"", "", 0, 0, 0⟩).name = "Land"
    ∧ ((earthLocations (α := ℚ)).getD
          (processInput (processInput (initialState (α := ℚ)) (keysDown [GLFW_KEY_3]))
            (keysDown [GLFW_KEY_O])).currentLocationIndex.toNat ⟨"", "", 0, 0, 0⟩).name = "Ocean"
    ∧ ((earthLocations (α := ℚ)).getD
          (processInput (processInput (initialState (α := ℚ)) (keysDown [GLFW_KEY_3]))
            (keysDown [GLFW_KEY_M])).currentLocationIndex.toNat ⟨"", "", 0, 0, 0⟩).name
        = "Mountain"
    ∧ ((earthLocations (α := ℚ)).getD
          (processInput (processInput (initialState (α := ℚ)) (keysDown [GLFW_KEY_3]))
            (keysDown [GLFW_KEY_D])).currentLocationIndex.toNat ⟨"", "", 0, 0, 0⟩).name = "Desert"
    ∧ ((saturnLocations (α := ℚ)).getD
          (processInput (processInput (initialState (α := ℚ)) (keysDown [GLFW_KEY_6]))
            (keysDown [GLFW_KEY_H])).currentSaturnLocationIndex.toNat ⟨"", "", 0, 0, 0⟩).name
        = "Diamond Mountain"
    ∧ ((saturnLocations (α := ℚ)).getD
          (processInput (processInput (initialState (α := ℚ)) (keysDown [GLFW_KEY_6]))
            (keysDown [GLFW_KEY_C])).currentSaturnLocationIndex.toNat ⟨"", "", 0, 0, 0⟩).name
        = "Chloric Ocean" := by
  refine ⟨?_, ?_, ?_, ?_, ?_, ?_, ?_, ?_, ?_, ?_, ?_⟩
  · intro s glfwGetKey v
    simp [processInput, processEscapeKey, processSpeedUpKey, processSlowDownKey,
      processFocusKeys, focusKey, processKey9, processEarthLocationKeys, processKeyO,
      processKeyM, processKeyD, processKeyA, processSaturnLocationKeys, processKeyH,
      processKeyC, Function.update_apply, GLFW_KEY_L, GLFW_KEY_ESCAPE, GLFW_KEY_EQUAL,
      GLFW_KEY_MINUS, GLFW_KEY_0, GLFW_KEY_1, GLFW_KEY_2, GLFW_KEY_3, GLFW_KEY_4, GLFW_KEY_5,
      GLFW_KEY_6, GLFW_KEY_7, GLFW_KEY_8, GLFW_KEY_9, GLFW_KEY_O, GLFW_KEY_M, GLFW_KEY_D,
      GLFW_KEY_A, GLFW_KEY_H, GLFW_KEY_C]
  all_goals decide

end KeyboardTheorems

/-! ## Theorems: camera target -/

section CameraTargetTheorems

variable {α : Type} [LinearOrderedField α]

/-- C11 (the claim fails for Saturn): after the key polls "6 down" and "H
down" Saturn is focused and its location 0 is shown; in every frame of that
state the camera target is `planetPositions[6]`, while the location's sphere
point, rotated by Saturn's spin angle and translated by Saturn's position (the
point where the marker block draws the marker), lies `4.7 * sin 45°` above it. -/
theorem saturn_target_ignores_location :
    (applyInputs realMath (initialState (α := ℝ))
        [.keys (keysDown [GLFW_KEY_6]), .keys (keysDown [GLFW_KEY_H])]).focusedPlanet = 6
    ∧ (applyInputs realMath (initialState (α := ℝ))
        [.keys (keysDown [GLFW_KEY_6]), .keys (keysDown [GLFW_KEY_H])]).showSaturnLocation = true
    ∧ (applyInputs realMath (initialState (α := ℝ))
        [.keys (keysDown [GLFW_KEY_6]), .keys (keysDown [GLFW_KEY_H])]).currentSaturnLocationIndex
        = 0
    ∧ ∀ (a : ℝ) (pp : List (Vec3 ℝ)),
        (frameCamera realMath
            (applyInputs realMath (initialState (α := ℝ))
              [.keys (keysDown [GLFW_KEY_6]), .keys (keysDown [GLFW_KEY_H])]) a pp).cameraTarget
          = pp.getD 6 0
        ∧ saturnMarkerWorldPos realMath 6 true 0 a pp
          ≠ some (frameCamera realMath
              (applyInputs realMath (initialState (α := ℝ))
                [.keys (keysDown [GLFW_KEY_6]), .keys (keysDown [GLFW_KEY_H])]) a pp).cameraTarget
        ∧ saturnMarkerWorldPos realMath 6 true 0 a pp ≠ none := by
  have h6 : (applyInputs realMath (initialState (α := ℝ))
        [.keys (keysDown [GLFW_KEY_6]), .keys (keysDown [GLFW_KEY_H])]).focusedPlanet = 6 := by
    decide
  refine ⟨h6, by decide, by decide, ?_⟩
  intro a pp
  have htarget : (frameCamera realMath
            (applyInputs realMath (initialState (α := ℝ))
              [.keys (keysDown [GLFW_KEY_6]), .keys (keysDown [GLFW_KEY_H])]) a pp).cameraTarget
          = pp.getD 6 0 := by
    unfold frameCamera
    simp only [h6]
    norm_num
    rfl
  have hsin : (0 : ℝ) < Real.sin (45 * (Real.pi / 180)) := by
    have h : (45 : ℝ) * (Real.pi / 180) = Real.pi / 4 := by ring
    rw [h, Real.sin_pi_div_four]
    positivity
  have hmarker : saturnMarkerWorldPos realMath 6 true 0 a pp
      = some (pp.getD 6 0 + rotateY realMath (radians realMath (a * g_daySpeed * 0.45))
          (latLonToSpherePosition realMath 45.0 0.0 4.7)) := by
    simp [saturnMarkerWorldPos, saturnLocations]
  refine ⟨htarget, ?_, ?_⟩
  · rw [htarget, hmarker]
    intro h
    have hy := congrArg Vec3.y (Option.some.inj h)
    have hy2 : (pp.getD 6 0).y + 4.7 * Real.sin (45 * (Real.pi / 180)) = (pp.getD 6 0).y := by
      have e : (pp.getD 6 0 + rotateY realMath (radians realMath (a * g_daySpeed * 0.45))
          (latLonToSpherePosition realMath 45.0 0.0 4.7)).y
          = (pp.getD 6 0).y + 4.7 * Real.sin (45 * (Real.pi / 180)) := by
        show (pp.getD 6 0).y + _ = _
        simp only [rotateY, latLonToSpherePosition, radians, realMath]
        norm_num
      rw [← e]
      exact hy
    nlinarith
  · rw [hmarker]
    simp

/-- C11 (as amended): the camera target of a frame.  With Earth focused it is
the sphere point (radius 1.8) of an Earth location, rotated about the vertical
axis by Earth's spin angle `g_animationAngle * g_daySpeed * 1.0` and translated
by `planetPositions[3]`: the location `currentLocationIndex` while the
move-to-location mode is active, otherwise the location `focusedLocationIndex`
if that is a valid index, otherwise no location (the target is
`planetPositions[3]`).  With any other body focused, Saturn included, the
target is `planetPositions[focusedPlanet]`. -/
theorem cameraTarget_cases (m : MathFns α) (s : State α) (a : α) (pp : List (Vec3 α)) :
    (s.focusedPlanet = 3 →
        (s.isMovingToLocation = true ∧ 0 ≤ s.currentLocationIndex
          ∧ s.currentLocationIndex < 4) →
        (frameCamera m s a pp).cameraTarget
          = pp.getD 3 0 + rotateY m (radians m (a * g_daySpeed * 1.0))
              (latLonToSpherePosition m
                ((earthLocations (α := α)).getD s.currentLocationIndex.toNat
                  ⟨"", "", 0, 0, 0⟩).latitude
                ((earthLocations (α := α)).getD s.currentLocationIndex.toNat
                  ⟨"", "", 0, 0, 0⟩).longitude 1.8))
    ∧ (s.focusedPlanet = 3 →
        ¬ (s.isMovingToLocation = true ∧ 0 ≤ s.currentLocationIndex
          ∧ s.currentLocationIndex < 4) →
        (0 ≤ s.focusedLocationIndex ∧ s.focusedLocationIndex < 4) →
        (frameCamera m s a pp).cameraTarget
          = pp.getD 3 0 + rotateY m (radians m (a * g_daySpeed * 1.0))
              (latLonToSpherePosition m
                ((earthLocations (α := α)).getD s.focusedLocationIndex.toNat
                  ⟨"", "", 0, 0, 0⟩).latitude
                ((earthLocations (α := α)).getD s.focusedLocationIndex.toNat
                  ⟨"", "", 0, 0, 0⟩).longitude 1.8))
    ∧ (s.focusedPlanet = 3 →
        ¬ (s.isMovingToLocation = true ∧ 0 ≤ s.currentLocationIndex
          ∧ s.currentLocationIndex < 4) →
        ¬ (0 ≤ s.focusedLocationIndex ∧ s.focusedLocationIndex < 4) →
        (frameCamera m s a pp).cameraTarget = pp.getD 3 0)
    ∧ (s.focusedPlanet ≠ 3 →
        (frameCamera m s a pp).cameraTarget = pp.getD s.focusedPlanet.toNat 0) := by
  have he : (((earthLocations (α := α)).length : Nat) : Int) = 4 := by simp [earthLocations]
  refine ⟨?_, ?_, ?_, ?_⟩
  · intro hf hmove
    unfold frameCamera
    simp only [he, hf, hmove, true_and, ge_iff_le, and_self, if_true]
  · intro hf hmove hfoc
    unfold frameCamera
    simp only [he, hf, true_and, ge_iff_le]
    rw [if_neg hmove, if_pos hfoc]
  · intro hf hmove hfoc
    unfold frameCamera
    simp only [he, hf, true_and, ge_iff_le]
    rw [if_neg hmove, if_neg hfoc]
    simp
  · intro hf
    unfold frameCamera
    simp only [hf, false_and, if_false]

end CameraTargetTheorems

/-! ## Theorems: the invariant of the event loop -/

section InvariantTheorems

variable {α : Type} [LinearOrderedField α]

/-- The startup state satisfies the invariant. -/
theorem initialState_invariant : ReachableInvariant (initialState (α := α)) := by
  unfold ReachableInvariant initialState
  refine ⟨by simp, by simp, by simp, List.Sublist.refl _, by simp, by norm_num⟩

/-- The invariant passes through a conditional. -/
theorem invariant_ite {c : Prop} [Decidable c] {a b : State α}
    (ha : ReachableInvariant a) (hb : ReachableInvariant b) :
    ReachableInvariant (if c then a else b) := by
  split_ifs
  · exact ha
  · exact hb

/-- The invariant only reads six variables. -/
theorem invariant_congr (s t : State α) (h : ReachableInvariant s)
    (e1 : t.currentLocationIndex = s.currentLocationIndex)
    (e2 : t.focusedLocationIndex = s.focusedLocationIndex)
    (e3 : t.currentSaturnLocationIndex = s.currentSaturnLocationIndex)
    (e4 : t.moons = s.moons) (e5 : t.focusedPlanet = s.focusedPlanet)
    (e6 : t.timeScale = s.timeScale) : ReachableInvariant t := by
  unfold ReachableInvariant at *
  rw [e1, e2, e3, e4, e5, e6]
  exact h

/-- The Escape test keeps the invariant. -/
theorem processEscapeKey_invariant (s : State α) (glfwGetKey : Int → Int)
    (h : ReachableInvariant s) : ReachableInvariant (processEscapeKey s glfwGetKey) := by
  unfold processEscapeKey
  exact invariant_ite (invariant_congr s _ h rfl rfl rfl rfl rfl rfl) h

/-- The speed-up statements keep the invariant. -/
theorem processSpeedUpKey_invariant (s : State α) (glfwGetKey : Int → Int)
    (h : ReachableInvariant s) : ReachableInvariant (processSpeedUpKey s glfwGetKey) := by
  have h7 : (0.01 : α) ≤ s.timeScale * 1.1 := by
    have h6 := h.2.2.2.2.2
    norm_num at h6 ⊢
    linarith
  have hs : ReachableInvariant
      (if glfwGetKey GLFW_KEY_EQUAL = GLFW_PRESS ∧ s.plusKeyPressed = false then
        { s with timeScale := s.timeScale * 1.1,
                 console := s.console ++ [ .speedIncreased (s.timeScale * 1.1) ],
                 plusKeyPressed := true } else s) :=
    invariant_ite ⟨h.1, h.2.1, h.2.2.1, h.2.2.2.1, h.2.2.2.2.1, h7⟩ h
  unfold processSpeedUpKey
  exact invariant_ite (invariant_congr _ _ hs rfl rfl rfl rfl rfl rfl) hs

/-- The slow-down statements keep the invariant. -/
theorem processSlowDownKey_invariant (s : State α) (glfwGetKey : Int → Int)
    (h : ReachableInvariant s) : ReachableInvariant (processSlowDownKey s glfwGetKey) := by
  have h7 : (0.01 : α) ≤ (if s.timeScale * 0.9 < 0.01 then 0.01 else s.timeScale * 0.9) := by
    split_ifs with hlt
    · exact le_refl _
    · exact not_lt.mp hlt
  have hs : ReachableInvariant
      (if glfwGetKey GLFW_KEY_MINUS = GLFW_PRESS ∧ s.minusKeyPressed = false then
        { s with timeScale := if s.timeScale * 0.9 < 0.01 then 0.01 else s.timeScale * 0.9,
                 console := s.console ++ [ .speedDecreased
                   (if s.timeScale * 0.9 < 0.01 then 0.01 else s.timeScale * 0.9) ],
                 minusKeyPressed := true } else s) :=
    invariant_ite ⟨h.1, h.2.1, h.2.2.1, h.2.2.2.1, h.2.2.2.2.1, h7⟩ h
  unfold processSlowDownKey
  exact invariant_ite (invariant_congr _ _ hs rfl rfl rfl rfl rfl rfl) hs

/-- A focus key for a planet index between 0 and 8 keeps the invariant. -/
theorem focusKey_invariant (s : State α) (glfwGetKey : Int → Int) (key planet : Int)
    (hp : 0 ≤ planet ∧ planet ≤ 8) (h : ReachableInvariant s) :
    ReachableInvariant (focusKey s glfwGetKey key planet) := by
  obtain ⟨h1, h2, h3, h4, h5, h6⟩ := h
  unfold focusKey ReachableInvariant
  split_ifs
  · exact ⟨h1, h2, h3, h4, ⟨hp.1, Or.inl hp.2⟩, h6⟩
  · exact ⟨h1, h2, h3, h4, h5, h6⟩

/-- The nine focus statements keep the invariant. -/
theorem processFocusKeys_invariant (s : State α) (glfwGetKey : Int → Int)
    (h : ReachableInvariant s) : ReachableInvariant (processFocusKeys s glfwGetKey) := by
  unfold processFocusKeys
  simp only []
  repeat' apply focusKey_invariant
  all_goals first | exact h | decide

/-- The key-9 action keeps the invariant: the new focus is Earth or a moon of
the new list. -/
theorem key9Action_invariant (s : State α) (h : ReachableInvariant s) :
    ReachableInvariant (key9Action s) := by
  obtain ⟨h1, h2, h3, h4, h5, h6⟩ := h
  have hsub : (removeMoonsOfPlanet 4 s.moons).Sublist startupMoons := by
    rw [removal_is_filter]
    exact (List.filter_sublist _).trans h4
  unfold key9Action ReachableInvariant
  simp only []
  refine ⟨h1, h2, h3, hsub, ?_, h6⟩
  rcases earthMoonScan_range (removeMoonsOfPlanet 4 s.moons) 0 with hr | hr
  · rw [hr]
    simp
  · split_ifs with hge
    · constructor
      · omega
      · right
        have := hr.2
        push_cast at this
        omega
    · simp

/-- The key-9 statements keep the invariant. -/
theorem processKey9_invariant (s : State α) (glfwGetKey : Int → Int)
    (h : ReachableInvariant s) : ReachableInvariant (processKey9 s glfwGetKey) := by
  have hs : ReachableInvariant
      (if glfwGetKey GLFW_KEY_9 = GLFW_PRESS ∧ s.nineKeyPressed = false then key9Action s
        else s) :=
    invariant_ite (key9Action_invariant s h) h
  unfold processKey9
  exact invariant_ite (invariant_congr _ _ hs rfl rfl rfl rfl rfl rfl) hs

/-- A statement pair of the Earth block keeps the invariant when the index it
stores is one of 0 to 3. -/
theorem earthKey_invariant (s : State α) (c1 c2 : Prop) [Decidable c1] [Decidable c2]
    (idx : Int) (hidx : 0 ≤ idx ∧ idx < 4) (f g : State α → State α)
    (hf : ∀ t, (f t).currentLocationIndex = idx ∧ (f t).focusedLocationIndex = idx
      ∧ (f t).currentSaturnLocationIndex = t.currentSaturnLocationIndex ∧ (f t).moons = t.moons
      ∧ (f t).focusedPlanet = t.focusedPlanet ∧ (f t).timeScale = t.timeScale)
    (hg : ∀ t, (g t).currentLocationIndex = t.currentLocationIndex
      ∧ (g t).focusedLocationIndex = t.focusedLocationIndex
      ∧ (g t).currentSaturnLocationIndex = t.currentSaturnLocationIndex ∧ (g t).moons = t.moons
      ∧ (g t).focusedPlanet = t.focusedPlanet ∧ (g t).timeScale = t.timeScale)
    (h : ReachableInvariant s) :
    ReachableInvariant
      (if c2 then g (if c1 then f s else s) else (if c1 then f s else s)) := by
  have hfs : ReachableInvariant (f s) := by
    obtain ⟨e1, e2, e3, e4, e5, e6⟩ := hf s
    obtain ⟨h1, h2, h3, h4, h5, h6⟩ := h
    unfold ReachableInvariant
    rw [e1, e2, e3, e4, e5, e6]
    exact ⟨hidx, ⟨by omega, hidx.2⟩, h3, h4, h5, h6⟩
  have hs : ReachableInvariant (if c1 then f s else s) := invariant_ite hfs h
  obtain ⟨e1, e2, e3, e4, e5, e6⟩ := hg (if c1 then f s else s)
  exact invariant_ite (invariant_congr _ _ hs e1 e2 e3 e4 e5 e6) hs

/-- The statements on key O keep the invariant. -/
theorem processKeyO_invariant (s : State α) (glfwGetKey : Int → Int)
    (h : ReachableInvariant s) : ReachableInvariant (processKeyO s glfwGetKey) :=
  earthKey_invariant s _ _ 0 (by decide)
    (fun t => { t with currentLocationIndex := 0, focusedLocationIndex := 0,
                       showEarthLocation := true, isMovingToLocation := true,
                       locKeyPressed0 := true })
    (fun t => { t with locKeyPressed0 := false })
    (fun _ => ⟨rfl, rfl, rfl, rfl, rfl, rfl⟩) (fun _ => ⟨rfl, rfl, rfl, rfl, rfl, rfl⟩) h

/-- The statements on key M keep the invariant. -/
theorem processKeyM_invariant (s : State α) (glfwGetKey : Int → Int)
    (h : ReachableInvariant s) : ReachableInvariant (processKeyM s glfwGetKey) :=
  earthKey_invariant s _ _ 1 (by decide)
    (fun t => { t with currentLocationIndex := 1, focusedLocationIndex := 1,
                       showEarthLocation := true, isMovingToLocation := true,
                       locKeyPressed1 := true })
    (fun t => { t with locKeyPressed1 := false })
    (fun _ => ⟨rfl, rfl, rfl, rfl, rfl, rfl⟩) (fun _ => ⟨rfl, rfl, rfl, rfl, rfl, rfl⟩) h

/-- The statements on key D keep the invariant. -/
theorem processKeyD_invariant (s : State α) (glfwGetKey : Int → Int)
    (h : ReachableInvariant s) : ReachableInvariant (processKeyD s glfwGetKey) :=
  earthKey_invariant s _ _ 3 (by decide)
    (fun t => { t with currentLocationIndex := 3, focusedLocationIndex := 3,
                       showEarthLocation := true, isMovingToLocation := true,
                       locKeyPressed2 := true })
    (fun t => { t with locKeyPressed2 := false })
    (fun _ => ⟨rfl, rfl, rfl, rfl, rfl, rfl⟩) (fun _ => ⟨rfl, rfl, rfl, rfl, rfl, rfl⟩) h

/-- The statements on key A keep the invariant. -/
theorem processKeyA_invariant (s : State α) (glfwGetKey : Int → Int)
    (h : ReachableInvariant s) : ReachableInvariant (processKeyA s glfwGetKey) :=
  earthKey_invariant s _ _ 2 (by decide)
    (fun t => { t with currentLocationIndex := 2, focusedLocationIndex := 2,
                       showEarthLocation := true, isMovingToLocation := true,
                       locKeyPressed3 := true })
    (fun t => { t with locKeyPressed3 := false })
    (fun _ => ⟨rfl, rfl, rfl, rfl, rfl, rfl⟩) (fun _ => ⟨rfl, rfl, rfl, rfl, rfl, rfl⟩) h

/-- The Earth block keeps the invariant. -/
theorem processEarthLocationKeys_invariant (s : State α) (glfwGetKey : Int → Int)
    (h : ReachableInvariant s) : ReachableInvariant (processEarthLocationKeys s glfwGetKey) := by
  unfold processEarthLocationKeys
  refine invariant_ite ?_ (invariant_congr s _ h rfl rfl rfl rfl rfl rfl)
  exact processKeyA_invariant _ _ (processKeyD_invariant _ _
    (processKeyM_invariant _ _ (processKeyO_invariant _ _ h)))

/-- A statement pair of the Saturn block keeps the invariant when the index it
stores is 0 or 1. -/
theorem saturnKey_invariant (s : State α) (c1 c2 : Prop) [Decidable c1] [Decidable c2]
    (idx : Int) (hidx : 0 ≤ idx ∧ idx < 2) (f g : State α → State α)
    (hf : ∀ t, (f t).currentLocationIndex = t.currentLocationIndex
      ∧ (f t).focusedLocationIndex = t.focusedLocationIndex
      ∧ (f t).currentSaturnLocationIndex = idx ∧ (f t).moons = t.moons
      ∧ (f t).focusedPlanet = t.focusedPlanet ∧ (f t).timeScale = t.timeScale)
    (hg : ∀ t, (g t).currentLocationIndex = t.currentLocationIndex
      ∧ (g t).focusedLocationIndex = t.focusedLocationIndex
      ∧ (g t).currentSaturnLocationIndex = t.currentSaturnLocationIndex ∧ (g t).moons = t.moons
      ∧ (g t).focusedPlanet = t.focusedPlanet ∧ (g t).timeScale = t.timeScale)
    (h : ReachableInvariant s) :
    ReachableInvariant
      (if c2 then g (if c1 then f s else s) else (if c1 then f s else s)) := by
  have hfs : ReachableInvariant (f s) := by
    obtain ⟨e1, e2, e3, e4, e5, e6⟩ := hf s
    obtain ⟨h1, h2, h3, h4, h5, h6⟩ := h
    unfold ReachableInvariant
    rw [e1, e2, e3, e4, e5, e6]
    exact ⟨h1, h2, hidx, h4, h5, h6⟩
  have hs : ReachableInvariant (if c1 then f s else s) := invariant_ite hfs h
  obtain ⟨e1, e2, e3, e4, e5, e6⟩ := hg (if c1 then f s else s)
  exact invariant_ite (invariant_congr _ _ hs e1 e2 e3 e4 e5 e6) hs

/-- The statements on key H keep the invariant. -/
theorem processKeyH_invariant (s : State α) (glfwGetKey : Int → Int)
    (h : ReachableInvariant s) : ReachableInvariant (processKeyH s glfwGetKey) :=
  saturnKey_invariant s _ _ 0 (by decide)
    (fun t => { t with currentSaturnLocationIndex := 0, selectedSaturnLocationIndex := 0,
                       showSaturnLocation := true, saturnLocKeyPressed0 := true })
    (fun t => { t with saturnLocKeyPressed0 := false })
    (fun _ => ⟨rfl, rfl, rfl, rfl, rfl, rfl⟩) (fun _ => ⟨rfl, rfl, rfl, rfl, rfl, rfl⟩) h

/-- The statements on key C keep the invariant. -/
theorem processKeyC_invariant (s : State α) (glfwGetKey : Int → Int)
    (h : ReachableInvariant s) : ReachableInvariant (processKeyC s glfwGetKey) :=
  saturnKey_invariant s _ _ 1 (by decide)
    (fun t => { t with currentSaturnLocationIndex := 1, selectedSaturnLocationIndex := 1,
                       showSaturnLocation := true, saturnLocKeyPressed1 := true })
    (fun t => { t with saturnLocKeyPressed1 := false })
    (fun _ => ⟨rfl, rfl, rfl, rfl, rfl, rfl⟩) (fun _ => ⟨rfl, rfl, rfl, rfl, rfl, rfl⟩) h

/-- The Saturn block keeps the invariant. -/
theorem processSaturnLocationKeys_invariant (s : State α) (glfwGetKey : Int → Int)
    (h : ReachableInvariant s) : ReachableInvariant (processSaturnLocationKeys s glfwGetKey) := by
  unfold processSaturnLocationKeys
  refine invariant_ite ?_ (invariant_congr s _ h rfl rfl rfl rfl rfl rfl)
  exact processKeyC_invariant _ _ (processKeyH_invariant _ _ h)

/-- The function `processInput` keeps the invariant. -/
theorem processInput_invariant (s : State α) (glfwGetKey : Int → Int)
    (h : ReachableInvariant s) : ReachableInvariant (processInput s glfwGetKey) := by
  unfold processInput
  exact processSaturnLocationKeys_invariant _ _ (processEarthLocationKeys_invariant _ _
    (processKey9_invariant _ _ (processFocusKeys_invariant _ _
      (processSlowDownKey_invariant _ _ (processSpeedUpKey_invariant _ _
        (processEscapeKey_invariant _ _ h))))))

/-- A panel button keeps the invariant. -/
theorem locationButton_invariant (s : State α) (i : Nat) (h : ReachableInvariant s) :
    ReachableInvariant (earthLocationButton s i)
      ∧ ReachableInvariant (saturnLocationButton s i) := by
  obtain ⟨h1, h2, h3, h4, h5, h6⟩ := h
  constructor
  · unfold earthLocationButton
    split_ifs with hc
    · have hi : i < 4 := by simpa [earthLocations] using hc.2
      exact ⟨⟨by simp, by simp only []; omega⟩, h2, h3, h4, h5, h6⟩
    · exact ⟨h1, h2, h3, h4, h5, h6⟩
  · unfold saturnLocationButton
    split_ifs with hc
    · have hi : i < 2 := by simpa [saturnLocations] using hc.2
      exact ⟨h1, h2, ⟨by simp, by simp only []; omega⟩, h4, h5, h6⟩
    · exact ⟨h1, h2, h3, h4, h5, h6⟩

/-- The mouse callbacks keep the invariant. -/
theorem handleEvent_invariant (m : MathFns α) (s : State α) (e : MouseEvent α)
    (h : ReachableInvariant s) : ReachableInvariant (handleEvent m s e) := by
  cases e with
  | cursorPos xpos ypos =>
    simp only [handleEvent, mouse_callback]
    exact invariant_ite (invariant_congr s _ h rfl rfl rfl rfl rfl rfl) h
  | mouseButton button action cursorX cursorY =>
    obtain ⟨h1, h2, h3, h4, h5, h6⟩ := h
    have hnext : (0 : Int) ≤ (s.focusedLocationIndex + 1) % 4
        ∧ (s.focusedLocationIndex + 1) % 4 < 4 := by
      constructor <;> omega
    have hlen : (((earthLocations (α := α)).length : Nat) : Int) = 4 := by
      simp [earthLocations]
    simp only [handleEvent, mouse_button_callback, hlen]
    refine invariant_ite (invariant_ite (invariant_ite (invariant_ite ?_ ?_) ?_)
      (invariant_ite ?_ ?_)) ?_
    · exact ⟨hnext, ⟨le_trans (by decide : (-1 : Int) ≤ 0) hnext.1, hnext.2⟩, h3, h4, h5, h6⟩
    · exact ⟨h1, h2, h3, h4, h5, h6⟩
    · exact ⟨h1, h2, h3, h4, h5, h6⟩
    · exact ⟨h1, h2, h3, h4, h5, h6⟩
    · exact ⟨h1, h2, h3, h4, h5, h6⟩
    · exact ⟨h1, h2, h3, h4, h5, h6⟩
  | scroll xoffset yoffset =>
    simp only [handleEvent, scroll_callback]
    exact invariant_congr s _ h rfl rfl rfl rfl rfl rfl

/-- Every input event keeps the invariant. -/
theorem applyInput_invariant (m : MathFns α) (s : State α) (e : InputEvent α)
    (h : ReachableInvariant s) : ReachableInvariant (applyInput m s e) := by
  cases e with
  | keys glfwGetKey => exact processInput_invariant s glfwGetKey h
  | earthButton i => exact (locationButton_invariant s i h).1
  | saturnButton i => exact (locationButton_invariant s i h).2
  | mouse e => exact handleEvent_invariant m s e h

/-- Every state reachable from startup satisfies the invariant. -/
theorem applyInputs_invariant (m : MathFns α) (events : List (InputEvent α)) (s : State α)
    (h : ReachableInvariant s) : ReachableInvariant (applyInputs m s events) := by
  induction events generalizing s with
  | nil => exact h
  | cons e es ih => exact ih (applyInput m s e) (applyInput_invariant m s e h)

/-- In a state that satisfies the invariant every indexed access of the frame is
in range. -/
theorem frameIndexedAccesses_in_range (s : State α) (h : ReachableInvariant s) :
    ∀ a ∈ frameIndexedAccesses s, 0 ≤ a.1 ∧ a.1 < (a.2 : Int) := by
  obtain ⟨h1, h2, h3, h4, h5, h6⟩ := h
  have hlen : s.moons.length ≤ 7 := by
    have := h4.length_le
    simpa [startupMoons] using this
  have he : (earthLocations (α := α)).length = 4 := by simp [earthLocations]
  have hs : (saturnLocations (α := α)).length = 2 := by simp [saturnLocations]
  intro a ha
  simp only [frameIndexedAccesses, List.mem_append, List.mem_flatMap, List.mem_range,
    List.mem_cons, List.mem_singleton, List.not_mem_nil, or_false, he, hs] at ha
  rcases ha with ((((((⟨i, hi, ha⟩ | ha) | ha) | ha) | ha) | ha) | ha) | ha
  · have hmem : s.moons.getD i ⟨0, 0, 0, 0, 0⟩ ∈ (startupMoons : List (Moon α)) := by
      rw [List.getD_eq_getElem _ _ hi]
      exact h4.subset (List.getElem_mem _)
    have hpar := startupMoons_parent _ hmem
    rcases ha with ha | ha | ha <;> subst ha <;> simp only [] <;> constructor <;> omega
  · subst ha
    simp only []
    constructor
    · exact h5.1
    · rcases h5.2 with h8 | h8
      · push_cast; omega
      · push_cast; omega
  · split_ifs at ha with hc
    · simp only [List.mem_singleton] at ha
      subst ha
      exact ⟨hc.2.1, by simpa using hc.2.2⟩
    · simp at ha
  · split_ifs at ha with hc
    · simp only [List.mem_singleton] at ha
      subst ha
      exact ⟨hc.2.2.1, by simpa using hc.2.2.2⟩
    · simp at ha
  · split_ifs at ha with hc
    · simp only [List.mem_singleton] at ha
      subst ha
      exact ⟨hc.2.2.1, by simpa using hc.2.2.2⟩
    · simp at ha
  · split_ifs at ha with hc
    · simp only [List.mem_singleton] at ha
      subst ha
      exact ⟨hc.2.2.1, by simpa using hc.2.2.2⟩
    · simp at ha
  · split_ifs at ha with hc
    · simp only [List.mem_singleton] at ha
      subst ha
      exact ⟨h1.1, by simpa using h1.2⟩
    · simp at ha
  · split_ifs at ha with hc
    · simp only [List.mem_singleton] at ha
      subst ha
      exact ⟨h3.1, by simpa using h3.2⟩
    · simp at ha

/-- C15: from the startup state, where `timeScale` is 1, `timeScale` is at least
0.01 after any finite sequence of input events (calls of `processInput` with any
key states among them); a speed-up press (key `=` down, up at the previous poll)
multiplies `timeScale` by 1.1, and a slow-down press (key `-` down, up at the
previous poll) sets it to `max 0.01 (0.9 * timeScale)`. -/
theorem timeScale_floor (m : MathFns α) (events : List (InputEvent α)) :
    (initialState (α := α)).timeScale = 1
    ∧ 0.01 ≤ (applyInputs m initialState events).timeScale
    ∧ (∀ (s : State α) (glfwGetKey : Int → Int), glfwGetKey GLFW_KEY_EQUAL = GLFW_PRESS →
        s.plusKeyPressed = false →
        (processSpeedUpKey s glfwGetKey).timeScale = s.timeScale * 1.1)
    ∧ (∀ (s : State α) (glfwGetKey : Int → Int), glfwGetKey GLFW_KEY_MINUS = GLFW_PRESS →
        s.minusKeyPressed = false →
        (processSlowDownKey s glfwGetKey).timeScale = max 0.01 (0.9 * s.timeScale)) := by
  refine ⟨by norm_num [initialState], ?_, ?_, ?_⟩
  · exact (applyInputs_invariant m events initialState initialState_invariant).2.2.2.2.2
  · intro s glfwGetKey hpress hflag
    unfold processSpeedUpKey
    simp only [hpress, hflag, and_self, if_true]
    rw [if_neg (by decide)]
  · intro s glfwGetKey hpress hflag
    unfold processSlowDownKey
    simp only [hpress, hflag, and_self, if_true]
    rw [if_neg (by decide)]
    simp only []
    rw [mul_comm (0.9 : α) s.timeScale]
    split_ifs with hlt
    · exact (max_eq_left (le_of_lt hlt)).symm
    · exact (max_eq_right (not_lt.mp hlt)).symm

/-- C18: in every state reachable from startup by key polls, panel buttons and
mouse and scroll events, every indexed access of a frame is in range:
`currentLocationIndex` is in `0..3` and `focusedLocationIndex` in `-1..3` (it is
only used behind its bounds test), `currentSaturnLocationIndex` is in `0..1`,
every moon's `parentPlanet`, every `9 + i` of the moon loop and `focusedPlanet`
are below 17, the size of `planetPositions`. -/
theorem reachable_accesses_in_range (m : MathFns α) (events : List (InputEvent α)) :
    (∀ a ∈ frameIndexedAccesses (applyInputs m initialState events),
        0 ≤ a.1 ∧ a.1 < (a.2 : Int))
    ∧ (0 ≤ (applyInputs m initialState events).currentLocationIndex
        ∧ (applyInputs m initialState events).currentLocationIndex
            < ((earthLocations (α := α)).length : Int))
    ∧ (-1 ≤ (applyInputs m initialState events).focusedLocationIndex
        ∧ (applyInputs m initialState events).focusedLocationIndex
            < ((earthLocations (α := α)).length : Int))
    ∧ (0 ≤ (applyInputs m initialState events).currentSaturnLocationIndex
        ∧ (applyInputs m initialState events).currentSaturnLocationIndex
            < ((saturnLocations (α := α)).length : Int))
    ∧ (∀ mn ∈ (applyInputs m initialState events).moons,
        0 ≤ mn.parentPlanet ∧ mn.parentPlanet < 17)
    ∧ 9 + (applyInputs m initialState events).moons.length ≤ 17
    ∧ (0 ≤ (applyInputs m initialState events).focusedPlanet
        ∧ (applyInputs m initialState events).focusedPlanet < 17)
    ∧ (initialState (α := α)).planetPositions.length = 17 := by
  have hinv := applyInputs_invariant m events initialState initialState_invariant
  have hacc := frameIndexedAccesses_in_range _ hinv
  obtain ⟨h1, h2, h3, h4, h5, h6⟩ := hinv
  have hlen : (applyInputs m initialState events).moons.length ≤ 7 := by
    have := h4.length_le
    simpa [startupMoons] using this
  have he : (earthLocations (α := α)).length = 4 := by simp [earthLocations]
  have hs : (saturnLocations (α := α)).length = 2 := by simp [saturnLocations]
  refine ⟨hacc, ?_, ?_, ?_, ?_, by omega, ⟨h5.1, ?_⟩, by simp [initialState]⟩
  · rw [he]; exact h1
  · rw [he]; exact h2
  · rw [hs]; exact h3
  · intro mn hmn
    have hpar := startupMoons_parent mn (h4.subset hmn)
    omega
  · rcases h5.2 with h8 | h8 <;> omega

end InvariantTheorems

/-! ## Theorems: GL objects -/

/-- A call that neither deletes nor generates changes only the log. -/
theorem owned_of_same (g g2 : GLState) (D Z : List Handle) (B : ObjectKind → Finset Nat)
    (hl : g2.live = g.live) (hh : g2.handle = g.handle) (h : Owned g D Z B) :
    Owned g2 D Z B := by
  constructor
  · rw [hl, hh]; exact h.live_iff
  · rw [hh]; exact h.not_base
  · rw [hh]; exact h.inj
  · rw [hh]; exact h.zero
  · rw [hl]; exact h.nonzero
  · exact h.sub

/-- Deleting through a handle variable that owns an object removes exactly that
object and makes the variable stale. -/
theorem owned_delete (alloc : Finset Nat → Nat) (g : GLState) (D Z : List Handle)
    (B : ObjectKind → Finset Nat) (h : Handle) (hD : h ∉ D) (ho : Owned g D Z B) :
    Owned (glCall alloc g (.deleteObject h)) (h :: D) Z B := by
  have hlive : g.handle h ∈ g.live h.kind := (ho.live_iff _ _).2 (Or.inr ⟨h, hD, rfl, rfl⟩)
  have hne : g.handle h ≠ 0 := fun e => ho.nonzero h.kind (e ▸ hlive)
  have hcall : glCall alloc g (.deleteObject h)
      = { g with live := Function.update g.live h.kind ((g.live h.kind).erase (g.handle h)),
                 log := GLCall.deleteObject h :: g.log } := by
    simp only [glCall, if_neg hne]
  rw [hcall]
  constructor
  · intro k n
    simp only [Function.update_apply, List.mem_cons, not_or]
    by_cases hk : k = h.kind
    · subst hk
      simp only [if_true, Finset.mem_erase, ho.live_iff]
      constructor
      · rintro ⟨hn, hB | ⟨h2, h2D, h2k, h2n⟩⟩
        · exact Or.inl hB
        · refine Or.inr ⟨h2, ⟨?_, h2D⟩, h2k, h2n⟩
          intro e
          subst e
          exact hn h2n.symm
      · rintro (hB | ⟨h2, ⟨h2h, h2D⟩, h2k, h2n⟩)
        · refine ⟨?_, Or.inl hB⟩
          intro e
          subst e
          exact ho.not_base h hD hB
        · refine ⟨?_, Or.inr ⟨h2, h2D, h2k, h2n⟩⟩
          intro e
          apply h2h
          exact ho.inj h2 h h2D hD h2k (h2n.trans e)
    · simp only [if_neg hk, ho.live_iff]
      constructor
      · rintro (hB | ⟨h2, h2D, h2k, h2n⟩)
        · exact Or.inl hB
        · refine Or.inr ⟨h2, ⟨?_, h2D⟩, h2k, h2n⟩
          intro e
          subst e
          exact hk h2k.symm
      · rintro (hB | ⟨h2, ⟨_, h2D⟩, h2k, h2n⟩)
        · exact Or.inl hB
        · exact Or.inr ⟨h2, h2D, h2k, h2n⟩
  · intro h2 h2D
    exact ho.not_base h2 (fun e => h2D (List.mem_cons_of_mem _ e))
  · intro h1 h2 h1D h2D
    exact ho.inj h1 h2 (fun e => h1D (List.mem_cons_of_mem _ e))
      (fun e => h2D (List.mem_cons_of_mem _ e))
  · exact ho.zero
  · intro k
    simp only [Function.update_apply]
    split_ifs with hk
    · intro e
      exact ho.nonzero _ (Finset.mem_of_mem_erase e)
    · exact ho.nonzero k
  · intro h2 h2Z
    exact List.mem_cons_of_mem _ (ho.sub h2 h2Z)

/-- Deleting through a handle variable that still holds 0 does nothing. -/
theorem owned_delete_zero (alloc : Finset Nat → Nat) (g : GLState) (D Z : List Handle)
    (B : ObjectKind → Finset Nat) (h : Handle) (hZ : h ∈ Z) (ho : Owned g D Z B) :
    Owned (glCall alloc g (.deleteObject h)) D Z B := by
  have hz : g.handle h = 0 := ho.zero h hZ
  have hcall : glCall alloc g (.deleteObject h)
      = { g with log := GLCall.deleteObject h :: g.log } := by
    simp only [glCall, if_pos hz]
  rw [hcall]
  exact owned_of_same g _ D Z B rfl rfl ho

/-- Generating into a stale handle variable adds one fresh object, owned by that
variable. -/
theorem owned_gen (alloc : Finset Nat → Nat)
    (hfresh : ∀ used : Finset Nat, alloc used ∉ used ∧ alloc used ≠ 0)
    (g : GLState) (D Z : List Handle) (B : ObjectKind → Finset Nat) (h : Handle)
    (hD : h ∈ D) (ho : Owned g D Z B) :
    Owned (glCall alloc g (.genObject h)) (D.filter fun x => decide (x ≠ h))
      (Z.filter fun x => decide (x ≠ h)) B := by
  obtain ⟨hnew, hnz⟩ := hfresh (g.live h.kind)
  have hmemD : ∀ x, x ∉ D.filter (fun x => decide (x ≠ h)) ↔ (x ∉ D ∨ x = h) := by
    intro x
    simp only [List.mem_filter, decide_eq_true_eq, not_and, not_not]
    constructor
    · intro hx
      by_cases hxD : x ∈ D
      · exact Or.inr (hx hxD)
      · exact Or.inl hxD
    · rintro (hx | hx) hxD
      · exact absurd hxD hx
      · exact hx
  have hneq : ∀ x, x ∉ D → x ≠ h := fun x hx e => hx (e ▸ hD)
  have hold : ∀ x, x ∉ D → g.handle x ∈ g.live x.kind :=
    fun x hx => (ho.live_iff _ _).2 (Or.inr ⟨x, hx, rfl, rfl⟩)
  simp only [glCall]
  constructor
  · intro k n
    simp only [Function.update_apply, hmemD]
    by_cases hk : k = h.kind
    · subst hk
      simp only [if_true, Finset.mem_insert, ho.live_iff]
      constructor
      · rintro (hn | hB | ⟨h2, h2D, h2k, h2n⟩)
        · exact Or.inr ⟨h, Or.inr rfl, rfl, by rw [if_pos rfl, hn]⟩
        · exact Or.inl hB
        · exact Or.inr ⟨h2, Or.inl h2D, h2k, by rw [if_neg (hneq h2 h2D), h2n]⟩
      · rintro (hB | ⟨h2, h2D, h2k, h2n⟩)
        · exact Or.inr (Or.inl hB)
        · by_cases e : h2 = h
          · rw [if_pos e] at h2n
            exact Or.inl h2n.symm
          · rw [if_neg e] at h2n
            rcases h2D with h2D | h2D
            · exact Or.inr (Or.inr ⟨h2, h2D, h2k, h2n⟩)
            · exact absurd h2D e
    · simp only [if_neg hk, ho.live_iff]
      constructor
      · rintro (hB | ⟨h2, h2D, h2k, h2n⟩)
        · exact Or.inl hB
        · exact Or.inr ⟨h2, Or.inl h2D, h2k, by rw [if_neg (hneq h2 h2D), h2n]⟩
      · rintro (hB | ⟨h2, h2D, h2k, h2n⟩)
        · exact Or.inl hB
        · have e : h2 ≠ h := fun e => hk (e ▸ h2k.symm)
          rw [if_neg e] at h2n
          rcases h2D with h2D | h2D
          · exact Or.inr ⟨h2, h2D, h2k, h2n⟩
          · exact absurd h2D e
  · intro h2 h2D
    simp only [Function.update_apply]
    rcases (hmemD h2).1 h2D with h2D | h2D
    · rw [if_neg (hneq h2 h2D)]
      exact ho.not_base h2 h2D
    · subst h2D
      rw [if_pos rfl]
      intro hB
      exact hnew ((ho.live_iff _ _).2 (Or.inl hB))
  · intro h1 h2 h1D h2D hkind
    simp only [Function.update_apply]
    by_cases e1 : h1 = h
    · by_cases e2 : h2 = h
      · intro _
        rw [e1, e2]
      · rw [if_pos e1, if_neg e2]
        intro hv
        exfalso
        have h2D2 : h2 ∉ D := by
          rcases (hmemD h2).1 h2D with x | x
          · exact x
          · exact absurd x e2
        have := hold h2 h2D2
        rw [← hv, ← hkind, e1] at this
        exact hnew this
    · by_cases e2 : h2 = h
      · rw [if_neg e1, if_pos e2]
        intro hv
        exfalso
        have h1D2 : h1 ∉ D := by
          rcases (hmemD h1).1 h1D with x | x
          · exact x
          · exact absurd x e1
        have := hold h1 h1D2
        rw [hv, hkind, e2] at this
        exact hnew this
      · rw [if_neg e1, if_neg e2]
        have h1D2 : h1 ∉ D := by
          rcases (hmemD h1).1 h1D with x | x
          · exact x
          · exact absurd x e1
        have h2D2 : h2 ∉ D := by
          rcases (hmemD h2).1 h2D with x | x
          · exact x
          · exact absurd x e2
        exact ho.inj h1 h2 h1D2 h2D2 hkind
  · intro h2 h2Z
    simp only [List.mem_filter, decide_eq_true_eq] at h2Z
    simp only [Function.update_apply]
    rw [if_neg h2Z.2]
    exact ho.zero h2 h2Z.1
  · intro k
    simp only [Function.update_apply]
    split_ifs with hk
    · simp only [Finset.mem_insert, not_or]
      exact ⟨fun e => hnz e.symm, ho.nonzero _⟩
    · exact ho.nonzero k
  · intro h2 h2Z
    simp only [List.mem_filter, decide_eq_true_eq] at h2Z ⊢
    exact ⟨ho.sub h2 h2Z.1, h2Z.2⟩

/-- A call sequence that passes the delete/generate check keeps the ownership
invariant, with the lists the check returns. -/
theorem owned_glCalls (alloc : Finset Nat → Nat)
    (hfresh : ∀ used : Finset Nat, alloc used ∉ used ∧ alloc used ≠ 0)
    (B : ObjectKind → Finset Nat) (cs : List GLCall) :
    ∀ (g : GLState) (D Z D2 Z2 : List Handle), bracketCheck D Z cs = some (D2, Z2) →
      Owned g D Z B → Owned (glCalls alloc g cs) D2 Z2 B := by
  induction cs with
  | nil =>
    intro g D Z D2 Z2 hc ho
    simp only [bracketCheck, Option.some.injEq, Prod.mk.injEq] at hc
    obtain ⟨rfl, rfl⟩ := hc
    exact ho
  | cons c cs ih =>
    intro g D Z D2 Z2 hc ho
    simp only [glCalls, List.foldl_cons]
    cases c with
    | deleteObject h =>
      simp only [bracketCheck] at hc
      split_ifs at hc with h1 h2
      · exact ih _ _ _ _ _ hc (owned_delete_zero alloc g D Z B h h2 ho)
      · exact ih _ _ _ _ _ hc (owned_delete alloc g D Z B h h1 ho)
    | genObject h =>
      simp only [bracketCheck] at hc
      split_ifs at hc with h1
      exact ih _ _ _ _ _ hc (owned_gen alloc hfresh g D Z B h h1 ho)
    | bindFramebuffer _ =>
      exact ih _ _ _ _ _ (by simpa only [bracketCheck] using hc)
        (owned_of_same g _ D Z B rfl rfl ho)
    | bindTexture _ =>
      exact ih _ _ _ _ _ (by simpa only [bracketCheck] using hc)
        (owned_of_same g _ D Z B rfl rfl ho)
    | activeTexture _ =>
      exact ih _ _ _ _ _ (by simpa only [bracketCheck] using hc)
        (owned_of_same g _ D Z B rfl rfl ho)
    | texImage2D _ _ =>
      exact ih _ _ _ _ _ (by simpa only [bracketCheck] using hc)
        (owned_of_same g _ D Z B rfl rfl ho)
    | framebufferTexture2D _ _ =>
      exact ih _ _ _ _ _ (by simpa only [bracketCheck] using hc)
        (owned_of_same g _ D Z B rfl rfl ho)
    | bindRenderbuffer _ =>
      exact ih _ _ _ _ _ (by simpa only [bracketCheck] using hc)
        (owned_of_same g _ D Z B rfl rfl ho)
    | renderbufferStorage _ _ =>
      exact ih _ _ _ _ _ (by simpa only [bracketCheck] using hc)
        (owned_of_same g _ D Z B rfl rfl ho)
    | framebufferRenderbuffer _ =>
      exact ih _ _ _ _ _ (by simpa only [bracketCheck] using hc)
        (owned_of_same g _ D Z B rfl rfl ho)
    | setHorizontal _ =>
      exact ih _ _ _ _ _ (by simpa only [bracketCheck] using hc)
        (owned_of_same g _ D Z B rfl rfl ho)
    | clear =>
      exact ih _ _ _ _ _ (by simpa only [bracketCheck] using hc)
        (owned_of_same g _ D Z B rfl rfl ho)
    | draw _ =>
      exact ih _ _ _ _ _ (by simpa only [bracketCheck] using hc)
        (owned_of_same g _ D Z B rfl rfl ho)

/-- The list `allHandles` names every handle variable. -/
theorem mem_allHandles (h : Handle) : h ∈ allHandles := by
  cases h <;> decide

/-- Before the first call every handle variable holds 0 and owns nothing. -/
theorem owned_initial (others : ObjectKind → Finset Nat) (hothers : ∀ k, 0 ∉ others k) :
    Owned (initialGLState others) allHandles allHandles others := by
  constructor
  · intro k n
    constructor
    · intro hn
      exact Or.inl hn
    · rintro (hn | ⟨h, hD, _, _⟩)
      · exact hn
      · exact absurd (mem_allHandles h) hD
  · intro h hD
    exact absurd (mem_allHandles h) hD
  · intro h1 _ hD
    exact absurd (mem_allHandles h1) hD
  · intro h _
    rfl
  · exact hothers
  · intro h hZ
    exact hZ

/-- The first call of `createFramebuffers` passes the check from the state in
which every handle variable holds 0, a later call from a state in which every
handle variable owns an object; both end with every handle variable owning one. -/
theorem createFramebuffers_check (width height : Int) :
    bracketCheck allHandles allHandles (createFramebuffers width height) = some ([], [])
    ∧ bracketCheck [] [] (createFramebuffers width height) = some ([], []) := by
  constructor <;> rfl

/-- When every handle variable owns an object, the number of live objects of a
kind is the number of foreign objects plus the number of handle variables of
that kind. -/
theorem owned_card (g : GLState) (B : ObjectKind → Finset Nat) (ho : Owned g [] [] B)
    (k : ObjectKind) :
    (g.live k).card = (B k).card + (handlesOfKind k).length := by
  have hlive : g.live k = B k ∪ ((handlesOfKind k).toFinset.image g.handle) := by
    ext n
    simp only [ho.live_iff, Finset.mem_union, Finset.mem_image, List.mem_toFinset, handlesOfKind,
      List.mem_filter, decide_eq_true_eq, List.not_mem_nil, not_false_eq_true, true_and]
    constructor
    · rintro (hB | ⟨h, hk, hn⟩)
      · exact Or.inl hB
      · exact Or.inr ⟨h, ⟨mem_allHandles h, hk⟩, hn⟩
    · rintro (hB | ⟨h, ⟨_, hk⟩, hn⟩)
      · exact Or.inl hB
      · exact Or.inr ⟨h, hk, hn⟩
  have hdisj : Disjoint (B k) ((handlesOfKind k).toFinset.image g.handle) := by
    rw [Finset.disjoint_left]
    intro n hB hn
    simp only [Finset.mem_image, List.mem_toFinset, handlesOfKind, List.mem_filter,
      decide_eq_true_eq] at hn
    obtain ⟨h, ⟨_, hk⟩, hn⟩ := hn
    subst hn
    subst hk
    exact ho.not_base h (List.not_mem_nil h) hB
  have hinj : Set.InjOn g.handle ((handlesOfKind k).toFinset : Set Handle) := by
    intro h1 hh1 h2 hh2 e
    simp only [Finset.mem_coe, List.mem_toFinset, handlesOfKind, List.mem_filter,
      decide_eq_true_eq] at hh1 hh2
    exact ho.inj h1 h2 (List.not_mem_nil h1) (List.not_mem_nil h2) (hh1.2.trans hh2.2.symm) e
  have hnodup : (handlesOfKind k).Nodup := by
    cases k <;> decide
  rw [hlive, Finset.card_union_of_disjoint hdisj, Finset.card_image_of_injOn hinj,
    List.toFinset_card_of_nodup hnodup]

/-- The allocator `nextName` returns a name that is not in use and not 0. -/
theorem nextName_fresh (used : Finset Nat) : nextName used ∉ used ∧ nextName used ≠ 0 := by
  constructor
  · intro hmem
    have hle : id (nextName used) ≤ used.sup id := Finset.le_sup hmem
    simp only [nextName, id] at hle
    omega
  · simp [nextName]

section ResizeTheorems

variable {α : Type}

/-- C13: a resize event with `width ≤ 0` or `height ≤ 0` changes nothing:
`framebuffer_size_callback` returns the state it was given, so `SCR_WIDTH` and
`SCR_HEIGHT` keep their values, no GL call is made (the log of calls is the
same, so `createFramebuffers` has not run), and every handle variable and every
live object stays as it was. -/
theorem resize_rejected (alloc : Finset Nat → Nat) (s : State α) (g : GLState)
    (width height : Int) (h : width ≤ 0 ∨ height ≤ 0) :
    framebuffer_size_callback alloc s g width height = (s, g)
    ∧ (framebuffer_size_callback alloc s g width height).1.SCR_WIDTH = s.SCR_WIDTH
    ∧ (framebuffer_size_callback alloc s g width height).1.SCR_HEIGHT = s.SCR_HEIGHT
    ∧ (framebuffer_size_callback alloc s g width height).2.log = g.log
    ∧ (∀ hv : Handle,
        (framebuffer_size_callback alloc s g width height).2.handle hv = g.handle hv)
    ∧ (∀ k : ObjectKind,
        (framebuffer_size_callback alloc s g width height).2.live k = g.live k) := by
  have hc : ¬ (width > 0 ∧ height > 0) := by
    rintro ⟨hw, hh⟩
    rcases h with h | h <;> omega
  have he : framebuffer_size_callback alloc s g width height = (s, g) := by
    unfold framebuffer_size_callback
    rw [if_neg hc]
  rw [he]
  exact ⟨rfl, rfl, rfl, rfl, fun _ => rfl, fun _ => rfl⟩

/-- Witness of `resize_rejected`: a resize to 0 by 600 at startup. -/
theorem resize_rejected_witness :
    framebuffer_size_callback nextName (initialState (α := ℚ)) (initialGLState fun _ => ∅) 0 600
      = (initialState, initialGLState fun _ => ∅) :=
  (resize_rejected nextName initialState (initialGLState fun _ => ∅) 0 600
    (Or.inl (le_refl 0))).1

end ResizeTheorems

/-- C14 (the claim fails as worded): in a call of `createFramebuffers` the
deletion of the minimap framebuffer comes after the generation of the new scene
framebuffer, so not every object of the previous call is deleted before the
call generates new ones. -/
theorem minimap_deleted_after_generation :
    (createFramebuffers 1920 1080).indexOf (.genObject .fboScene)
      < (createFramebuffers 1920 1080).indexOf (.deleteObject .fboMinimap) := by
  decide

/-- C14 (as amended): every object generated by one call of `createFramebuffers`
is deleted by the next call before that call generates the replacement held by
the same handle variable (the calls that create or delete objects are, in
order: fourteen deletions, fourteen generations, then deletion and generation
of the minimap framebuffer and texture).  Hence, starting from the zeroed
handle variables of program start, after two consecutive calls the number of
live objects of each kind equals the number after one call, and the live objects
are exactly the foreign objects and the sixteen objects named by the handle
variables. -/
theorem createFramebuffers_no_leak (alloc : Finset Nat → Nat)
    (hfresh : ∀ used : Finset Nat, alloc used ∉ used ∧ alloc used ≠ 0)
    (others : ObjectKind → Finset Nat) (hothers : ∀ k, 0 ∉ others k) (width height : Int) :
    lifetimeCalls (createFramebuffers width height)
      = [ .deleteObject .fboScene, .deleteObject .texSceneColor, .deleteObject .texBrightMap,
          .deleteObject .rboDepth, .deleteObject .fboBloom0, .deleteObject .fboBloom1,
          .deleteObject .texBloom0, .deleteObject .texBloom1, .deleteObject .fboGodRays,
          .deleteObject .texGodRays, .deleteObject .fboComposite, .deleteObject .texComposite,
          .deleteObject .fboFinal, .deleteObject .texFinal,
          .genObject .fboScene, .genObject .texSceneColor, .genObject .texBrightMap,
          .genObject .rboDepth, .genObject .fboBloom0, .genObject .fboBloom1,
          .genObject .texBloom0, .genObject .texBloom1, .genObject .fboGodRays,
          .genObject .texGodRays, .genObject .fboComposite, .genObject .texComposite,
          .genObject .fboFinal, .genObject .texFinal,
          .deleteObject .fboMinimap, .deleteObject .texMinimap,
          .genObject .fboMinimap, .genObject .texMinimap ]
    ∧ (∀ h : Handle,
        (lifetimeCalls (createFramebuffers width height)).count (.deleteObject h) = 1
        ∧ (lifetimeCalls (createFramebuffers width height)).count (.genObject h) = 1
        ∧ (lifetimeCalls (createFramebuffers width height)).indexOf (.deleteObject h)
            < (lifetimeCalls (createFramebuffers width height)).indexOf (.genObject h))
    ∧ (∀ k : ObjectKind,
        ((glCalls alloc (glCalls alloc (initialGLState others)
            (createFramebuffers width height)) (createFramebuffers width height)).live k).card
          = ((glCalls alloc (initialGLState others)
              (createFramebuffers width height)).live k).card)
    ∧ (∀ (k : ObjectKind) (n : Nat),
        n ∈ (glCalls alloc (glCalls alloc (initialGLState others)
            (createFramebuffers width height)) (createFramebuffers width height)).live k
          ↔ (n ∈ others k ∨ ∃ h : Handle, h.kind = k
              ∧ (glCalls alloc (glCalls alloc (initialGLState others)
                  (createFramebuffers width height))
                  (createFramebuffers width height)).handle h = n))
    ∧ (∀ k : ObjectKind,
        ((glCalls alloc (initialGLState others) (createFramebuffers width height)).live k).card
          = (others k).card + (handlesOfKind k).length) := by
  have hlist : lifetimeCalls (createFramebuffers width height)
      = [ .deleteObject .fboScene, .deleteObject .texSceneColor, .deleteObject .texBrightMap,
          .deleteObject .rboDepth, .deleteObject .fboBloom0, .deleteObject .fboBloom1,
          .deleteObject .texBloom0, .deleteObject .texBloom1, .deleteObject .fboGodRays,
          .deleteObject .texGodRays, .deleteObject .fboComposite, .deleteObject .texComposite,
          .deleteObject .fboFinal, .deleteObject .texFinal,
          .genObject .fboScene, .genObject .texSceneColor, .genObject .texBrightMap,
          .genObject .rboDepth, .genObject .fboBloom0, .genObject .fboBloom1,
          .genObject .texBloom0, .genObject .texBloom1, .genObject .fboGodRays,
          .genObject .texGodRays, .genObject .fboComposite, .genObject .texComposite,
          .genObject .fboFinal, .genObject .texFinal,
          .deleteObject .fboMinimap, .deleteObject .texMinimap,
          .genObject .fboMinimap, .genObject .texMinimap ] := rfl
  have h1 : Owned (glCalls alloc (initialGLState others) (createFramebuffers width height))
      [] [] others :=
    owned_glCalls alloc hfresh others _ _ _ _ _ _ (createFramebuffers_check width height).1
      (owned_initial others hothers)
  have h2 : Owned (glCalls alloc (glCalls alloc (initialGLState others)
      (createFramebuffers width height)) (createFramebuffers width height)) [] [] others :=
    owned_glCalls alloc hfresh others _ _ _ _ _ _ (createFramebuffers_check width height).2 h1
  refine ⟨hlist, ?_, ?_, ?_, ?_⟩
  · intro h
    rw [hlist]
    cases h <;> decide
  · intro k
    rw [owned_card _ others h2 k, owned_card _ others h1 k]
  · intro k n
    rw [h2.live_iff]
    simp only [List.not_mem_nil, not_false_eq_true, true_and]
  · intro k
    exact owned_card _ others h1 k

/-- Witness of `createFramebuffers_no_leak`: the allocator `nextName`, no
foreign objects, a 1920 by 1080 window; textures are counted. -/
theorem createFramebuffers_no_leak_witness :
    ((glCalls nextName (glCalls nextName (initialGLState fun _ => ∅)
        (createFramebuffers 1920 1080)) (createFramebuffers 1920 1080)).live .texture).card
      = ((glCalls nextName (initialGLState fun _ => ∅)
          (createFramebuffers 1920 1080)).live .texture).card :=
  (createFramebuffers_no_leak nextName nextName_fresh (fun _ => ∅)
    (fun _ => Finset.not_mem_empty 0) 1920 1080).2.2.1 .texture

/-! ## Theorems: render passes -/

/-- The attachments of the two bloom framebuffers: each has its own bloom
texture and neither the other one nor the bright-threshold texture. -/
theorem isAttached_bloom (b : Bool) :
    isAttached (fboBloom b) (texBloom b) = true
    ∧ isAttached (fboBloom b) (texBloom (!b)) = false
    ∧ isAttached (fboBloom b) .texBrightMap = false := by
  cases b <;> decide

/-- Pass `k` of the bloom loop started with the locals `horizontal` and
`first_iteration`. -/
theorem bloomLoop_getElem? (n : Nat) :
    ∀ (horizontal first_iteration : Bool) (k : Nat), k < n →
      (bloomLoop n horizontal first_iteration)[k]?
        = some { framebuffer := fboBloom (xor horizontal (decide (k % 2 = 1))),
                 u_horizontal := xor horizontal (decide (k % 2 = 1)),
                 image := if first_iteration = true ∧ k = 0 then Handle.texBrightMap
                          else texBloom (!(xor horizontal (decide (k % 2 = 1)))) } := by
  induction n with
  | zero =>
    intro _ _ k hk
    omega
  | succ n ih =>
    intro horizontal first_iteration k hk
    cases k with
    | zero =>
      simp only [bloomLoop, List.getElem?_cons_zero]
      cases horizontal <;> cases first_iteration <;> simp
    | succ k =>
      simp only [bloomLoop, List.getElem?_cons_succ]
      rw [ih (!horizontal) false k (by omega)]
      have hpar : decide ((k + 1) % 2 = 1) = !decide (k % 2 = 1) := by
        rcases Nat.mod_two_eq_zero_or_one k with h | h
        · have h2 : (k + 1) % 2 = 1 := by omega
          simp [h, h2]
        · have h2 : (k + 1) % 2 = 0 := by omega
          simp [h, h2]
      rw [hpar]
      cases horizontal <;> cases decide (k % 2 = 1) <;> simp

/-- The bloom loop runs `amount` passes. -/
theorem bloomLoop_length (n : Nat) :
    ∀ horizontal first_iteration : Bool, (bloomLoop n horizontal first_iteration).length = n := by
  induction n with
  | zero => intro _ _; rfl
  | succ n ih =>
    intro horizontal first_iteration
    simp only [bloomLoop, List.length_cons, ih]

/-- C20: for every number `n ≥ 1` of passes of the bloom loop: pass 0 is
horizontal, writes `fboBloom[1]` and reads the bright-threshold texture; every
pass `k ≥ 1` reads the texture attached to the framebuffer that pass `k - 1`
wrote; pass `k` is horizontal exactly when `k` is even; and no pass reads a
texture attached to the framebuffer it writes. -/
theorem bloom_ping_pong (n : Nat) (hn : 1 ≤ n) :
    (bloomPasses n).length = n
    ∧ (bloomPasses n)[0]?
        = some { framebuffer := Handle.fboBloom1, u_horizontal := true,
                 image := Handle.texBrightMap }
    ∧ (∀ (k : Nat) (p q : BlurPass), 1 ≤ k → (bloomPasses n)[k - 1]? = some p →
        (bloomPasses n)[k]? = some q → isAttached p.framebuffer q.image = true)
    ∧ (∀ (k : Nat) (p : BlurPass), (bloomPasses n)[k]? = some p →
        p.u_horizontal = decide (k % 2 = 0))
    ∧ (∀ (k : Nat) (p : BlurPass), (bloomPasses n)[k]? = some p →
        isAttached p.framebuffer p.image = false) := by
  have hlen : (bloomPasses n).length = n := bloomLoop_length n true true
  have hget : ∀ k, k < n → (bloomPasses n)[k]?
        = some { framebuffer := fboBloom (xor true (decide (k % 2 = 1))),
                 u_horizontal := xor true (decide (k % 2 = 1)),
                 image := if true = true ∧ k = 0 then Handle.texBrightMap
                          else texBloom (!(xor true (decide (k % 2 = 1)))) } :=
    fun k hk => bloomLoop_getElem? n true true k hk
  have hlt : ∀ (k : Nat) (p : BlurPass), (bloomPasses n)[k]? = some p → k < n := by
    intro k p hp
    by_contra hge
    rw [List.getElem?_eq_none (by omega)] at hp
    exact Option.noConfusion hp
  refine ⟨hlen, ?_, ?_, ?_, ?_⟩
  · rw [hget 0 (by omega)]
    rfl
  · intro k p q hk hp hq
    have hkn := hlt k q hq
    rw [hget (k - 1) (by omega)] at hp
    rw [hget k hkn] at hq
    have hp2 := Option.some.inj hp
    have hq2 := Option.some.inj hq
    subst hp2
    subst hq2
    have hk0 : k ≠ 0 := by omega
    have hpar : decide ((k - 1) % 2 = 1) = !decide (k % 2 = 1) := by
      rcases Nat.mod_two_eq_zero_or_one k with h | h
      · have h2 : (k - 1) % 2 = 1 := by omega
        simp [h, h2]
      · have h2 : (k - 1) % 2 = 0 := by omega
        simp [h, h2]
    simp only [hpar]
    rw [if_neg (fun h => hk0 h.2)]
    cases decide (k % 2 = 1)
    · exact (isAttached_bloom false).1
    · exact (isAttached_bloom true).1
  · intro k p hp
    rw [hget k (hlt k p hp)] at hp
    have hp2 := Option.some.inj hp
    subst hp2
    rcases Nat.mod_two_eq_zero_or_one k with h | h <;> simp [h]
  · intro k p hp
    rw [hget k (hlt k p hp)] at hp
    have hp2 := Option.some.inj hp
    subst hp2
    simp only []
    split_ifs with hc
    · exact (isAttached_bloom _).2.2
    · exact (isAttached_bloom _).2.1

/-- Witness of `bloom_ping_pong`: the four passes that the render loop runs. -/
theorem bloom_ping_pong_witness :
    (bloomPasses bloomAmount).length = bloomAmount
    ∧ (bloomPasses bloomAmount)[0]?
        = some { framebuffer := Handle.fboBloom1, u_horizontal := true,
                 image := Handle.texBrightMap }
    ∧ (∀ (k : Nat) (p q : BlurPass), 1 ≤ k → (bloomPasses bloomAmount)[k - 1]? = some p →
        (bloomPasses bloomAmount)[k]? = some q → isAttached p.framebuffer q.image = true)
    ∧ (∀ (k : Nat) (p : BlurPass), (bloomPasses bloomAmount)[k]? = some p →
        p.u_horizontal = decide (k % 2 = 0))
    ∧ (∀ (k : Nat) (p : BlurPass), (bloomPasses bloomAmount)[k]? = some p →
        isAttached p.framebuffer p.image = false) :=
  bloom_ping_pong bloomAmount (by decide)

section PassTheorems

variable {α : Type}

/-- C19: in every program state the render targets written during one frame
are, in order: the scene framebuffer, the minimap framebuffer (only when
`shouldShowMinimap`), the bloom framebuffers of the four blur passes
(`fboBloom[1]`, `fboBloom[0]`, `fboBloom[1]`, `fboBloom[0]`), the god-rays
framebuffer, the composite framebuffer and the visible surface; the minimap
pass is present exactly when `(focusedPlanet == 3 && showEarthLocation) ||
(focusedPlanet == 6 && showSaturnLocation)`.  The framebuffer binds of the
frame are these and one more bind of the scene framebuffer before the bloom
loop, into which nothing is drawn. -/
theorem frame_pass_order (s : State α) :
    writtenTargets (frameRenderCalls s) none false
      = [some Handle.fboScene]
        ++ (if shouldShowMinimap s then [some Handle.fboMinimap] else [])
        ++ [ some Handle.fboBloom1, some Handle.fboBloom0, some Handle.fboBloom1,
             some Handle.fboBloom0, some Handle.fboGodRays, some Handle.fboComposite, none ]
    ∧ (shouldShowMinimap s = true
        ↔ ((s.focusedPlanet = 3 ∧ s.showEarthLocation = true)
            ∨ (s.focusedPlanet = 6 ∧ s.showSaturnLocation = true)))
    ∧ boundFramebuffers (frameRenderCalls s)
      = [some Handle.fboScene]
        ++ (if shouldShowMinimap s then [some Handle.fboMinimap] else [])
        ++ [ some Handle.fboScene,
             some Handle.fboBloom1, some Handle.fboBloom0, some Handle.fboBloom1,
             some Handle.fboBloom0, some Handle.fboGodRays, some Handle.fboComposite, none ] := by
  refine ⟨?_, ?_, ?_⟩
  · unfold frameRenderCalls
    cases shouldShowMinimap s <;> rfl
  · simp [shouldShowMinimap]
  · unfold frameRenderCalls
    cases shouldShowMinimap s <;> rfl

end PassTheorems

/-! ## Theorems: draw list of the scene pass -/

/-- Appending a stage to a list that is in stage order and ends at or before
that stage keeps the list in stage order. -/
theorem stage_order_append (l1 l2 : List SceneDraw) (k1 k2 : Nat) (hk : k1 ≤ k2)
    (h1 : l1.Pairwise (fun a b => a.stage ≤ b.stage) ∧ ∀ a ∈ l1, a.stage ≤ k1)
    (h2 : ∀ b ∈ l2, b.stage = k2) :
    (l1 ++ l2).Pairwise (fun a b => a.stage ≤ b.stage) ∧ ∀ a ∈ l1 ++ l2, a.stage ≤ k2 := by
  constructor
  · rw [List.pairwise_append]
    refine ⟨h1.1, ?_, ?_⟩
    · exact List.pairwise_of_forall_mem_list (fun a ha b hb => by rw [h2 a ha, h2 b hb])
    · intro a ha b hb
      rw [h2 b hb]
      exact le_trans (h1.2 a ha) hk
  · intro a ha
    rcases List.mem_append.mp ha with ha | ha
    · exact le_trans (h1.2 a ha) hk
    · exact le_of_eq (h2 a ha)

/-- The orbit loop draws the eight planet traces around the origin, followed by
trace 8 around Earth when `focusedPlanet == 3`. -/
theorem orbitDraws_eq (focusedPlanet : Int) :
    orbitDraws focusedPlanet
      = [ SceneDraw.orbit 0 none, .orbit 1 none, .orbit 2 none, .orbit 3 none, .orbit 4 none,
          .orbit 5 none, .orbit 6 none, .orbit 7 none ]
        ++ (if focusedPlanet = 3 then [ SceneDraw.orbit 8 (some 3) ] else []) := by
  by_cases h : focusedPlanet = 3
  · simp [orbitDraws, h, List.range_succ, List.flatMap]
  · simp [orbitDraws, h, List.range_succ, List.flatMap]

section SceneTheorems

variable {α : Type} [LinearOrderedField α]

/-- Positions 8, 15 and 2015 of a draw list that starts with the eight draws up
to Mars, seven moons and the inner belt. -/
theorem draw_positions (R : List SceneDraw) :
    ([ SceneDraw.sky, .star, .planet 1, .planet 2, .shell 2, .planet 3, .shell 3, .planet 4 ]
        ++ ((List.range 7).map SceneDraw.moon
          ++ ((List.range 2000).map SceneDraw.innerAsteroid
            ++ (SceneDraw.planet 5 :: R))))[8]? = some (SceneDraw.moon 0)
    ∧ ([ SceneDraw.sky, .star, .planet 1, .planet 2, .shell 2, .planet 3, .shell 3, .planet 4 ]
        ++ ((List.range 7).map SceneDraw.moon
          ++ ((List.range 2000).map SceneDraw.innerAsteroid
            ++ (SceneDraw.planet 5 :: R))))[15]? = some (SceneDraw.innerAsteroid 0)
    ∧ ([ SceneDraw.sky, .star, .planet 1, .planet 2, .shell 2, .planet 3, .shell 3, .planet 4 ]
        ++ ((List.range 7).map SceneDraw.moon
          ++ ((List.range 2000).map SceneDraw.innerAsteroid
            ++ (SceneDraw.planet 5 :: R))))[2015]? = some (SceneDraw.planet 5) := by
  refine ⟨?_, ?_, ?_⟩
  · rw [List.getElem?_append_right (by simp), List.getElem?_append_left (by simp)]
    simp
  · rw [List.getElem?_append_right (by simp), List.getElem?_append_right (by simp),
      List.getElem?_append_left (by simp)]
    simp
  · rw [List.getElem?_append_right (by simp), List.getElem?_append_right (by simp),
      List.getElem?_append_right (by simp)]
    simp

/-- C21 (the claim fails as worded): at startup the draw list has the first
moon at position 8, the first asteroid of the inner belt at position 15 and
Jupiter at position 2015, so a moon and the inner belt are drawn before a
planet. -/
theorem moon_drawn_before_jupiter :
    (sceneDraws (initialState (α := ℚ)))[8]? = some (SceneDraw.moon 0)
    ∧ (sceneDraws (initialState (α := ℚ)))[15]? = some (SceneDraw.innerAsteroid 0)
    ∧ (sceneDraws (initialState (α := ℚ)))[2015]? = some (SceneDraw.planet 5) := by
  have h : sceneDraws (initialState (α := ℚ))
      = [ SceneDraw.sky, .star, .planet 1, .planet 2, .shell 2, .planet 3, .shell 3, .planet 4 ]
        ++ ((List.range 7).map SceneDraw.moon
          ++ ((List.range 2000).map SceneDraw.innerAsteroid
            ++ (SceneDraw.planet 5 :: ([ SceneDraw.planet 6, .saturnRing, .planet 7, .planet 8 ]
              ++ (List.range 50000).map SceneDraw.outerAsteroid ++ orbitDraws 0)))) := by
    simp [sceneDraws, initialState, startupMoons, ASTEROID_COUNT]
  rw [h]
  exact draw_positions _

/-- Every orbit trace belongs to the last stage of the scene pass. -/
theorem orbitDraws_stage (focusedPlanet : Int) (b : SceneDraw)
    (hb : b ∈ orbitDraws focusedPlanet) : b.stage = 7 := by
  unfold orbitDraws at hb
  rw [List.mem_flatMap] at hb
  obtain ⟨i, _, hi⟩ := hb
  by_cases hc : i = 8 ∧ focusedPlanet ≠ 3
  · rw [if_pos hc] at hi
    exact absurd hi (List.not_mem_nil _)
  · rw [if_neg hc, List.mem_singleton] at hi
    rw [hi]
    rfl

/-- Draws of another kind than `moon` contribute nothing to the list of moon
indices. -/
theorem filterMap_moon_map (f : Nat → SceneDraw) (hf : ∀ i k, f i ≠ SceneDraw.moon k)
    (l : List Nat) :
    (l.map f).filterMap (fun d => match d with | SceneDraw.moon i => some i | _ => none)
      = [] := by
  induction l with
  | nil => rfl
  | cons x xs ih =>
    rw [List.map_cons, List.filterMap_cons]
    have hx : (match f x with | SceneDraw.moon i => some i | _ => none) = (none : Option Nat) := by
      cases hfx : f x with
      | moon k => exact absurd hfx (hf x k)
      | _ => rfl
    rw [hx]
    exact ih

/-- C21 (as amended): for every program state the draw list of the scene pass
is in stage order: the sky sphere, the star, the inner planets Mercury, Venus,
Earth and Mars (Venus and Earth each followed by its shell, the location
markers before Mars), all surviving moons, the inner asteroid belt, then the
outer planets Jupiter, Saturn with its ring, Uranus and Neptune, the outer
asteroid belt, and the orbit traces.  The Earth marker is drawn exactly when
Earth is focused, `showEarthLocation` is set and `currentLocationIndex` is an
index of `earthLocations`; the Saturn marker exactly when Saturn is focused,
`showSaturnLocation` is set and `currentSaturnLocationIndex` is an index of
`saturnLocations`; each at most once, the Earth marker first.  The moon draws
are exactly one per element of the moon list, in list order.  So the four inner
planets are drawn before every moon, every moon before the inner belt, and the
inner belt before the four outer planets and Saturn's ring. -/
theorem sceneDraws_stage_order (s : State α) :
    (sceneDraws s).Pairwise (fun a b => a.stage ≤ b.stage)
    ∧ sceneDraws s
        = [ SceneDraw.sky, .star, .planet 1, .planet 2, .shell 2, .planet 3, .shell 3 ]
          ++ (if s.focusedPlanet = 3 ∧ s.showEarthLocation = true
                ∧ 0 ≤ s.currentLocationIndex
                ∧ s.currentLocationIndex < (earthLocations (α := α)).length
              then [ SceneDraw.earthMarker ] else [])
          ++ (if s.focusedPlanet = 6 ∧ s.showSaturnLocation = true
                ∧ 0 ≤ s.currentSaturnLocationIndex
                ∧ s.currentSaturnLocationIndex < (saturnLocations (α := α)).length
              then [ SceneDraw.saturnMarker ] else [])
          ++ [ SceneDraw.planet 4 ]
          ++ (List.range s.moons.length).map SceneDraw.moon
          ++ (List.range ASTEROID_COUNT).map SceneDraw.innerAsteroid
          ++ [ SceneDraw.planet 5, .planet 6, .saturnRing, .planet 7, .planet 8 ]
          ++ (List.range (ASTEROID_COUNT * 25)).map SceneDraw.outerAsteroid
          ++ orbitDraws s.focusedPlanet
    ∧ (SceneDraw.earthMarker ∈ sceneDraws s
        ↔ s.focusedPlanet = 3 ∧ s.showEarthLocation = true ∧ 0 ≤ s.currentLocationIndex
          ∧ s.currentLocationIndex < (earthLocations (α := α)).length)
    ∧ (SceneDraw.saturnMarker ∈ sceneDraws s
        ↔ s.focusedPlanet = 6 ∧ s.showSaturnLocation = true
          ∧ 0 ≤ s.currentSaturnLocationIndex
          ∧ s.currentSaturnLocationIndex < (saturnLocations (α := α)).length)
    ∧ (sceneDraws s).filterMap (fun d => match d with | SceneDraw.moon i => some i | _ => none)
        = List.range s.moons.length := by
  have horbit : ∀ b : SceneDraw, b.stage = 2 → b ∉ orbitDraws s.focusedPlanet := by
    intro b hb hmem
    have h7 := orbitDraws_stage _ b hmem
    rw [hb] at h7
    exact absurd h7 (by decide)
  refine ⟨?_, ?_, ?_, ?_, ?_⟩
  · unfold sceneDraws
    have h0 : ([ SceneDraw.sky, .star, .planet 1, .planet 2, .shell 2, .planet 3,
        .shell 3 ] : List SceneDraw).Pairwise (fun a b => a.stage ≤ b.stage)
        ∧ ∀ a ∈ ([ SceneDraw.sky, .star, .planet 1, .planet 2, .shell 2, .planet 3,
            .shell 3 ] : List SceneDraw), a.stage ≤ 2 := by
      constructor
      · simp [SceneDraw.stage]
      · simp [SceneDraw.stage]
    have h1 := stage_order_append _
      (if s.focusedPlanet = 3 ∧ s.showEarthLocation = true ∧ s.currentLocationIndex ≥ 0
          ∧ s.currentLocationIndex < (earthLocations (α := α)).length
        then [ SceneDraw.earthMarker ] else []) 2 2 (le_refl _) h0
      (by intro b hb; split_ifs at hb <;> simp at hb; subst hb; rfl)
    have h2 := stage_order_append _
      (if s.focusedPlanet = 6 ∧ s.showSaturnLocation = true ∧ s.currentSaturnLocationIndex ≥ 0
          ∧ s.currentSaturnLocationIndex < (saturnLocations (α := α)).length
        then [ SceneDraw.saturnMarker ] else []) 2 2 (le_refl _) h1
      (by intro b hb; split_ifs at hb <;> simp at hb; subst hb; rfl)
    have h3 := stage_order_append _ [ SceneDraw.planet 4 ] 2 2 (le_refl _) h2
      (by intro b hb; simp at hb; subst hb; rfl)
    have h4 := stage_order_append _ ((List.range s.moons.length).map SceneDraw.moon) 2 3
      (by decide) h3
      (by intro b hb; simp only [List.mem_map] at hb; obtain ⟨i, _, rfl⟩ := hb; rfl)
    have h5 := stage_order_append _ ((List.range ASTEROID_COUNT).map SceneDraw.innerAsteroid) 3 4
      (by decide) h4
      (by intro b hb; simp only [List.mem_map] at hb; obtain ⟨i, _, rfl⟩ := hb; rfl)
    have h6 := stage_order_append _
      [ SceneDraw.planet 5, .planet 6, .saturnRing, .planet 7, .planet 8 ] 4 5 (by decide) h5
      (by intro b hb; simp at hb; rcases hb with h | h | h | h | h <;> subst h <;> rfl)
    have h7 := stage_order_append _
      ((List.range (ASTEROID_COUNT * 25)).map SceneDraw.outerAsteroid) 5 6 (by decide) h6
      (by intro b hb; simp only [List.mem_map] at hb; obtain ⟨i, _, rfl⟩ := hb; rfl)
    have h8 := stage_order_append _ (orbitDraws s.focusedPlanet) 6 7 (by decide) h7
      (by
        intro b hb
        exact orbitDraws_stage _ b hb)
    exact h8.1
  · rfl
  · unfold sceneDraws
    simp only [List.mem_append, List.mem_cons, List.mem_map, List.mem_range, List.mem_singleton,
      List.not_mem_nil, or_false, false_or, reduceCtorEq, and_false, exists_false,
      horbit SceneDraw.earthMarker rfl]
    constructor
    · intro h
      by_contra hc
      rw [if_neg hc] at h
      split_ifs at h <;> simp at h
    · intro h
      rw [if_pos h]
      simp
  · unfold sceneDraws
    simp only [List.mem_append, List.mem_cons, List.mem_map, List.mem_range, List.mem_singleton,
      List.not_mem_nil, or_false, false_or, reduceCtorEq, and_false, exists_false,
      horbit SceneDraw.saturnMarker rfl]
    constructor
    · intro h
      by_contra hc
      rw [if_neg hc] at h
      split_ifs at h <;> simp at h
    · intro h
      rw [if_pos h]
      simp
  · unfold sceneDraws
    simp only [List.filterMap_append]
    rw [filterMap_moon_map SceneDraw.innerAsteroid (by intro i k h; cases h),
      filterMap_moon_map SceneDraw.outerAsteroid (by intro i k h; cases h)]
    have hm : ((List.range s.moons.length).map SceneDraw.moon).filterMap
        (fun d => match d with | SceneDraw.moon i => some i | _ => none)
        = List.range s.moons.length := by
      rw [List.filterMap_map]
      exact List.filterMap_some _
    have ho : (orbitDraws s.focusedPlanet).filterMap
        (fun d => match d with | SceneDraw.moon i => some i | _ => none) = [] := by
      rw [orbitDraws_eq]
      split_ifs <;> rfl
    rw [hm, ho]
    split_ifs <;> simp

/-- C22 (the claim fails as worded): after a poll with key 5 down Jupiter is
the focused body and the moon list still holds the three moons of Jupiter
(entries 1 to 3, parent 5), yet the orbit loop draws the eight planet traces
and no other trace: no orbit of a moon of Jupiter is drawn. -/
theorem jupiter_moon_orbit_not_drawn :
    (processInput (initialState (α := ℚ)) (keysDown [GLFW_KEY_5])).focusedPlanet = 5
    ∧ (processInput (initialState (α := ℚ)) (keysDown [GLFW_KEY_5])).moons.map Moon.parentPlanet
        = [4, 5, 5, 5, 6, 6, 3]
    ∧ orbitDraws (processInput (initialState (α := ℚ)) (keysDown [GLFW_KEY_5])).focusedPlanet
        = [ SceneDraw.orbit 0 none, .orbit 1 none, .orbit 2 none, .orbit 3 none, .orbit 4 none,
            .orbit 5 none, .orbit 6 none, .orbit 7 none ] := by
  refine ⟨by decide, by decide, ?_⟩
  rw [orbitDraws_eq]
  rfl

/-- C22 (as amended): in every frame the scene pass draws the orbit traces 0 to
7 of the eight planets, each once and around the origin.  The only other trace
is trace 8, the orbit of Earth's Moon, translated to Earth's position
(`planetPositions[3]`): it is drawn, once, exactly when Earth is the focused
body, whatever the moon list holds.  No trace exists for the moons of other
planets. -/
theorem orbit_traces_drawn (s : State α) :
    (∀ (i : Nat) (c : Option Nat), SceneDraw.orbit i c ∈ sceneDraws s
        ↔ ((i < 8 ∧ c = none) ∨ (i = 8 ∧ c = some 3 ∧ s.focusedPlanet = 3)))
    ∧ (∀ (i : Nat) (c : Option Nat), (sceneDraws s).count (SceneDraw.orbit i c) ≤ 1) := by
  have hmem : ∀ (i : Nat) (c : Option Nat), SceneDraw.orbit i c ∈ sceneDraws s
      ↔ SceneDraw.orbit i c ∈ orbitDraws s.focusedPlanet := by
    intro i c
    unfold sceneDraws
    simp only [List.mem_append, List.mem_map]
    constructor
    · intro h
      rcases h with (((((((h | h) | h) | h) | h) | h) | h) | h) | h
      · simp at h
      · split_ifs at h <;> simp at h
      · split_ifs at h <;> simp at h
      · simp at h
      · obtain ⟨_, _, h⟩ := h
        cases h
      · obtain ⟨_, _, h⟩ := h
        cases h
      · simp at h
      · obtain ⟨_, _, h⟩ := h
        cases h
      · exact h
    · intro h
      exact Or.inr h
  have hcount : ∀ (i : Nat) (c : Option Nat), (sceneDraws s).count (SceneDraw.orbit i c)
      = (orbitDraws s.focusedPlanet).count (SceneDraw.orbit i c) := by
    intro i c
    have hzero : ∀ l : List SceneDraw, SceneDraw.orbit i c ∉ l →
        l.count (SceneDraw.orbit i c) = 0 := fun l h => List.count_eq_zero_of_not_mem h
    unfold sceneDraws
    simp only [List.count_append]
    rw [hzero [ SceneDraw.sky, .star, .planet 1, .planet 2, .shell 2, .planet 3, .shell 3 ]
        (by simp),
      hzero _ (by split_ifs <;> simp), hzero [ SceneDraw.planet 4 ] (by simp),
      hzero ((List.range s.moons.length).map SceneDraw.moon) (by simp),
      hzero ((List.range ASTEROID_COUNT).map SceneDraw.innerAsteroid) (by simp),
      hzero [ SceneDraw.planet 5, .planet 6, .saturnRing, .planet 7, .planet 8 ] (by simp),
      hzero ((List.range (ASTEROID_COUNT * 25)).map SceneDraw.outerAsteroid) (by simp)]
    have hsat : (if s.focusedPlanet = 6 ∧ s.showSaturnLocation = true
          ∧ s.currentSaturnLocationIndex ≥ 0
          ∧ s.currentSaturnLocationIndex < (saturnLocations (α := α)).length
        then [ SceneDraw.saturnMarker ] else []).count (SceneDraw.orbit i c) = 0 :=
      hzero _ (by split_ifs <;> simp)
    rw [hsat]
    simp
  refine ⟨?_, ?_⟩
  · intro i c
    rw [hmem, orbitDraws_eq]
    by_cases hf : s.focusedPlanet = 3
    · simp only [hf, if_true, List.mem_append, List.mem_cons, List.mem_singleton,
        List.not_mem_nil, or_false, SceneDraw.orbit.injEq]
      constructor
      · intro h
        rcases h with (h | h | h | h | h | h | h | h) | h
        all_goals first
          | exact Or.inl ⟨by omega, h.2.symm ▸ rfl⟩
          | exact Or.inr ⟨h.1, h.2, trivial⟩
      · intro h
        rcases h with ⟨hi, hc⟩ | ⟨hi, hc, _⟩
        · left
          subst hc
          interval_cases i <;> simp
        · right
          exact ⟨hi, hc⟩
    · simp only [hf, if_false, List.append_nil, List.mem_cons, List.mem_singleton,
        List.not_mem_nil, or_false, SceneDraw.orbit.injEq, and_false]
      constructor
      · intro h
        rcases h with h | h | h | h | h | h | h | h
        all_goals exact ⟨by omega, h.2⟩
      · intro h
        obtain ⟨hi, hc⟩ := h
        subst hc
        interval_cases i <;> simp
  · intro i c
    rw [hcount]
    apply List.nodup_iff_count_le_one.mp
    rw [orbitDraws_eq]
    split_ifs <;> decide

end SceneTheorems

/-! ## Theorems: the variables an input event leaves alone

Each lemma of this part lists thirteen variables in a fixed order: `moons`,
`focusedPlanet`, `currentCameraPos`, the three edge flags of the time-scale and
key-9 blocks, `focusedLocationIndex`, `showEarthLocation`,
`isMovingToLocation`, `currentLocationIndex`, `cameraDistance`, `timeScale` and
`console`.  It states that the function
returns each of them unchanged; the place of a variable that the function
writes holds `True`. -/

section KeepsPlainTheorems

variable {α : Type}

/-- The Escape test writes none of the thirteen variables. -/
theorem processEscapeKey_keeps (s : State α) (glfwGetKey : Int → Int) :
    (processEscapeKey s glfwGetKey).moons = s.moons
    ∧ (processEscapeKey s glfwGetKey).focusedPlanet = s.focusedPlanet
    ∧ (processEscapeKey s glfwGetKey).currentCameraPos = s.currentCameraPos
    ∧ (processEscapeKey s glfwGetKey).plusKeyPressed = s.plusKeyPressed
    ∧ (processEscapeKey s glfwGetKey).minusKeyPressed = s.minusKeyPressed
    ∧ (processEscapeKey s glfwGetKey).nineKeyPressed = s.nineKeyPressed
    ∧ (processEscapeKey s glfwGetKey).focusedLocationIndex = s.focusedLocationIndex
    ∧ (processEscapeKey s glfwGetKey).showEarthLocation = s.showEarthLocation
    ∧ (processEscapeKey s glfwGetKey).isMovingToLocation = s.isMovingToLocation
    ∧ (processEscapeKey s glfwGetKey).currentLocationIndex = s.currentLocationIndex
    ∧ (processEscapeKey s glfwGetKey).cameraDistance = s.cameraDistance
    ∧ (processEscapeKey s glfwGetKey).timeScale = s.timeScale
    ∧ (processEscapeKey s glfwGetKey).console = s.console := by
  unfold processEscapeKey
  split_ifs <;> exact ⟨rfl, rfl, rfl, rfl, rfl, rfl, rfl, rfl, rfl, rfl, rfl, rfl, rfl⟩

/-- A focus statement writes `focusedPlanet` only. -/
theorem focusKey_keeps (s : State α) (glfwGetKey : Int → Int) (key planet : Int) :
    (focusKey s glfwGetKey key planet).moons = s.moons
    ∧ True
    ∧ (focusKey s glfwGetKey key planet).currentCameraPos = s.currentCameraPos
    ∧ (focusKey s glfwGetKey key planet).plusKeyPressed = s.plusKeyPressed
    ∧ (focusKey s glfwGetKey key planet).minusKeyPressed = s.minusKeyPressed
    ∧ (focusKey s glfwGetKey key planet).nineKeyPressed = s.nineKeyPressed
    ∧ (focusKey s glfwGetKey key planet).focusedLocationIndex = s.focusedLocationIndex
    ∧ (focusKey s glfwGetKey key planet).showEarthLocation = s.showEarthLocation
    ∧ (focusKey s glfwGetKey key planet).isMovingToLocation = s.isMovingToLocation
    ∧ (focusKey s glfwGetKey key planet).currentLocationIndex = s.currentLocationIndex
    ∧ (focusKey s glfwGetKey key planet).cameraDistance = s.cameraDistance
    ∧ (focusKey s glfwGetKey key planet).timeScale = s.timeScale
    ∧ (focusKey s glfwGetKey key planet).console = s.console := by
  unfold focusKey
  split_ifs <;> exact ⟨rfl, trivial, rfl, rfl, rfl, rfl, rfl, rfl, rfl, rfl, rfl, rfl, rfl⟩

/-- The key-9 action writes `moons`, `focusedPlanet`, the console and its flag. -/
theorem key9Action_keeps (s : State α) :
    True
    ∧ True
    ∧ (key9Action s).currentCameraPos = s.currentCameraPos
    ∧ (key9Action s).plusKeyPressed = s.plusKeyPressed
    ∧ (key9Action s).minusKeyPressed = s.minusKeyPressed
    ∧ True
    ∧ (key9Action s).focusedLocationIndex = s.focusedLocationIndex
    ∧ (key9Action s).showEarthLocation = s.showEarthLocation
    ∧ (key9Action s).isMovingToLocation = s.isMovingToLocation
    ∧ (key9Action s).currentLocationIndex = s.currentLocationIndex
    ∧ (key9Action s).cameraDistance = s.cameraDistance
    ∧ (key9Action s).timeScale = s.timeScale
    ∧ True := by
  exact ⟨trivial, trivial, rfl, rfl, rfl, trivial, rfl, rfl, rfl, rfl, rfl, rfl, trivial⟩

/-- The statements on key O write the location variables only. -/
theorem processKeyO_keeps (s : State α) (glfwGetKey : Int → Int) :
    (processKeyO s glfwGetKey).moons = s.moons
    ∧ (processKeyO s glfwGetKey).focusedPlanet = s.focusedPlanet
    ∧ (processKeyO s glfwGetKey).currentCameraPos = s.currentCameraPos
    ∧ (processKeyO s glfwGetKey).plusKeyPressed = s.plusKeyPressed
    ∧ (processKeyO s glfwGetKey).minusKeyPressed = s.minusKeyPressed
    ∧ (processKeyO s glfwGetKey).nineKeyPressed = s.nineKeyPressed
    ∧ True
    ∧ True
    ∧ True
    ∧ True
    ∧ (processKeyO s glfwGetKey).cameraDistance = s.cameraDistance
    ∧ (processKeyO s glfwGetKey).timeScale = s.timeScale
    ∧ (processKeyO s glfwGetKey).console = s.console := by
  unfold processKeyO
  simp only []
  split_ifs <;> exact ⟨rfl, rfl, rfl, rfl, rfl, rfl, trivial, trivial, trivial, trivial, rfl, rfl, rfl⟩

/-- The statements on key M write the location variables only. -/
theorem processKeyM_keeps (s : State α) (glfwGetKey : Int → Int) :
    (processKeyM s glfwGetKey).moons = s.moons
    ∧ (processKeyM s glfwGetKey).focusedPlanet = s.focusedPlanet
    ∧ (processKeyM s glfwGetKey).currentCameraPos = s.currentCameraPos
    ∧ (processKeyM s glfwGetKey).plusKeyPressed = s.plusKeyPressed
    ∧ (processKeyM s glfwGetKey).minusKeyPressed = s.minusKeyPressed
    ∧ (processKeyM s glfwGetKey).nineKeyPressed = s.nineKeyPressed
    ∧ True
    ∧ True
    ∧ True
    ∧ True
    ∧ (processKeyM s glfwGetKey).cameraDistance = s.cameraDistance
    ∧ (processKeyM s glfwGetKey).timeScale = s.timeScale
    ∧ (processKeyM s glfwGetKey).console = s.console := by
  unfold processKeyM
  simp only []
  split_ifs <;> exact ⟨rfl, rfl, rfl, rfl, rfl, rfl, trivial, trivial, trivial, trivial, rfl, rfl, rfl⟩

/-- The statements on key D write the location variables only. -/
theorem processKeyD_keeps (s : State α) (glfwGetKey : Int → Int) :
    (processKeyD s glfwGetKey).moons = s.moons
    ∧ (processKeyD s glfwGetKey).focusedPlanet = s.focusedPlanet
    ∧ (processKeyD s glfwGetKey).currentCameraPos = s.currentCameraPos
    ∧ (processKeyD s glfwGetKey).plusKeyPressed = s.plusKeyPressed
    ∧ (processKeyD s glfwGetKey).minusKeyPressed = s.minusKeyPressed
    ∧ (processKeyD s glfwGetKey).nineKeyPressed = s.nineKeyPressed
    ∧ True
    ∧ True
    ∧ True
    ∧ True
    ∧ (processKeyD s glfwGetKey).cameraDistance = s.cameraDistance
    ∧ (processKeyD s glfwGetKey).timeScale = s.timeScale
    ∧ (processKeyD s glfwGetKey).console = s.console := by
  unfold processKeyD
  simp only []
  split_ifs <;> exact ⟨rfl, rfl, rfl, rfl, rfl, rfl, trivial, trivial, trivial, trivial, rfl, rfl, rfl⟩

/-- The statements on key A write the location variables only. -/
theorem processKeyA_keeps (s : State α) (glfwGetKey : Int → Int) :
    (processKeyA s glfwGetKey).moons = s.moons
    ∧ (processKeyA s glfwGetKey).focusedPlanet = s.focusedPlanet
    ∧ (processKeyA s glfwGetKey).currentCameraPos = s.currentCameraPos
    ∧ (processKeyA s glfwGetKey).plusKeyPressed = s.plusKeyPressed
    ∧ (processKeyA s glfwGetKey).minusKeyPressed = s.minusKeyPressed
    ∧ (processKeyA s glfwGetKey).nineKeyPressed = s.nineKeyPressed
    ∧ True
    ∧ True
    ∧ True
    ∧ True
    ∧ (processKeyA s glfwGetKey).cameraDistance = s.cameraDistance
    ∧ (processKeyA s glfwGetKey).timeScale = s.timeScale
    ∧ (processKeyA s glfwGetKey).console = s.console := by
  unfold processKeyA
  simp only []
  split_ifs <;> exact ⟨rfl, rfl, rfl, rfl, rfl, rfl, trivial, trivial, trivial, trivial, rfl, rfl, rfl⟩

/-- The statements on key H write none of the thirteen variables. -/
theorem processKeyH_keeps (s : State α) (glfwGetKey : Int → Int) :
    (processKeyH s glfwGetKey).moons = s.moons
    ∧ (processKeyH s glfwGetKey).focusedPlanet = s.focusedPlanet
    ∧ (processKeyH s glfwGetKey).currentCameraPos = s.currentCameraPos
    ∧ (processKeyH s glfwGetKey).plusKeyPressed = s.plusKeyPressed
    ∧ (processKeyH s glfwGetKey).minusKeyPressed = s.minusKeyPressed
    ∧ (processKeyH s glfwGetKey).nineKeyPressed = s.nineKeyPressed
    ∧ (processKeyH s glfwGetKey).focusedLocationIndex = s.focusedLocationIndex
    ∧ (processKeyH s glfwGetKey).showEarthLocation = s.showEarthLocation
    ∧ (processKeyH s glfwGetKey).isMovingToLocation = s.isMovingToLocation
    ∧ (processKeyH s glfwGetKey).currentLocationIndex = s.currentLocationIndex
    ∧ (processKeyH s glfwGetKey).cameraDistance = s.cameraDistance
    ∧ (processKeyH s glfwGetKey).timeScale = s.timeScale
    ∧ (processKeyH s glfwGetKey).console = s.console := by
  unfold processKeyH
  simp only []
  split_ifs <;> exact ⟨rfl, rfl, rfl, rfl, rfl, rfl, rfl, rfl, rfl, rfl, rfl, rfl, rfl⟩

/-- The statements on key C write none of the thirteen variables. -/
theorem processKeyC_keeps (s : State α) (glfwGetKey : Int → Int) :
    (processKeyC s glfwGetKey).moons = s.moons
    ∧ (processKeyC s glfwGetKey).focusedPlanet = s.focusedPlanet
    ∧ (processKeyC s glfwGetKey).currentCameraPos = s.currentCameraPos
    ∧ (processKeyC s glfwGetKey).plusKeyPressed = s.plusKeyPressed
    ∧ (processKeyC s glfwGetKey).minusKeyPressed = s.minusKeyPressed
    ∧ (processKeyC s glfwGetKey).nineKeyPressed = s.nineKeyPressed
    ∧ (processKeyC s glfwGetKey).focusedLocationIndex = s.focusedLocationIndex
    ∧ (processKeyC s glfwGetKey).showEarthLocation = s.showEarthLocation
    ∧ (processKeyC s glfwGetKey).isMovingToLocation = s.isMovingToLocation
    ∧ (processKeyC s glfwGetKey).currentLocationIndex = s.currentLocationIndex
    ∧ (processKeyC s glfwGetKey).cameraDistance = s.cameraDistance
    ∧ (processKeyC s glfwGetKey).timeScale = s.timeScale
    ∧ (processKeyC s glfwGetKey).console = s.console := by
  unfold processKeyC
  simp only []
  split_ifs <;> exact ⟨rfl, rfl, rfl, rfl, rfl, rfl, rfl, rfl, rfl, rfl, rfl, rfl, rfl⟩

/-- The key-9 statements write `moons`, `focusedPlanet`, the console and their
flag. -/
theorem processKey9_keeps (s : State α) (glfwGetKey : Int → Int) :
    True
    ∧ True
    ∧ (processKey9 s glfwGetKey).currentCameraPos = s.currentCameraPos
    ∧ (processKey9 s glfwGetKey).plusKeyPressed = s.plusKeyPressed
    ∧ (processKey9 s glfwGetKey).minusKeyPressed = s.minusKeyPressed
    ∧ True
    ∧ (processKey9 s glfwGetKey).focusedLocationIndex = s.focusedLocationIndex
    ∧ (processKey9 s glfwGetKey).showEarthLocation = s.showEarthLocation
    ∧ (processKey9 s glfwGetKey).isMovingToLocation = s.isMovingToLocation
    ∧ (processKey9 s glfwGetKey).currentLocationIndex = s.currentLocationIndex
    ∧ (processKey9 s glfwGetKey).cameraDistance = s.cameraDistance
    ∧ (processKey9 s glfwGetKey).timeScale = s.timeScale
    ∧ True := by
  unfold processKey9 key9Action
  simp only []
  split_ifs <;> exact ⟨trivial, trivial, rfl, rfl, rfl, trivial, rfl, rfl, rfl, rfl, rfl, rfl, trivial⟩

/-- The nine focus statements write `focusedPlanet` only. -/
theorem processFocusKeys_keeps (s : State α) (glfwGetKey : Int → Int) :
    (processFocusKeys s glfwGetKey).moons = s.moons
    ∧ True
    ∧ (processFocusKeys s glfwGetKey).currentCameraPos = s.currentCameraPos
    ∧ (processFocusKeys s glfwGetKey).plusKeyPressed = s.plusKeyPressed
    ∧ (processFocusKeys s glfwGetKey).minusKeyPressed = s.minusKeyPressed
    ∧ (processFocusKeys s glfwGetKey).nineKeyPressed = s.nineKeyPressed
    ∧ (processFocusKeys s glfwGetKey).focusedLocationIndex = s.focusedLocationIndex
    ∧ (processFocusKeys s glfwGetKey).showEarthLocation = s.showEarthLocation
    ∧ (processFocusKeys s glfwGetKey).isMovingToLocation = s.isMovingToLocation
    ∧ (processFocusKeys s glfwGetKey).currentLocationIndex = s.currentLocationIndex
    ∧ (processFocusKeys s glfwGetKey).cameraDistance = s.cameraDistance
    ∧ (processFocusKeys s glfwGetKey).timeScale = s.timeScale
    ∧ (processFocusKeys s glfwGetKey).console = s.console := by
  unfold processFocusKeys
  simp only []
  exact ⟨Eq.trans (focusKey_keeps _ _ _ _).1 (Eq.trans (focusKey_keeps _ _ _ _).1 (Eq.trans (focusKey_keeps _ _ _ _).1 (Eq.trans (focusKey_keeps _ _ _ _).1 (Eq.trans (focusKey_keeps _ _ _ _).1 (Eq.trans (focusKey_keeps _ _ _ _).1 (Eq.trans (focusKey_keeps _ _ _ _).1 (Eq.trans (focusKey_keeps _ _ _ _).1 ((focusKey_keeps _ _ _ _).1)))))))),
    trivial,
    Eq.trans (focusKey_keeps _ _ _ _).2.2.1 (Eq.trans (focusKey_keeps _ _ _ _).2.2.1 (Eq.trans (focusKey_keeps _ _ _ _).2.2.1 (Eq.trans (focusKey_keeps _ _ _ _).2.2.1 (Eq.trans (focusKey_keeps _ _ _ _).2.2.1 (Eq.trans (focusKey_keeps _ _ _ _).2.2.1 (Eq.trans (focusKey_keeps _ _ _ _).2.2.1 (Eq.trans (focusKey_keeps _ _ _ _).2.2.1 ((focusKey_keeps _ _ _ _).2.2.1)))))))),
    Eq.trans (focusKey_keeps _ _ _ _).2.2.2.1 (Eq.trans (focusKey_keeps _ _ _ _).2.2.2.1 (Eq.trans (focusKey_keeps _ _ _ _).2.2.2.1 (Eq.trans (focusKey_keeps _ _ _ _).2.2.2.1 (Eq.trans (focusKey_keeps _ _ _ _).2.2.2.1 (Eq.trans (focusKey_keeps _ _ _ _).2.2.2.1 (Eq.trans (focusKey_keeps _ _ _ _).2.2.2.1 (Eq.trans (focusKey_keeps _ _ _ _).2.2.2.1 ((focusKey_keeps _ _ _ _).2.2.2.1)))))))),
    Eq.trans (focusKey_keeps _ _ _ _).2.2.2.2.1 (Eq.trans (focusKey_keeps _ _ _ _).2.2.2.2.1 (Eq.trans (focusKey_keeps _ _ _ _).2.2.2.2.1 (Eq.trans (focusKey_keeps _ _ _ _).2.2.2.2.1 (Eq.trans (focusKey_keeps _ _ _ _).2.2.2.2.1 (Eq.trans (focusKey_keeps _ _ _ _).2.2.2.2.1 (Eq.trans (focusKey_keeps _ _ _ _).2.2.2.2.1 (Eq.trans (focusKey_keeps _ _ _ _).2.2.2.2.1 ((focusKey_keeps _ _ _ _).2.2.2.2.1)))))))),
    Eq.trans (focusKey_keeps _ _ _ _).2.2.2.2.2.1 (Eq.trans (focusKey_keeps _ _ _ _).2.2.2.2.2.1 (Eq.trans (focusKey_keeps _ _ _ _).2.2.2.2.2.1 (Eq.trans (focusKey_keeps _ _ _ _).2.2.2.2.2.1 (Eq.trans (focusKey_keeps _ _ _ _).2.2.2.2.2.1 (Eq.trans (focusKey_keeps _ _ _ _).2.2.2.2.2.1 (Eq.trans (focusKey_keeps _ _ _ _).2.2.2.2.2.1 (Eq.trans (focusKey_keeps _ _ _ _).2.2.2.2.2.1 ((focusKey_keeps _ _ _ _).2.2.2.2.2.1)))))))),
    Eq.trans (focusKey_keeps _ _ _ _).2.2.2.2.2.2.1 (Eq.trans (focusKey_keeps _ _ _ _).2.2.2.2.2.2.1 (Eq.trans (focusKey_keeps _ _ _ _).2.2.2.2.2.2.1 (Eq.trans (focusKey_keeps _ _ _ _).2.2.2.2.2.2.1 (Eq.trans (focusKey_keeps _ _ _ _).2.2.2.2.2.2.1 (Eq.trans (focusKey_keeps _ _ _ _).2.2.2.2.2.2.1 (Eq.trans (focusKey_keeps _ _ _ _).2.2.2.2.2.2.1 (Eq.trans (focusKey_keeps _ _ _ _).2.2.2.2.2.2.1 ((focusKey_keeps _ _ _ _).2.2.2.2.2.2.1)))))))),
    Eq.trans (focusKey_keeps _ _ _ _).2.2.2.2.2.2.2.1 (Eq.trans (focusKey_keeps _ _ _ _).2.2.2.2.2.2.2.1 (Eq.trans (focusKey_keeps _ _ _ _).2.2.2.2.2.2.2.1 (Eq.trans (focusKey_keeps _ _ _ _).2.2.2.2.2.2.2.1 (Eq.trans (focusKey_keeps _ _ _ _).2.2.2.2.2.2.2.1 (Eq.trans (focusKey_keeps _ _ _ _).2.2.2.2.2.2.2.1 (Eq.trans (focusKey_keeps _ _ _ _).2.2.2.2.2.2.2.1 (Eq.trans (focusKey_keeps _ _ _ _).2.2.2.2.2.2.2.1 ((focusKey_keeps _ _ _ _).2.2.2.2.2.2.2.1)))))))),
    Eq.trans (focusKey_keeps _ _ _ _).2.2.2.2.2.2.2.2.1 (Eq.trans (focusKey_keeps _ _ _ _).2.2.2.2.2.2.2.2.1 (Eq.trans (focusKey_keeps _ _ _ _).2.2.2.2.2.2.2.2.1 (Eq.trans (focusKey_keeps _ _ _ _).2.2.2.2.2.2.2.2.1 (Eq.trans (focusKey_keeps _ _ _ _).2.2.2.2.2.2.2.2.1 (Eq.trans (focusKey_keeps _ _ _ _).2.2.2.2.2.2.2.2.1 (Eq.trans (focusKey_keeps _ _ _ _).2.2.2.2.2.2.2.2.1 (Eq.trans (focusKey_keeps _ _ _ _).2.2.2.2.2.2.2.2.1 ((focusKey_keeps _ _ _ _).2.2.2.2.2.2.2.2.1)))))))),
    Eq.trans (focusKey_keeps _ _ _ _).2.2.2.2.2.2.2.2.2.1 (Eq.trans (focusKey_keeps _ _ _ _).2.2.2.2.2.2.2.2.2.1 (Eq.trans (focusKey_keeps _ _ _ _).2.2.2.2.2.2.2.2.2.1 (Eq.trans (focusKey_keeps _ _ _ _).2.2.2.2.2.2.2.2.2.1 (Eq.trans (focusKey_keeps _ _ _ _).2.2.2.2.2.2.2.2.2.1 (Eq.trans (focusKey_keeps _ _ _ _).2.2.2.2.2.2.2.2.2.1 (Eq.trans (focusKey_keeps _ _ _ _).2.2.2.2.2.2.2.2.2.1 (Eq.trans (focusKey_keeps _ _ _ _).2.2.2.2.2.2.2.2.2.1 ((focusKey_keeps _ _ _ _).2.2.2.2.2.2.2.2.2.1)))))))),
    Eq.trans (focusKey_keeps _ _ _ _).2.2.2.2.2.2.2.2.2.2.1 (Eq.trans (focusKey_keeps _ _ _ _).2.2.2.2.2.2.2.2.2.2.1 (Eq.trans (focusKey_keeps _ _ _ _).2.2.2.2.2.2.2.2.2.2.1 (Eq.trans (focusKey_keeps _ _ _ _).2.2.2.2.2.2.2.2.2.2.1 (Eq.trans (focusKey_keeps _ _ _ _).2.2.2.2.2.2.2.2.2.2.1 (Eq.trans (focusKey_keeps _ _ _ _).2.2.2.2.2.2.2.2.2.2.1 (Eq.trans (focusKey_keeps _ _ _ _).2.2.2.2.2.2.2.2.2.2.1 (Eq.trans (focusKey_keeps _ _ _ _).2.2.2.2.2.2.2.2.2.2.1 ((focusKey_keeps _ _ _ _).2.2.2.2.2.2.2.2.2.2.1)))))))),
    Eq.trans (focusKey_keeps _ _ _ _).2.2.2.2.2.2.2.2.2.2.2.1 (Eq.trans (focusKey_keeps _ _ _ _).2.2.2.2.2.2.2.2.2.2.2.1 (Eq.trans (focusKey_keeps _ _ _ _).2.2.2.2.2.2.2.2.2.2.2.1 (Eq.trans (focusKey_keeps _ _ _ _).2.2.2.2.2.2.2.2.2.2.2.1 (Eq.trans (focusKey_keeps _ _ _ _).2.2.2.2.2.2.2.2.2.2.2.1 (Eq.trans (focusKey_keeps _ _ _ _).2.2.2.2.2.2.2.2.2.2.2.1 (Eq.trans (focusKey_keeps _ _ _ _).2.2.2.2.2.2.2.2.2.2.2.1 (Eq.trans (focusKey_keeps _ _ _ _).2.2.2.2.2.2.2.2.2.2.2.1 ((focusKey_keeps _ _ _ _).2.2.2.2.2.2.2.2.2.2.2.1)))))))),
    Eq.trans (focusKey_keeps _ _ _ _).2.2.2.2.2.2.2.2.2.2.2.2 (Eq.trans (focusKey_keeps _ _ _ _).2.2.2.2.2.2.2.2.2.2.2.2 (Eq.trans (focusKey_keeps _ _ _ _).2.2.2.2.2.2.2.2.2.2.2.2 (Eq.trans (focusKey_keeps _ _ _ _).2.2.2.2.2.2.2.2.2.2.2.2 (Eq.trans (focusKey_keeps _ _ _ _).2.2.2.2.2.2.2.2.2.2.2.2 (Eq.trans (focusKey_keeps _ _ _ _).2.2.2.2.2.2.2.2.2.2.2.2 (Eq.trans (focusKey_keeps _ _ _ _).2.2.2.2.2.2.2.2.2.2.2.2 (Eq.trans (focusKey_keeps _ _ _ _).2.2.2.2.2.2.2.2.2.2.2.2 ((focusKey_keeps _ _ _ _).2.2.2.2.2.2.2.2.2.2.2.2))))))))⟩

/-- The Earth block writes the location variables only. -/
theorem processEarthLocationKeys_keeps (s : State α) (glfwGetKey : Int → Int) :
    (processEarthLocationKeys s glfwGetKey).moons = s.moons
    ∧ (processEarthLocationKeys s glfwGetKey).focusedPlanet = s.focusedPlanet
    ∧ (processEarthLocationKeys s glfwGetKey).currentCameraPos = s.currentCameraPos
    ∧ (processEarthLocationKeys s glfwGetKey).plusKeyPressed = s.plusKeyPressed
    ∧ (processEarthLocationKeys s glfwGetKey).minusKeyPressed = s.minusKeyPressed
    ∧ (processEarthLocationKeys s glfwGetKey).nineKeyPressed = s.nineKeyPressed
    ∧ True
    ∧ True
    ∧ True
    ∧ True
    ∧ (processEarthLocationKeys s glfwGetKey).cameraDistance = s.cameraDistance
    ∧ (processEarthLocationKeys s glfwGetKey).timeScale = s.timeScale
    ∧ (processEarthLocationKeys s glfwGetKey).console = s.console := by
  unfold processEarthLocationKeys
  simp only []
  split_ifs
  · exact ⟨Eq.trans (processKeyA_keeps _ _).1 (Eq.trans (processKeyD_keeps _ _).1 (Eq.trans (processKeyM_keeps _ _).1 ((processKeyO_keeps _ _).1))),
      Eq.trans (processKeyA_keeps _ _).2.1 (Eq.trans (processKeyD_keeps _ _).2.1 (Eq.trans (processKeyM_keeps _ _).2.1 ((processKeyO_keeps _ _).2.1))),
      Eq.trans (processKeyA_keeps _ _).2.2.1 (Eq.trans (processKeyD_keeps _ _).2.2.1 (Eq.trans (processKeyM_keeps _ _).2.2.1 ((processKeyO_keeps _ _).2.2.1))),
      Eq.trans (processKeyA_keeps _ _).2.2.2.1 (Eq.trans (processKeyD_keeps _ _).2.2.2.1 (Eq.trans (processKeyM_keeps _ _).2.2.2.1 ((processKeyO_keeps _ _).2.2.2.1))),
      Eq.trans (processKeyA_keeps _ _).2.2.2.2.1 (Eq.trans (processKeyD_keeps _ _).2.2.2.2.1 (Eq.trans (processKeyM_keeps _ _).2.2.2.2.1 ((processKeyO_keeps _ _).2.2.2.2.1))),
      Eq.trans (processKeyA_keeps _ _).2.2.2.2.2.1 (Eq.trans (processKeyD_keeps _ _).2.2.2.2.2.1 (Eq.trans (processKeyM_keeps _ _).2.2.2.2.2.1 ((processKeyO_keeps _ _).2.2.2.2.2.1))),
      trivial,
      trivial,
      trivial,
      trivial,
      Eq.trans (processKeyA_keeps _ _).2.2.2.2.2.2.2.2.2.2.1 (Eq.trans (processKeyD_keeps _ _).2.2.2.2.2.2.2.2.2.2.1 (Eq.trans (processKeyM_keeps _ _).2.2.2.2.2.2.2.2.2.2.1 ((processKeyO_keeps _ _).2.2.2.2.2.2.2.2.2.2.1))),
      Eq.trans (processKeyA_keeps _ _).2.2.2.2.2.2.2.2.2.2.2.1 (Eq.trans (processKeyD_keeps _ _).2.2.2.2.2.2.2.2.2.2.2.1 (Eq.trans (processKeyM_keeps _ _).2.2.2.2.2.2.2.2.2.2.2.1 ((processKeyO_keeps _ _).2.2.2.2.2.2.2.2.2.2.2.1))),
      Eq.trans (processKeyA_keeps _ _).2.2.2.2.2.2.2.2.2.2.2.2 (Eq.trans (processKeyD_keeps _ _).2.2.2.2.2.2.2.2.2.2.2.2 (Eq.trans (processKeyM_keeps _ _).2.2.2.2.2.2.2.2.2.2.2.2 ((processKeyO_keeps _ _).2.2.2.2.2.2.2.2.2.2.2.2)))⟩
  · exact ⟨rfl, rfl, rfl, rfl, rfl, rfl, trivial, trivial, trivial, trivial, rfl, rfl, rfl⟩

/-- The Saturn block writes none of the thirteen variables. -/
theorem processSaturnLocationKeys_keeps (s : State α) (glfwGetKey : Int → Int) :
    (processSaturnLocationKeys s glfwGetKey).moons = s.moons
    ∧ (processSaturnLocationKeys s glfwGetKey).focusedPlanet = s.focusedPlanet
    ∧ (processSaturnLocationKeys s glfwGetKey).currentCameraPos = s.currentCameraPos
    ∧ (processSaturnLocationKeys s glfwGetKey).plusKeyPressed = s.plusKeyPressed
    ∧ (processSaturnLocationKeys s glfwGetKey).minusKeyPressed = s.minusKeyPressed
    ∧ (processSaturnLocationKeys s glfwGetKey).nineKeyPressed = s.nineKeyPressed
    ∧ (processSaturnLocationKeys s glfwGetKey).focusedLocationIndex = s.focusedLocationIndex
    ∧ (processSaturnLocationKeys s glfwGetKey).showEarthLocation = s.showEarthLocation
    ∧ (processSaturnLocationKeys s glfwGetKey).isMovingToLocation = s.isMovingToLocation
    ∧ (processSaturnLocationKeys s glfwGetKey).currentLocationIndex = s.currentLocationIndex
    ∧ (processSaturnLocationKeys s glfwGetKey).cameraDistance = s.cameraDistance
    ∧ (processSaturnLocationKeys s glfwGetKey).timeScale = s.timeScale
    ∧ (processSaturnLocationKeys s glfwGetKey).console = s.console := by
  unfold processSaturnLocationKeys
  simp only []
  split_ifs
  · exact ⟨Eq.trans (processKeyC_keeps _ _).1 ((processKeyH_keeps _ _).1),
      Eq.trans (processKeyC_keeps _ _).2.1 ((processKeyH_keeps _ _).2.1),
      Eq.trans (processKeyC_keeps _ _).2.2.1 ((processKeyH_keeps _ _).2.2.1),
      Eq.trans (processKeyC_keeps _ _).2.2.2.1 ((processKeyH_keeps _ _).2.2.2.1),
      Eq.trans (processKeyC_keeps _ _).2.2.2.2.1 ((processKeyH_keeps _ _).2.2.2.2.1),
      Eq.trans (processKeyC_keeps _ _).2.2.2.2.2.1 ((processKeyH_keeps _ _).2.2.2.2.2.1),
      Eq.trans (processKeyC_keeps _ _).2.2.2.2.2.2.1 ((processKeyH_keeps _ _).2.2.2.2.2.2.1),
      Eq.trans (processKeyC_keeps _ _).2.2.2.2.2.2.2.1 ((processKeyH_keeps _ _).2.2.2.2.2.2.2.1),
      Eq.trans (processKeyC_keeps _ _).2.2.2.2.2.2.2.2.1 ((processKeyH_keeps _ _).2.2.2.2.2.2.2.2.1),
      Eq.trans (processKeyC_keeps _ _).2.2.2.2.2.2.2.2.2.1 ((processKeyH_keeps _ _).2.2.2.2.2.2.2.2.2.1),
      Eq.trans (processKeyC_keeps _ _).2.2.2.2.2.2.2.2.2.2.1 ((processKeyH_keeps _ _).2.2.2.2.2.2.2.2.2.2.1),
      Eq.trans (processKeyC_keeps _ _).2.2.2.2.2.2.2.2.2.2.2.1 ((processKeyH_keeps _ _).2.2.2.2.2.2.2.2.2.2.2.1),
      Eq.trans (processKeyC_keeps _ _).2.2.2.2.2.2.2.2.2.2.2.2 ((processKeyH_keeps _ _).2.2.2.2.2.2.2.2.2.2.2.2)⟩
  · exact ⟨rfl, rfl, rfl, rfl, rfl, rfl, rfl, rfl, rfl, rfl, rfl, rfl, rfl⟩

end KeepsPlainTheorems

section KeepsTheorems

variable {α : Type} [LinearOrderedField α]

/-- The speed-up statements write `timeScale`, the console and their flag. -/
theorem processSpeedUpKey_keeps (s : State α) (glfwGetKey : Int → Int) :
    (processSpeedUpKey s glfwGetKey).moons = s.moons
    ∧ (processSpeedUpKey s glfwGetKey).focusedPlanet = s.focusedPlanet
    ∧ (processSpeedUpKey s glfwGetKey).currentCameraPos = s.currentCameraPos
    ∧ True
    ∧ (processSpeedUpKey s glfwGetKey).minusKeyPressed = s.minusKeyPressed
    ∧ (processSpeedUpKey s glfwGetKey).nineKeyPressed = s.nineKeyPressed
    ∧ (processSpeedUpKey s glfwGetKey).focusedLocationIndex = s.focusedLocationIndex
    ∧ (processSpeedUpKey s glfwGetKey).showEarthLocation = s.showEarthLocation
    ∧ (processSpeedUpKey s glfwGetKey).isMovingToLocation = s.isMovingToLocation
    ∧ (processSpeedUpKey s glfwGetKey).currentLocationIndex = s.currentLocationIndex
    ∧ (processSpeedUpKey s glfwGetKey).cameraDistance = s.cameraDistance
    ∧ True
    ∧ True := by
  unfold processSpeedUpKey
  simp only []
  split_ifs <;> exact ⟨rfl, rfl, rfl, trivial, rfl, rfl, rfl, rfl, rfl, rfl, rfl, trivial, trivial⟩

/-- The slow-down statements write `timeScale`, the console and their flag. -/
theorem processSlowDownKey_keeps (s : State α) (glfwGetKey : Int → Int) :
    (processSlowDownKey s glfwGetKey).moons = s.moons
    ∧ (processSlowDownKey s glfwGetKey).focusedPlanet = s.focusedPlanet
    ∧ (processSlowDownKey s glfwGetKey).currentCameraPos = s.currentCameraPos
    ∧ (processSlowDownKey s glfwGetKey).plusKeyPressed = s.plusKeyPressed
    ∧ True
    ∧ (processSlowDownKey s glfwGetKey).nineKeyPressed = s.nineKeyPressed
    ∧ (processSlowDownKey s glfwGetKey).focusedLocationIndex = s.focusedLocationIndex
    ∧ (processSlowDownKey s glfwGetKey).showEarthLocation = s.showEarthLocation
    ∧ (processSlowDownKey s glfwGetKey).isMovingToLocation = s.isMovingToLocation
    ∧ (processSlowDownKey s glfwGetKey).currentLocationIndex = s.currentLocationIndex
    ∧ (processSlowDownKey s glfwGetKey).cameraDistance = s.cameraDistance
    ∧ True
    ∧ True := by
  unfold processSlowDownKey
  simp only []
  split_ifs <;> exact ⟨rfl, rfl, rfl, rfl, trivial, rfl, rfl, rfl, rfl, rfl, rfl, trivial, trivial⟩

/-- A button of the Earth panel writes `showEarthLocation` and
`currentLocationIndex` only, among the thirteen variables. -/
theorem earthLocationButton_keeps (s : State α) (i : Nat) :
    (earthLocationButton s i).moons = s.moons
    ∧ (earthLocationButton s i).focusedPlanet = s.focusedPlanet
    ∧ (earthLocationButton s i).currentCameraPos = s.currentCameraPos
    ∧ (earthLocationButton s i).plusKeyPressed = s.plusKeyPressed
    ∧ (earthLocationButton s i).minusKeyPressed = s.minusKeyPressed
    ∧ (earthLocationButton s i).nineKeyPressed = s.nineKeyPressed
    ∧ (earthLocationButton s i).focusedLocationIndex = s.focusedLocationIndex
    ∧ True
    ∧ (earthLocationButton s i).isMovingToLocation = s.isMovingToLocation
    ∧ True
    ∧ (earthLocationButton s i).cameraDistance = s.cameraDistance
    ∧ (earthLocationButton s i).timeScale = s.timeScale
    ∧ (earthLocationButton s i).console = s.console := by
  unfold earthLocationButton
  split_ifs <;> exact ⟨rfl, rfl, rfl, rfl, rfl, rfl, rfl, trivial, rfl, trivial, rfl, rfl, rfl⟩

/-- A button of the Saturn panel writes none of the thirteen variables. -/
theorem saturnLocationButton_keeps (s : State α) (i : Nat) :
    (saturnLocationButton s i).moons = s.moons
    ∧ (saturnLocationButton s i).focusedPlanet = s.focusedPlanet
    ∧ (saturnLocationButton s i).currentCameraPos = s.currentCameraPos
    ∧ (saturnLocationButton s i).plusKeyPressed = s.plusKeyPressed
    ∧ (saturnLocationButton s i).minusKeyPressed = s.minusKeyPressed
    ∧ (saturnLocationButton s i).nineKeyPressed = s.nineKeyPressed
    ∧ (saturnLocationButton s i).focusedLocationIndex = s.focusedLocationIndex
    ∧ (saturnLocationButton s i).showEarthLocation = s.showEarthLocation
    ∧ (saturnLocationButton s i).isMovingToLocation = s.isMovingToLocation
    ∧ (saturnLocationButton s i).currentLocationIndex = s.currentLocationIndex
    ∧ (saturnLocationButton s i).cameraDistance = s.cameraDistance
    ∧ (saturnLocationButton s i).timeScale = s.timeScale
    ∧ (saturnLocationButton s i).console = s.console := by
  unfold saturnLocationButton
  split_ifs <;> exact ⟨rfl, rfl, rfl, rfl, rfl, rfl, rfl, rfl, rfl, rfl, rfl, rfl, rfl⟩

/-- The cursor callback writes none of the thirteen variables. -/
theorem mouse_callback_keeps (s : State α) (xpos ypos : α) :
    (mouse_callback s xpos ypos).moons = s.moons
    ∧ (mouse_callback s xpos ypos).focusedPlanet = s.focusedPlanet
    ∧ (mouse_callback s xpos ypos).currentCameraPos = s.currentCameraPos
    ∧ (mouse_callback s xpos ypos).plusKeyPressed = s.plusKeyPressed
    ∧ (mouse_callback s xpos ypos).minusKeyPressed = s.minusKeyPressed
    ∧ (mouse_callback s xpos ypos).nineKeyPressed = s.nineKeyPressed
    ∧ (mouse_callback s xpos ypos).focusedLocationIndex = s.focusedLocationIndex
    ∧ (mouse_callback s xpos ypos).showEarthLocation = s.showEarthLocation
    ∧ (mouse_callback s xpos ypos).isMovingToLocation = s.isMovingToLocation
    ∧ (mouse_callback s xpos ypos).currentLocationIndex = s.currentLocationIndex
    ∧ (mouse_callback s xpos ypos).cameraDistance = s.cameraDistance
    ∧ (mouse_callback s xpos ypos).timeScale = s.timeScale
    ∧ (mouse_callback s xpos ypos).console = s.console := by
  unfold mouse_callback
  split_ifs <;> exact ⟨rfl, rfl, rfl, rfl, rfl, rfl, rfl, rfl, rfl, rfl, rfl, rfl, rfl⟩

/-- The button callback writes `focusedLocationIndex`, `showEarthLocation`,
`currentLocationIndex` and `cameraDistance` only, among the thirteen variables. -/
theorem mouse_button_callback_keeps (m : MathFns α) (s : State α) (button action : Int) (cursorX cursorY : α) :
    (mouse_button_callback m s button action cursorX cursorY).moons = s.moons
    ∧ (mouse_button_callback m s button action cursorX cursorY).focusedPlanet = s.focusedPlanet
    ∧ (mouse_button_callback m s button action cursorX cursorY).currentCameraPos = s.currentCameraPos
    ∧ (mouse_button_callback m s button action cursorX cursorY).plusKeyPressed = s.plusKeyPressed
    ∧ (mouse_button_callback m s button action cursorX cursorY).minusKeyPressed = s.minusKeyPressed
    ∧ (mouse_button_callback m s button action cursorX cursorY).nineKeyPressed = s.nineKeyPressed
    ∧ True
    ∧ True
    ∧ (mouse_button_callback m s button action cursorX cursorY).isMovingToLocation = s.isMovingToLocation
    ∧ True
    ∧ True
    ∧ (mouse_button_callback m s button action cursorX cursorY).timeScale = s.timeScale
    ∧ (mouse_button_callback m s button action cursorX cursorY).console = s.console := by
  unfold mouse_button_callback
  simp only []
  split_ifs <;> exact ⟨rfl, rfl, rfl, rfl, rfl, rfl, trivial, trivial, rfl, trivial, trivial, rfl, rfl⟩

/-- The scroll callback writes `cameraDistance` only, among the thirteen variables. -/
theorem scroll_callback_keeps (s : State α) (xoffset yoffset : α) :
    (scroll_callback s xoffset yoffset).moons = s.moons
    ∧ (scroll_callback s xoffset yoffset).focusedPlanet = s.focusedPlanet
    ∧ (scroll_callback s xoffset yoffset).currentCameraPos = s.currentCameraPos
    ∧ (scroll_callback s xoffset yoffset).plusKeyPressed = s.plusKeyPressed
    ∧ (scroll_callback s xoffset yoffset).minusKeyPressed = s.minusKeyPressed
    ∧ (scroll_callback s xoffset yoffset).nineKeyPressed = s.nineKeyPressed
    ∧ (scroll_callback s xoffset yoffset).focusedLocationIndex = s.focusedLocationIndex
    ∧ (scroll_callback s xoffset yoffset).showEarthLocation = s.showEarthLocation
    ∧ (scroll_callback s xoffset yoffset).isMovingToLocation = s.isMovingToLocation
    ∧ (scroll_callback s xoffset yoffset).currentLocationIndex = s.currentLocationIndex
    ∧ True
    ∧ (scroll_callback s xoffset yoffset).timeScale = s.timeScale
    ∧ (scroll_callback s xoffset yoffset).console = s.console := by
  exact ⟨rfl, rfl, rfl, rfl, rfl, rfl, rfl, rfl, rfl, rfl, trivial, rfl, rfl⟩

/-- The mouse callbacks write `focusedLocationIndex`, `showEarthLocation`,
`currentLocationIndex` and `cameraDistance` only, among the thirteen variables. -/
theorem handleEvent_keeps (m : MathFns α) (s : State α) (e : MouseEvent α) :
    (handleEvent m s e).moons = s.moons
    ∧ (handleEvent m s e).focusedPlanet = s.focusedPlanet
    ∧ (handleEvent m s e).currentCameraPos = s.currentCameraPos
    ∧ (handleEvent m s e).plusKeyPressed = s.plusKeyPressed
    ∧ (handleEvent m s e).minusKeyPressed = s.minusKeyPressed
    ∧ (handleEvent m s e).nineKeyPressed = s.nineKeyPressed
    ∧ True
    ∧ True
    ∧ (handleEvent m s e).isMovingToLocation = s.isMovingToLocation
    ∧ True
    ∧ True
    ∧ (handleEvent m s e).timeScale = s.timeScale
    ∧ (handleEvent m s e).console = s.console := by
  cases e with
  | cursorPos xpos ypos =>
    exact ⟨(mouse_callback_keeps s xpos ypos).1,
      (mouse_callback_keeps s xpos ypos).2.1,
      (mouse_callback_keeps s xpos ypos).2.2.1,
      (mouse_callback_keeps s xpos ypos).2.2.2.1,
      (mouse_callback_keeps s xpos ypos).2.2.2.2.1,
      (mouse_callback_keeps s xpos ypos).2.2.2.2.2.1,
      trivial,
      trivial,
      (mouse_callback_keeps s xpos ypos).2.2.2.2.2.2.2.2.1,
      trivial,
      trivial,
      (mouse_callback_keeps s xpos ypos).2.2.2.2.2.2.2.2.2.2.2.1,
      (mouse_callback_keeps s xpos ypos).2.2.2.2.2.2.2.2.2.2.2.2⟩
  | mouseButton button action cursorX cursorY =>
    exact ⟨(mouse_button_callback_keeps m s button action cursorX cursorY).1,
      (mouse_button_callback_keeps m s button action cursorX cursorY).2.1,
      (mouse_button_callback_keeps m s button action cursorX cursorY).2.2.1,
      (mouse_button_callback_keeps m s button action cursorX cursorY).2.2.2.1,
      (mouse_button_callback_keeps m s button action cursorX cursorY).2.2.2.2.1,
      (mouse_button_callback_keeps m s button action cursorX cursorY).2.2.2.2.2.1,
      trivial,
      trivial,
      (mouse_button_callback_keeps m s button action cursorX cursorY).2.2.2.2.2.2.2.2.1,
      trivial,
      trivial,
      (mouse_button_callback_keeps m s button action cursorX cursorY).2.2.2.2.2.2.2.2.2.2.2.1,
      (mouse_button_callback_keeps m s button action cursorX cursorY).2.2.2.2.2.2.2.2.2.2.2.2⟩
  | scroll xoffset yoffset =>
    exact ⟨(scroll_callback_keeps s xoffset yoffset).1,
      (scroll_callback_keeps s xoffset yoffset).2.1,
      (scroll_callback_keeps s xoffset yoffset).2.2.1,
      (scroll_callback_keeps s xoffset yoffset).2.2.2.1,
      (scroll_callback_keeps s xoffset yoffset).2.2.2.2.1,
      (scroll_callback_keeps s xoffset yoffset).2.2.2.2.2.1,
      trivial,
      trivial,
      (scroll_callback_keeps s xoffset yoffset).2.2.2.2.2.2.2.2.1,
      trivial,
      trivial,
      (scroll_callback_keeps s xoffset yoffset).2.2.2.2.2.2.2.2.2.2.2.1,
      (scroll_callback_keeps s xoffset yoffset).2.2.2.2.2.2.2.2.2.2.2.2⟩

/-- The function `processInput` as the composition of its seven blocks. -/
theorem processInput_eq (s : State α) (glfwGetKey : Int → Int) :
    processInput s glfwGetKey
      = processSaturnLocationKeys (processEarthLocationKeys (processKey9 (processFocusKeys
          (processSlowDownKey (processSpeedUpKey (processEscapeKey s glfwGetKey) glfwGetKey)
            glfwGetKey) glfwGetKey) glfwGetKey) glfwGetKey) glfwGetKey :=
  rfl

/-- No block of `processInput` writes `currentCameraPos`. -/
theorem processInput_currentCameraPos (s : State α) (glfwGetKey : Int → Int) :
    (processInput s glfwGetKey).currentCameraPos = s.currentCameraPos := by
  rw [processInput_eq, (processSaturnLocationKeys_keeps _ _).2.2.1,
    (processEarthLocationKeys_keeps _ _).2.2.1, (processKey9_keeps _ _).2.2.1,
    (processFocusKeys_keeps _ _).2.2.1, (processSlowDownKey_keeps _ _).2.2.1,
    (processSpeedUpKey_keeps _ _).2.2.1, (processEscapeKey_keeps _ _).2.2.1]

/-- No input event writes `currentCameraPos`. -/
theorem applyInput_currentCameraPos (m : MathFns α) (s : State α) (e : InputEvent α) :
    (applyInput m s e).currentCameraPos = s.currentCameraPos := by
  cases e with
  | keys glfwGetKey => exact processInput_currentCameraPos s glfwGetKey
  | earthButton i => exact (earthLocationButton_keeps s i).2.2.1
  | saturnButton i => exact (saturnLocationButton_keeps s i).2.2.1
  | mouse e => exact (handleEvent_keeps m s e).2.2.1

end KeepsTheorems

/-! ## Theorems: edge-triggered actions -/

section EdgePairTheorems

variable {α : Type}

/-- The flag of a statement pair "run the action on a press while the flag is
down, lower the flag on a release": after the pair the flag tells whether the
key is down. -/
theorem edge_pair_flag (flag : State α → Bool) (act clear : State α → State α)
    (hact : ∀ t, flag (act t) = true) (hclear : ∀ t, flag (clear t) = false)
    (v : Int) (hv : v = GLFW_PRESS ∨ v = GLFW_RELEASE) (s : State α) :
    flag (if v = GLFW_RELEASE then clear (if v = GLFW_PRESS ∧ flag s = false then act s else s)
          else (if v = GLFW_PRESS ∧ flag s = false then act s else s))
      = decide (v = GLFW_PRESS) := by
  rcases hv with h | h
  · subst h
    rw [if_neg (by decide)]
    cases hf : flag s
    · rw [if_pos ⟨rfl, rfl⟩, hact]
      simp
    · rw [if_neg (fun hc => Bool.noConfusion hc.2), hf]
      simp
  · subst h
    rw [if_pos rfl, hclear]
    simp [GLFW_PRESS, GLFW_RELEASE]

/-- After the key-9 statements `nineKeyPressed` tells whether the key is down. -/
theorem processKey9_flag (s : State α) (glfwGetKey : Int → Int)
    (hv : glfwGetKey GLFW_KEY_9 = GLFW_PRESS ∨ glfwGetKey GLFW_KEY_9 = GLFW_RELEASE) :
    (processKey9 s glfwGetKey).nineKeyPressed = decide (glfwGetKey GLFW_KEY_9 = GLFW_PRESS) :=
  edge_pair_flag State.nineKeyPressed key9Action
    (fun t : State α => { t with nineKeyPressed := false }) (fun _ => rfl) (fun _ => rfl) _ hv s

/-- What the key-9 statements do: when the key is down and the flag is not set
they remove the moons of planet 4, set the focus from the scan of the new list
and print one line; otherwise they leave the moon list, the focus and the
console as they are. -/
theorem processKey9_effect (s : State α) (glfwGetKey : Int → Int) :
    (processKey9 s glfwGetKey).moons
        = (if glfwGetKey GLFW_KEY_9 = GLFW_PRESS ∧ s.nineKeyPressed = false
            then removeMoonsOfPlanet 4 s.moons else s.moons)
    ∧ (processKey9 s glfwGetKey).focusedPlanet
        = (if glfwGetKey GLFW_KEY_9 = GLFW_PRESS ∧ s.nineKeyPressed = false then
            (if earthMoonScan (removeMoonsOfPlanet 4 s.moons) 0 ≥ 0
              then 9 + earthMoonScan (removeMoonsOfPlanet 4 s.moons) 0 else 3)
          else s.focusedPlanet)
    ∧ (processKey9 s glfwGetKey).console
        = s.console ++ (if glfwGetKey GLFW_KEY_9 = GLFW_PRESS ∧ s.nineKeyPressed = false then
            [ if earthMoonScan (removeMoonsOfPlanet 4 s.moons) 0 ≥ 0
                then ConsoleMessage.moonFocused
                  (9 + earthMoonScan (removeMoonsOfPlanet 4 s.moons) 0)
                else ConsoleMessage.moonNotFound ]
          else []) := by
  unfold processKey9 key9Action
  simp only []
  by_cases hg : glfwGetKey GLFW_KEY_9 = GLFW_PRESS ∧ s.nineKeyPressed = false
  · simp only [if_pos hg]
    split_ifs <;> simp
  · simp only [if_neg hg]
    split_ifs <;> simp

/-- While a key that was down before stays down over all polls, it has no
rising edge. -/
theorem risingEdges_down (key : Int) (events : List (InputEvent α))
    (hdown : ∀ glfwGetKey, InputEvent.keys glfwGetKey ∈ events → glfwGetKey key = GLFW_PRESS) :
    risingEdges key true events = 0 := by
  induction events with
  | nil => rfl
  | cons e es ih =>
    have hes : ∀ glfwGetKey, InputEvent.keys glfwGetKey ∈ es → glfwGetKey key = GLFW_PRESS :=
      fun k hk => hdown k (List.mem_cons_of_mem _ hk)
    cases e with
    | keys glfwGetKey =>
      have hk := hdown glfwGetKey (List.mem_cons_self _ _)
      simp only [risingEdges]
      rw [hk, if_neg (fun hc => Bool.noConfusion hc.2), decide_eq_true rfl, ih hes]
    | earthButton i => exact ih hes
    | saturnButton i => exact ih hes
    | mouse ev => exact ih hes

/-- While a key that was up before is down over all polls, and there is a poll,
it has exactly one rising edge. -/
theorem risingEdges_held (key : Int) (events : List (InputEvent α))
    (hdown : ∀ glfwGetKey, InputEvent.keys glfwGetKey ∈ events → glfwGetKey key = GLFW_PRESS)
    (hex : ∃ glfwGetKey, InputEvent.keys glfwGetKey ∈ events) :
    risingEdges key false events = 1 := by
  induction events with
  | nil =>
    obtain ⟨k, hk⟩ := hex
    exact absurd hk (List.not_mem_nil _)
  | cons e es ih =>
    have hes : ∀ glfwGetKey, InputEvent.keys glfwGetKey ∈ es → glfwGetKey key = GLFW_PRESS :=
      fun k hk => hdown k (List.mem_cons_of_mem _ hk)
    have hrest : ∀ e0 : InputEvent α, (∀ k, e0 ≠ InputEvent.keys k) →
        (∃ k, InputEvent.keys k ∈ e0 :: es) → ∃ k, InputEvent.keys k ∈ es := by
      intro e0 hne hx
      obtain ⟨k, hk⟩ := hx
      rcases List.mem_cons.mp hk with h | h
      · exact absurd h.symm (hne k)
      · exact ⟨k, h⟩
    cases e with
    | keys glfwGetKey =>
      have hk := hdown glfwGetKey (List.mem_cons_self _ _)
      simp only [risingEdges]
      rw [hk, if_pos ⟨rfl, trivial⟩, decide_eq_true rfl, risingEdges_down key es hes]
    | earthButton i => exact ih hes (hrest _ (fun k h => InputEvent.noConfusion h) hex)
    | saturnButton i => exact ih hes (hrest _ (fun k h => InputEvent.noConfusion h) hex)
    | mouse ev => exact ih hes (hrest _ (fun k h => InputEvent.noConfusion h) hex)

end EdgePairTheorems

section EdgeTheorems

variable {α : Type} [LinearOrderedField α]

/-- After the speed-up statements `plusKeyPressed` tells whether the key is down. -/
theorem processSpeedUpKey_flag (s : State α) (glfwGetKey : Int → Int)
    (hv : glfwGetKey GLFW_KEY_EQUAL = GLFW_PRESS ∨ glfwGetKey GLFW_KEY_EQUAL = GLFW_RELEASE) :
    (processSpeedUpKey s glfwGetKey).plusKeyPressed
      = decide (glfwGetKey GLFW_KEY_EQUAL = GLFW_PRESS) :=
  edge_pair_flag State.plusKeyPressed
    (fun t : State α =>
      { t with timeScale := t.timeScale * 1.1,
               console := t.console ++ [ .speedIncreased (t.timeScale * 1.1) ],
               plusKeyPressed := true })
    (fun t : State α => { t with plusKeyPressed := false }) (fun _ => rfl) (fun _ => rfl) _ hv s

/-- After the slow-down statements `minusKeyPressed` tells whether the key is down. -/
theorem processSlowDownKey_flag (s : State α) (glfwGetKey : Int → Int)
    (hv : glfwGetKey GLFW_KEY_MINUS = GLFW_PRESS ∨ glfwGetKey GLFW_KEY_MINUS = GLFW_RELEASE) :
    (processSlowDownKey s glfwGetKey).minusKeyPressed
      = decide (glfwGetKey GLFW_KEY_MINUS = GLFW_PRESS) :=
  edge_pair_flag State.minusKeyPressed
    (fun t : State α => { t with
      timeScale := if t.timeScale * 0.9 < 0.01 then 0.01 else t.timeScale * 0.9,
      console := t.console ++ [ .speedDecreased
        (if t.timeScale * 0.9 < 0.01 then 0.01 else t.timeScale * 0.9) ],
      minusKeyPressed := true })
    (fun t : State α => { t with minusKeyPressed := false }) (fun _ => rfl) (fun _ => rfl) _ hv s

/-- What the speed-up statements do: when the key is down and the flag is not
set they multiply `timeScale` by 1.1 and print the banner; otherwise they leave
`timeScale` and the console as they are. -/
theorem processSpeedUpKey_effect (s : State α) (glfwGetKey : Int → Int) :
    (processSpeedUpKey s glfwGetKey).timeScale
        = (if glfwGetKey GLFW_KEY_EQUAL = GLFW_PRESS ∧ s.plusKeyPressed = false
            then s.timeScale * 1.1 else s.timeScale)
    ∧ (processSpeedUpKey s glfwGetKey).console
        = s.console ++ (if glfwGetKey GLFW_KEY_EQUAL = GLFW_PRESS ∧ s.plusKeyPressed = false
            then [ ConsoleMessage.speedIncreased (s.timeScale * 1.1) ] else []) := by
  unfold processSpeedUpKey
  simp only []
  by_cases hg : glfwGetKey GLFW_KEY_EQUAL = GLFW_PRESS ∧ s.plusKeyPressed = false
  · simp only [if_pos hg]
    split_ifs <;> simp
  · simp only [if_neg hg]
    split_ifs <;> simp

/-- What the slow-down statements do: when the key is down and the flag is not
set they multiply `timeScale` by 0.9, raise it to 0.01 if it fell below, and
print the banner; otherwise they leave `timeScale` and the console as they
are. -/
theorem processSlowDownKey_effect (s : State α) (glfwGetKey : Int → Int) :
    (processSlowDownKey s glfwGetKey).timeScale
        = (if glfwGetKey GLFW_KEY_MINUS = GLFW_PRESS ∧ s.minusKeyPressed = false
            then (if s.timeScale * 0.9 < 0.01 then 0.01 else s.timeScale * 0.9)
            else s.timeScale)
    ∧ (processSlowDownKey s glfwGetKey).console
        = s.console ++ (if glfwGetKey GLFW_KEY_MINUS = GLFW_PRESS ∧ s.minusKeyPressed = false
            then [ ConsoleMessage.speedDecreased
              (if s.timeScale * 0.9 < 0.01 then 0.01 else s.timeScale * 0.9) ] else []) := by
  unfold processSlowDownKey
  simp only []
  by_cases hg : glfwGetKey GLFW_KEY_MINUS = GLFW_PRESS ∧ s.minusKeyPressed = false
  · simp only [if_pos hg]
    split_ifs <;> simp
  · simp only [if_neg hg]
    split_ifs <;> simp

/-- What one call of `processInput` does to `timeScale`, to the moon list, to
the focus on a key-9 press, and to the console: each of the three blocks acts
exactly when its key is down and its flag, as the call found it, is not set. -/
theorem processInput_effect (t : State α) (glfwGetKey : Int → Int) (T1 T2 : α)
    (hT1 : T1 = (if glfwGetKey GLFW_KEY_EQUAL = GLFW_PRESS ∧ t.plusKeyPressed = false
      then t.timeScale * 1.1 else t.timeScale))
    (hT2 : T2 = (if T1 * 0.9 < 0.01 then 0.01 else T1 * 0.9)) :
    (processInput t glfwGetKey).timeScale
        = (if glfwGetKey GLFW_KEY_MINUS = GLFW_PRESS ∧ t.minusKeyPressed = false
            then T2 else T1)
    ∧ (processInput t glfwGetKey).moons
        = (if glfwGetKey GLFW_KEY_9 = GLFW_PRESS ∧ t.nineKeyPressed = false
            then removeMoonsOfPlanet 4 t.moons else t.moons)
    ∧ (glfwGetKey GLFW_KEY_9 = GLFW_PRESS ∧ t.nineKeyPressed = false →
        (processInput t glfwGetKey).focusedPlanet
          = (if earthMoonScan (removeMoonsOfPlanet 4 t.moons) 0 ≥ 0
              then 9 + earthMoonScan (removeMoonsOfPlanet 4 t.moons) 0 else 3))
    ∧ (processInput t glfwGetKey).console
        = t.console
          ++ (if glfwGetKey GLFW_KEY_EQUAL = GLFW_PRESS ∧ t.plusKeyPressed = false
              then [ ConsoleMessage.speedIncreased (t.timeScale * 1.1) ] else [])
          ++ (if glfwGetKey GLFW_KEY_MINUS = GLFW_PRESS ∧ t.minusKeyPressed = false
              then [ ConsoleMessage.speedDecreased T2 ] else [])
          ++ (if glfwGetKey GLFW_KEY_9 = GLFW_PRESS ∧ t.nineKeyPressed = false then
              [ if earthMoonScan (removeMoonsOfPlanet 4 t.moons) 0 ≥ 0
                  then ConsoleMessage.moonFocused
                    (9 + earthMoonScan (removeMoonsOfPlanet 4 t.moons) 0)
                  else ConsoleMessage.moonNotFound ]
            else []) := by
  -- the state in which each block starts
  have hW := processEscapeKey_keeps t glfwGetKey
  have hZk := processSpeedUpKey_keeps (processEscapeKey t glfwGetKey) glfwGetKey
  have hZe := processSpeedUpKey_effect (processEscapeKey t glfwGetKey) glfwGetKey
  have hYk := processSlowDownKey_keeps
    (processSpeedUpKey (processEscapeKey t glfwGetKey) glfwGetKey) glfwGetKey
  have hYe := processSlowDownKey_effect
    (processSpeedUpKey (processEscapeKey t glfwGetKey) glfwGetKey) glfwGetKey
  have hXk := processFocusKeys_keeps (processSlowDownKey
    (processSpeedUpKey (processEscapeKey t glfwGetKey) glfwGetKey) glfwGetKey) glfwGetKey
  have hVk := processKey9_keeps (processFocusKeys (processSlowDownKey
    (processSpeedUpKey (processEscapeKey t glfwGetKey) glfwGetKey) glfwGetKey) glfwGetKey)
    glfwGetKey
  have hVe := processKey9_effect (processFocusKeys (processSlowDownKey
    (processSpeedUpKey (processEscapeKey t glfwGetKey) glfwGetKey) glfwGetKey) glfwGetKey)
    glfwGetKey
  have hUk := processEarthLocationKeys_keeps (processKey9 (processFocusKeys (processSlowDownKey
    (processSpeedUpKey (processEscapeKey t glfwGetKey) glfwGetKey) glfwGetKey) glfwGetKey)
    glfwGetKey) glfwGetKey
  have hSk := processSaturnLocationKeys_keeps (processEarthLocationKeys (processKey9
    (processFocusKeys (processSlowDownKey
    (processSpeedUpKey (processEscapeKey t glfwGetKey) glfwGetKey) glfwGetKey) glfwGetKey)
    glfwGetKey) glfwGetKey) glfwGetKey
  -- the values the guards read
  rw [hW.2.2.2.2.2.2.2.2.2.2.2.1, hW.2.2.2.1, hW.2.2.2.2.2.2.2.2.2.2.2.2] at hZe
  rw [hZk.2.2.2.2.1, hW.2.2.2.2.1, hZe.1, ← hT1, ← hT2, hZe.2] at hYe
  rw [hXk.2.2.2.2.2.1, hYk.2.2.2.2.2.1, hZk.2.2.2.2.2.1, hW.2.2.2.2.2.1, hXk.1, hYk.1, hZk.1, hW.1,
    hXk.2.2.2.2.2.2.2.2.2.2.2.2, hYe.2] at hVe
  rw [processInput_eq]
  refine ⟨?_, ?_, ?_, ?_⟩
  · rw [hSk.2.2.2.2.2.2.2.2.2.2.2.1, hUk.2.2.2.2.2.2.2.2.2.2.2.1, hVk.2.2.2.2.2.2.2.2.2.2.2.1, hXk.2.2.2.2.2.2.2.2.2.2.2.1]
    exact hYe.1
  · rw [hSk.1, hUk.1]
    exact hVe.1
  · intro h9
    rw [hSk.2.1, hUk.2.1, hVe.2.1, if_pos h9]
  · rw [hSk.2.2.2.2.2.2.2.2.2.2.2.2, hUk.2.2.2.2.2.2.2.2.2.2.2.2]
    exact hVe.2.2

/-- The count of a kind of console entries grows over a sequence of input
events by the number of rising edges of a key, when one poll adds an entry
exactly on a press with the flag not set, leaves the flag equal to the key
state, and no other event changes the count or the flag. -/
theorem runs_rising (m : MathFns α) (runs : State α → Nat) (key : Int)
    (flag : State α → Bool)
    (hpoll : ∀ (s : State α) (glfwGetKey : Int → Int),
      (glfwGetKey key = GLFW_PRESS ∨ glfwGetKey key = GLFW_RELEASE) →
      runs (processInput s glfwGetKey)
          = runs s + (if glfwGetKey key = GLFW_PRESS ∧ flag s = false then 1 else 0)
      ∧ flag (processInput s glfwGetKey) = decide (glfwGetKey key = GLFW_PRESS))
    (hother : ∀ (s : State α) (i : Nat) (e : MouseEvent α),
      (runs (earthLocationButton s i) = runs s ∧ flag (earthLocationButton s i) = flag s)
      ∧ (runs (saturnLocationButton s i) = runs s ∧ flag (saturnLocationButton s i) = flag s)
      ∧ (runs (handleEvent m s e) = runs s ∧ flag (handleEvent m s e) = flag s))
    (events : List (InputEvent α)) :
    ∀ s : State α,
      (∀ glfwGetKey, InputEvent.keys glfwGetKey ∈ events →
        glfwGetKey key = GLFW_PRESS ∨ glfwGetKey key = GLFW_RELEASE) →
      runs (applyInputs m s events) = runs s + risingEdges key (flag s) events := by
  induction events with
  | nil => intro _ _; rfl
  | cons e es ih =>
    intro s hbin
    have hes : ∀ glfwGetKey, InputEvent.keys glfwGetKey ∈ es →
        glfwGetKey key = GLFW_PRESS ∨ glfwGetKey key = GLFW_RELEASE :=
      fun k hk => hbin k (List.mem_cons_of_mem _ hk)
    have hstep : applyInputs m s (e :: es) = applyInputs m (applyInput m s e) es := rfl
    rw [hstep, ih (applyInput m s e) hes]
    cases e with
    | keys glfwGetKey =>
      obtain ⟨h1, h2⟩ := hpoll s glfwGetKey (hbin glfwGetKey (List.mem_cons_self _ _))
      simp only [applyInput, risingEdges]
      rw [h1, h2, Nat.add_assoc]
    | earthButton i =>
      simp only [applyInput, risingEdges]
      rw [(hother s i (.scroll 0 0)).1.1, (hother s i (.scroll 0 0)).1.2]
    | saturnButton i =>
      simp only [applyInput, risingEdges]
      rw [(hother s i (.scroll 0 0)).2.1.1, (hother s i (.scroll 0 0)).2.1.2]
    | mouse ev =>
      simp only [applyInput, risingEdges]
      rw [(hother s 0 ev).2.2.1, (hother s 0 ev).2.2.2]

/-- The banners of the speed-up block and the flag around one poll. -/
theorem speedUp_poll (s : State α) (glfwGetKey : Int → Int)
    (hv : glfwGetKey GLFW_KEY_EQUAL = GLFW_PRESS ∨ glfwGetKey GLFW_KEY_EQUAL = GLFW_RELEASE) :
    speedUpRuns (processInput s glfwGetKey)
        = speedUpRuns s
          + (if glfwGetKey GLFW_KEY_EQUAL = GLFW_PRESS ∧ s.plusKeyPressed = false then 1 else 0)
    ∧ (processInput s glfwGetKey).plusKeyPressed
        = decide (glfwGetKey GLFW_KEY_EQUAL = GLFW_PRESS) := by
  constructor
  · unfold speedUpRuns
    rw [(processInput_effect s glfwGetKey _ _ rfl rfl).2.2.2]
    simp only [List.countP_append]
    have h2 : ∀ (c : Prop) [Decidable c] (x : α),
        List.countP ConsoleMessage.isSpeedIncreased
          (if c then [ ConsoleMessage.speedDecreased x ] else []) = 0 := by
      intro c _ x
      split_ifs <;> rfl
    have h9 : ∀ (c d : Prop) [Decidable c] [Decidable d] (i : Int),
        List.countP ConsoleMessage.isSpeedIncreased
          (if c then [ if d then ConsoleMessage.moonFocused i
            else (ConsoleMessage.moonNotFound : ConsoleMessage α) ] else []) = 0 := by
      intro c d _ _ i
      split_ifs <;> rfl
    rw [h2, h9]
    split_ifs <;> simp [ConsoleMessage.isSpeedIncreased]
  · rw [processInput_eq, (processSaturnLocationKeys_keeps _ _).2.2.2.1, (processEarthLocationKeys_keeps _ _).2.2.2.1, (processKey9_keeps _ _).2.2.2.1, (processFocusKeys_keeps _ _).2.2.2.1, (processSlowDownKey_keeps _ _).2.2.2.1]
    exact processSpeedUpKey_flag _ _ hv

/-- The banners of the slow-down block and the flag around one poll. -/
theorem slowDown_poll (s : State α) (glfwGetKey : Int → Int)
    (hv : glfwGetKey GLFW_KEY_MINUS = GLFW_PRESS ∨ glfwGetKey GLFW_KEY_MINUS = GLFW_RELEASE) :
    slowDownRuns (processInput s glfwGetKey)
        = slowDownRuns s
          + (if glfwGetKey GLFW_KEY_MINUS = GLFW_PRESS ∧ s.minusKeyPressed = false then 1 else 0)
    ∧ (processInput s glfwGetKey).minusKeyPressed
        = decide (glfwGetKey GLFW_KEY_MINUS = GLFW_PRESS) := by
  constructor
  · unfold slowDownRuns
    rw [(processInput_effect s glfwGetKey _ _ rfl rfl).2.2.2]
    simp only [List.countP_append]
    have h2 : ∀ (c : Prop) [Decidable c] (x : α),
        List.countP ConsoleMessage.isSpeedDecreased
          (if c then [ ConsoleMessage.speedIncreased x ] else []) = 0 := by
      intro c _ x
      split_ifs <;> rfl
    have h9 : ∀ (c d : Prop) [Decidable c] [Decidable d] (i : Int),
        List.countP ConsoleMessage.isSpeedDecreased
          (if c then [ if d then ConsoleMessage.moonFocused i
            else (ConsoleMessage.moonNotFound : ConsoleMessage α) ] else []) = 0 := by
      intro c d _ _ i
      split_ifs <;> rfl
    rw [h2, h9]
    split_ifs <;> simp [ConsoleMessage.isSpeedDecreased]
  · rw [processInput_eq, (processSaturnLocationKeys_keeps _ _).2.2.2.2.1, (processEarthLocationKeys_keeps _ _).2.2.2.2.1, (processKey9_keeps _ _).2.2.2.2.1, (processFocusKeys_keeps _ _).2.2.2.2.1]
    exact processSlowDownKey_flag _ _ hv

/-- The lines of the key-9 block and the flag around one poll. -/
theorem key9_poll (s : State α) (glfwGetKey : Int → Int)
    (hv : glfwGetKey GLFW_KEY_9 = GLFW_PRESS ∨ glfwGetKey GLFW_KEY_9 = GLFW_RELEASE) :
    key9Runs (processInput s glfwGetKey)
        = key9Runs s
          + (if glfwGetKey GLFW_KEY_9 = GLFW_PRESS ∧ s.nineKeyPressed = false then 1 else 0)
    ∧ (processInput s glfwGetKey).nineKeyPressed
        = decide (glfwGetKey GLFW_KEY_9 = GLFW_PRESS) := by
  constructor
  · unfold key9Runs
    rw [(processInput_effect s glfwGetKey _ _ rfl rfl).2.2.2]
    simp only [List.countP_append]
    have h1 : ∀ (c : Prop) [Decidable c] (x : α),
        List.countP ConsoleMessage.isKey9Line
          (if c then [ ConsoleMessage.speedIncreased x ] else []) = 0 := by
      intro c _ x
      split_ifs <;> rfl
    have h2 : ∀ (c : Prop) [Decidable c] (x : α),
        List.countP ConsoleMessage.isKey9Line
          (if c then [ ConsoleMessage.speedDecreased x ] else []) = 0 := by
      intro c _ x
      split_ifs <;> rfl
    have h9 : ∀ (c d : Prop) [Decidable c] [Decidable d] (i : Int),
        List.countP ConsoleMessage.isKey9Line
          (if c then [ if d then ConsoleMessage.moonFocused i
            else (ConsoleMessage.moonNotFound : ConsoleMessage α) ] else [])
          = if c then 1 else 0 := by
      intro c d _ _ i
      split_ifs <;> rfl
    rw [h1, h2, h9]
    rfl
  · rw [processInput_eq, (processSaturnLocationKeys_keeps _ _).2.2.2.2.2.1, (processEarthLocationKeys_keeps _ _).2.2.2.2.2.1]
    exact processKey9_flag _ _ hv

/-- C23: the time-scale and key-9 actions are edge-triggered.  A call of
`processInput` multiplies `timeScale` by 1.1 and prints the speed-up banner
exactly when key `=` is down and was up at the previous poll (the flag
`plusKeyPressed`); it applies the slow-down step and prints its banner exactly
when key `-` is down and was up; it removes the moons of planet 4, refocuses
and prints the key-9 line exactly when key 9 is down and was up; otherwise
`timeScale`, the moon list and the console are left as they are.  So for every
state and every sequence of input events whose polls report the three keys as
pressed or released, the number of times each action is applied, read off the
console, grows by the number of polls in which its key is down while it was up
at the previous poll; and when the key is down in every poll of a sequence that
has at least one poll and starts with the flag not set, the action is applied
exactly once. -/
theorem actions_edge_triggered (m : MathFns α) (s : State α) (events : List (InputEvent α))
    (hbin : ∀ glfwGetKey, InputEvent.keys glfwGetKey ∈ events →
      ∀ key : Int, glfwGetKey key = GLFW_PRESS ∨ glfwGetKey key = GLFW_RELEASE) :
    (speedUpRuns (applyInputs m s events)
        = speedUpRuns s + risingEdges GLFW_KEY_EQUAL s.plusKeyPressed events
      ∧ slowDownRuns (applyInputs m s events)
        = slowDownRuns s + risingEdges GLFW_KEY_MINUS s.minusKeyPressed events
      ∧ key9Runs (applyInputs m s events)
        = key9Runs s + risingEdges GLFW_KEY_9 s.nineKeyPressed events)
    ∧ ((∃ glfwGetKey, InputEvent.keys glfwGetKey ∈ events) →
        ((∀ glfwGetKey, InputEvent.keys glfwGetKey ∈ events →
            glfwGetKey GLFW_KEY_EQUAL = GLFW_PRESS) →
          s.plusKeyPressed = false →
          speedUpRuns (applyInputs m s events) = speedUpRuns s + 1)
        ∧ ((∀ glfwGetKey, InputEvent.keys glfwGetKey ∈ events →
            glfwGetKey GLFW_KEY_MINUS = GLFW_PRESS) →
          s.minusKeyPressed = false →
          slowDownRuns (applyInputs m s events) = slowDownRuns s + 1)
        ∧ ((∀ glfwGetKey, InputEvent.keys glfwGetKey ∈ events →
            glfwGetKey GLFW_KEY_9 = GLFW_PRESS) →
          s.nineKeyPressed = false →
          key9Runs (applyInputs m s events) = key9Runs s + 1))
    ∧ (∀ (t : State α) (glfwGetKey : Int → Int) (T1 T2 : α),
        T1 = (if glfwGetKey GLFW_KEY_EQUAL = GLFW_PRESS ∧ t.plusKeyPressed = false
          then t.timeScale * 1.1 else t.timeScale) →
        T2 = (if T1 * 0.9 < 0.01 then 0.01 else T1 * 0.9) →
        (processInput t glfwGetKey).timeScale
            = (if glfwGetKey GLFW_KEY_MINUS = GLFW_PRESS ∧ t.minusKeyPressed = false
                then T2 else T1)
        ∧ (processInput t glfwGetKey).moons
            = (if glfwGetKey GLFW_KEY_9 = GLFW_PRESS ∧ t.nineKeyPressed = false
                then removeMoonsOfPlanet 4 t.moons else t.moons)
        ∧ (glfwGetKey GLFW_KEY_9 = GLFW_PRESS ∧ t.nineKeyPressed = false →
            (processInput t glfwGetKey).focusedPlanet
              = (if earthMoonScan (removeMoonsOfPlanet 4 t.moons) 0 ≥ 0
                  then 9 + earthMoonScan (removeMoonsOfPlanet 4 t.moons) 0 else 3))
        ∧ (processInput t glfwGetKey).console
            = t.console
              ++ (if glfwGetKey GLFW_KEY_EQUAL = GLFW_PRESS ∧ t.plusKeyPressed = false
                  then [ ConsoleMessage.speedIncreased (t.timeScale * 1.1) ] else [])
              ++ (if glfwGetKey GLFW_KEY_MINUS = GLFW_PRESS ∧ t.minusKeyPressed = false
                  then [ ConsoleMessage.speedDecreased T2 ] else [])
              ++ (if glfwGetKey GLFW_KEY_9 = GLFW_PRESS ∧ t.nineKeyPressed = false then
                  [ if earthMoonScan (removeMoonsOfPlanet 4 t.moons) 0 ≥ 0
                      then ConsoleMessage.moonFocused
                        (9 + earthMoonScan (removeMoonsOfPlanet 4 t.moons) 0)
                      else ConsoleMessage.moonNotFound ]
                else [])) := by
  have hconsole : ∀ (t : State α) (i : Nat) (e : MouseEvent α),
      (earthLocationButton t i).console = t.console
      ∧ (saturnLocationButton t i).console = t.console
      ∧ (handleEvent m t e).console = t.console :=
    fun t i e => ⟨(earthLocationButton_keeps t i).2.2.2.2.2.2.2.2.2.2.2.2, (saturnLocationButton_keeps t i).2.2.2.2.2.2.2.2.2.2.2.2,
      (handleEvent_keeps m t e).2.2.2.2.2.2.2.2.2.2.2.2⟩
  have h1 : speedUpRuns (applyInputs m s events)
      = speedUpRuns s + risingEdges GLFW_KEY_EQUAL s.plusKeyPressed events :=
    runs_rising m speedUpRuns GLFW_KEY_EQUAL State.plusKeyPressed speedUp_poll
      (fun t i e => ⟨⟨congrArg (List.countP ConsoleMessage.isSpeedIncreased) (hconsole t i e).1,
          (earthLocationButton_keeps t i).2.2.2.1⟩,
        ⟨congrArg (List.countP ConsoleMessage.isSpeedIncreased) (hconsole t i e).2.1,
          (saturnLocationButton_keeps t i).2.2.2.1⟩,
        ⟨congrArg (List.countP ConsoleMessage.isSpeedIncreased) (hconsole t i e).2.2,
          (handleEvent_keeps m t e).2.2.2.1⟩⟩)
      events s (fun k hk => hbin k hk _)
  have h2 : slowDownRuns (applyInputs m s events)
      = slowDownRuns s + risingEdges GLFW_KEY_MINUS s.minusKeyPressed events :=
    runs_rising m slowDownRuns GLFW_KEY_MINUS State.minusKeyPressed slowDown_poll
      (fun t i e => ⟨⟨congrArg (List.countP ConsoleMessage.isSpeedDecreased) (hconsole t i e).1,
          (earthLocationButton_keeps t i).2.2.2.2.1⟩,
        ⟨congrArg (List.countP ConsoleMessage.isSpeedDecreased) (hconsole t i e).2.1,
          (saturnLocationButton_keeps t i).2.2.2.2.1⟩,
        ⟨congrArg (List.countP ConsoleMessage.isSpeedDecreased) (hconsole t i e).2.2,
          (handleEvent_keeps m t e).2.2.2.2.1⟩⟩)
      events s (fun k hk => hbin k hk _)
  have h3 : key9Runs (applyInputs m s events)
      = key9Runs s + risingEdges GLFW_KEY_9 s.nineKeyPressed events :=
    runs_rising m key9Runs GLFW_KEY_9 State.nineKeyPressed key9_poll
      (fun t i e => ⟨⟨congrArg (List.countP ConsoleMessage.isKey9Line) (hconsole t i e).1,
          (earthLocationButton_keeps t i).2.2.2.2.2.1⟩,
        ⟨congrArg (List.countP ConsoleMessage.isKey9Line) (hconsole t i e).2.1,
          (saturnLocationButton_keeps t i).2.2.2.2.2.1⟩,
        ⟨congrArg (List.countP ConsoleMessage.isKey9Line) (hconsole t i e).2.2,
          (handleEvent_keeps m t e).2.2.2.2.2.1⟩⟩)
      events s (fun k hk => hbin k hk _)
  refine ⟨⟨h1, h2, h3⟩, ?_, fun t k T1 T2 hT1 hT2 => processInput_effect t k T1 T2 hT1 hT2⟩
  intro hex
  refine ⟨?_, ?_, ?_⟩
  · intro hdown hflag
    rw [h1, hflag, risingEdges_held GLFW_KEY_EQUAL events hdown hex]
  · intro hdown hflag
    rw [h2, hflag, risingEdges_held GLFW_KEY_MINUS events hdown hex]
  · intro hdown hflag
    rw [h3, hflag, risingEdges_held GLFW_KEY_9 events hdown hex]

/-- The key states built by `keysDown` are `GLFW_PRESS` or `GLFW_RELEASE`. -/
theorem keysDown_binary (down : List Int) (key : Int) :
    keysDown down key = GLFW_PRESS ∨ keysDown down key = GLFW_RELEASE := by
  unfold keysDown
  split_ifs
  · exact Or.inl rfl
  · exact Or.inr rfl

/-- Witness of `actions_edge_triggered`: from startup, key `=` is held down over
three polls and released in a fourth; the speed-up banner is printed once. -/
theorem actions_edge_triggered_witness :
    speedUpRuns (applyInputs realMath (initialState (α := ℝ))
        ([ .keys (keysDown [GLFW_KEY_EQUAL]), .keys (keysDown [GLFW_KEY_EQUAL]),
           .keys (keysDown [GLFW_KEY_EQUAL]), .keys (keysDown []) ] : List (InputEvent ℝ)))
      = speedUpRuns (initialState (α := ℝ))
        + risingEdges GLFW_KEY_EQUAL (initialState (α := ℝ)).plusKeyPressed
          ([ .keys (keysDown [GLFW_KEY_EQUAL]), .keys (keysDown [GLFW_KEY_EQUAL]),
             .keys (keysDown [GLFW_KEY_EQUAL]), .keys (keysDown []) ] : List (InputEvent ℝ))
    ∧ speedUpRuns (initialState (α := ℝ))
        + risingEdges GLFW_KEY_EQUAL (initialState (α := ℝ)).plusKeyPressed
          ([ .keys (keysDown [GLFW_KEY_EQUAL]), .keys (keysDown [GLFW_KEY_EQUAL]),
             .keys (keysDown [GLFW_KEY_EQUAL]), .keys (keysDown []) ] : List (InputEvent ℝ))
      = 1 :=
  ⟨(actions_edge_triggered realMath initialState
      [ .keys (keysDown [GLFW_KEY_EQUAL]), .keys (keysDown [GLFW_KEY_EQUAL]),
        .keys (keysDown [GLFW_KEY_EQUAL]), .keys (keysDown []) ]
      (by
        intro k hk key
        simp only [List.mem_cons, InputEvent.keys.injEq, List.mem_singleton, List.not_mem_nil,
          or_false] at hk
        rcases hk with h | h | h | h <;> subst h <;> exact keysDown_binary _ _)).1.1,
    by decide⟩

end EdgeTheorems

/-! ## Theorems: the bloom input of the composite pass -/

section CompositeTheorems

variable {α : Type}

/-- C24: in every frame the composite pass draws with `texBloom[0]` bound to the
texture unit that its sampler `texBloom` reads.  For every pass count `n ≥ 1`
of the bloom loop, the last blur pass writes the framebuffer to which
`texBloom[0]` is attached exactly when `n` is even: for an even count the
composite pass reads the result of the last blur pass, for an odd count it
reads the other bloom texture.  The witness is the fixed count 4 of the render
loop. -/
theorem composite_reads_last_blur (s : State α) (n : Nat) (hn : 1 ≤ n) :
    (texturesAtDraw Handle.fboComposite (frameRenderCalls s) none 0 (fun _ => none)).map
        (fun units => units compositeBloomUnit) = some (some Handle.texBloom0)
    ∧ ∃ p : BlurPass, (bloomPasses n).getLast? = some p
        ∧ isAttached p.framebuffer Handle.texBloom0 = decide (n % 2 = 0)
        ∧ isAttached p.framebuffer Handle.texBloom1 = decide (n % 2 = 1) := by
  constructor
  · unfold frameRenderCalls
    cases shouldShowMinimap s <;> rfl
  · have hlen : (bloomPasses n).length = n := bloomLoop_length n true true
    have hget := bloomLoop_getElem? n true true (n - 1) (by omega)
    refine ⟨{ framebuffer := fboBloom (xor true (decide ((n - 1) % 2 = 1))),
              u_horizontal := xor true (decide ((n - 1) % 2 = 1)),
              image := if true = true ∧ n - 1 = 0 then Handle.texBrightMap
                       else texBloom (!(xor true (decide ((n - 1) % 2 = 1)))) }, ?_, ?_, ?_⟩
    · rw [List.getLast?_eq_getElem?, hlen]
      exact hget
    · rcases Nat.mod_two_eq_zero_or_one n with h | h
      · have h2 : (n - 1) % 2 = 1 := by omega
        simp only [h, h2]
        decide
      · have h2 : (n - 1) % 2 = 0 := by omega
        simp only [h, h2]
        decide
    · rcases Nat.mod_two_eq_zero_or_one n with h | h
      · have h2 : (n - 1) % 2 = 1 := by omega
        simp only [h, h2]
        decide
      · have h2 : (n - 1) % 2 = 0 := by omega
        simp only [h, h2]
        decide

/-- Witness of `composite_reads_last_blur`: the startup state and the four
passes that the render loop runs; the last pass writes the framebuffer of
`texBloom[0]`. -/
theorem composite_reads_last_blur_witness :
    (texturesAtDraw Handle.fboComposite (frameRenderCalls (initialState (α := ℚ))) none 0
        (fun _ => none)).map (fun units => units compositeBloomUnit)
      = some (some Handle.texBloom0)
    ∧ ∃ p : BlurPass, (bloomPasses bloomAmount).getLast? = some p
        ∧ isAttached p.framebuffer Handle.texBloom0 = decide (bloomAmount % 2 = 0)
        ∧ isAttached p.framebuffer Handle.texBloom1 = decide (bloomAmount % 2 = 1) :=
  composite_reads_last_blur initialState bloomAmount (by decide)

end CompositeTheorems

/-! ## Theorems: the camera of a frame -/

section EyeTheorems

variable {α : Type} [LinearOrderedField α]

/-- The camera of a frame in which the smooth-movement block is skipped: the eye
is the spherical offset from the camera target, and the two camera globals keep
their values. -/
theorem frameCamera_not_moving (m : MathFns α) (s : State α) (a : α) (pp : List (Vec3 α))
    (h : movingToLocation s = false) :
    (frameCamera m s a pp).cameraPos
      = ⟨(frameCamera m s a pp).cameraTarget.x
            + s.cameraDistance * m.cos (radians m s.cameraPitch) * m.sin (radians m s.cameraYaw),
          (frameCamera m s a pp).cameraTarget.y
            + s.cameraDistance * m.sin (radians m s.cameraPitch),
          (frameCamera m s a pp).cameraTarget.z
            + s.cameraDistance * m.cos (radians m s.cameraPitch) * m.cos (radians m s.cameraYaw)⟩
    ∧ (frameCamera m s a pp).targetCameraPos = s.targetCameraPos
    ∧ (frameCamera m s a pp).currentCameraPos = s.currentCameraPos := by
  have hc : ¬ (s.focusedPlanet = 3 ∧ s.isMovingToLocation = true ∧ s.currentLocationIndex ≥ 0
      ∧ s.currentLocationIndex < (earthLocations (α := α)).length) := by
    unfold movingToLocation at h
    exact of_decide_eq_false h
  unfold frameCamera
  simp only [if_neg hc]
  refine ⟨?_, ?_, ?_⟩ <;> first | rfl | trivial

/-- The camera of a frame in which the smooth-movement block runs: the eye is
the new `currentCameraPos`, the old one moved towards the new `targetCameraPos`
by `glm::mix`; and `targetCameraPos` is read off `currentLocationIndex`, the
animation angle and Earth's position only. -/
theorem frameCamera_moving (m : MathFns α) (s : State α) (a : α) (pp : List (Vec3 α))
    (h : movingToLocation s = true) :
    (frameCamera m s a pp).cameraPos = (frameCamera m s a pp).currentCameraPos
    ∧ (frameCamera m s a pp).currentCameraPos
        = mix s.currentCameraPos (frameCamera m s a pp).targetCameraPos cameraLerpSpeed
    ∧ (∀ t : State α, movingToLocation t = true →
        t.currentLocationIndex = s.currentLocationIndex →
        (frameCamera m t a pp).targetCameraPos = (frameCamera m s a pp).targetCameraPos) := by
  have hc : s.focusedPlanet = 3 ∧ s.isMovingToLocation = true ∧ s.currentLocationIndex ≥ 0
      ∧ s.currentLocationIndex < (earthLocations (α := α)).length := by
    unfold movingToLocation at h
    exact of_decide_eq_true h
  refine ⟨?_, ?_, ?_⟩
  · unfold frameCamera
    simp only [if_pos hc]
  · unfold frameCamera
    simp only [if_pos hc]
  · intro t ht hidx
    have hct : t.focusedPlanet = 3 ∧ t.isMovingToLocation = true ∧ t.currentLocationIndex ≥ 0
        ∧ t.currentLocationIndex < (earthLocations (α := α)).length := by
      unfold movingToLocation at ht
      exact of_decide_eq_true ht
    unfold frameCamera
    simp only [if_pos hc, if_pos hct]
    rw [hidx]

end EyeTheorems

section FocusBranchTheorems

variable {α : Type} [LinearOrderedField α]

/-- C26: the planet block produces the same position vector whichever branch it
takes: for every focused body, the result equals the result of the branch taken
when the Sun is focused, for every animation angle and every previous content.
The positions of the star and the eight planets after the whole position update
of a frame therefore depend on the simulated time only, not on the focus, the
moon list or the previous positions. -/
theorem planet_positions_focus_independent (m : MathFns α) (focusedPlanet otherFocus : Int)
    (t : α) (moons otherMoons : List (Moon α)) (pp otherPp : List (Vec3 α))
    (hpp : 9 ≤ pp.length) (hother : 9 ≤ otherPp.length) :
    updatePlanetPositions m focusedPlanet (animationAngle t) pp
      = updatePlanetPositions m 0 (animationAngle t) pp
    ∧ ∀ j : Nat, j < 9 →
        (framePositions m focusedPlanet t moons pp).getD j 0
          = (framePositions m otherFocus t otherMoons otherPp).getD j 0 := by
  constructor
  · rw [updatePlanetPositions_eq m focusedPlanet _ pp hpp, updatePlanetPositions_eq m 0 _ pp hpp]
  · intro j hj
    rw [framePositions_getD_planet m focusedPlanet t moons pp hpp j hj,
      framePositions_getD_planet m otherFocus t otherMoons otherPp hother j hj]

end FocusBranchTheorems

/-- Witness of `planet_positions_focus_independent`: Earth focused against the
Sun focused, at time 7, from the startup positions. -/
theorem planet_positions_focus_independent_witness :
    updatePlanetPositions realMath 3 (animationAngle (7 : ℝ)) (List.replicate 17 0)
      = updatePlanetPositions realMath 0 (animationAngle (7 : ℝ)) (List.replicate 17 0)
    ∧ ∀ j : Nat, j < 9 →
        (framePositions realMath 3 (7 : ℝ) startupMoons (List.replicate 17 0)).getD j 0
          = (framePositions realMath 0 (7 : ℝ) [] (List.replicate 17 0)).getD j 0 :=
  planet_positions_focus_independent realMath 3 0 7 startupMoons [] (List.replicate 17 0)
    (List.replicate 17 0) (by simp) (by simp)

/-! ## Theorems: smooth camera movement -/

section LerpTheorems

variable {α : Type} [LinearOrderedField α]

/-- The camera code changes neither the condition of the smooth-movement block
nor the location index. -/
theorem cameraStep_fields (m : MathFns α) (a : α) (pp : List (Vec3 α)) (s : State α) :
    movingToLocation (cameraStep m a pp s) = movingToLocation s
    ∧ (cameraStep m a pp s).currentLocationIndex = s.currentLocationIndex
    ∧ (cameraStep m a pp s).currentCameraPos = (frameCamera m s a pp).currentCameraPos
    ∧ (cameraStep m a pp s).targetCameraPos = (frameCamera m s a pp).targetCameraPos :=
  ⟨rfl, rfl, rfl, rfl⟩

end LerpTheorems

/-! ## Theorems: who writes `currentCameraPos` -/

section CameraPosTheorems

variable {α : Type} [LinearOrderedField α]

/-- The head of a frame does not write `currentCameraPos`. -/
theorem frameSetup_currentCameraPos (m : MathFns α) (s : State α) (deltaTime : α)
    (glfwGetKey : Int → Int) :
    (frameSetup m s deltaTime glfwGetKey).1.currentCameraPos = s.currentCameraPos := by
  unfold frameSetup
  simp only []
  rw [processInput_currentCameraPos]

/-- A frame that skips the smooth-movement block does not write
`currentCameraPos`. -/
theorem renderFrame_currentCameraPos (m : MathFns α) (s : State α) (deltaTime : α)
    (glfwGetKey : Int → Int)
    (h : movingToLocation (frameSetup m s deltaTime glfwGetKey).1 = false) :
    (renderFrame m s deltaTime glfwGetKey).currentCameraPos = s.currentCameraPos := by
  unfold renderFrame
  rw [(cameraStep_fields m _ _ _).2.2.1, (frameCamera_not_moving m _ _ _ h).2.2,
    frameSetup_currentCameraPos]

/-- As long as no frame runs the smooth-movement block, `currentCameraPos` keeps
its value. -/
theorem runLoop_currentCameraPos (m : MathFns α) (steps : List (LoopStep α)) :
    ∀ s : State α, movingFrames m s steps = 0 →
      (runLoop m s steps).currentCameraPos = s.currentCameraPos := by
  induction steps with
  | nil => intro _ _; rfl
  | cons step rest ih =>
    intro s h
    cases step with
    | frame deltaTime glfwGetKey =>
      have h2 : (if movingToLocation (frameSetup m s deltaTime glfwGetKey).1 then 1 else 0)
          + movingFrames m (renderFrame m s deltaTime glfwGetKey) rest = 0 := h
      have hnot : movingToLocation (frameSetup m s deltaTime glfwGetKey).1 = false := by
        cases hmv : movingToLocation (frameSetup m s deltaTime glfwGetKey).1
        · rfl
        · rw [hmv] at h2
          simp at h2
      have hrest : movingFrames m (renderFrame m s deltaTime glfwGetKey) rest = 0 := by
        omega
      exact (ih (renderFrame m s deltaTime glfwGetKey) hrest).trans
        (renderFrame_currentCameraPos m s deltaTime glfwGetKey hnot)
    | input e =>
      have h2 : 0 + movingFrames m (applyInput m s e) rest = 0 := h
      have hrest : movingFrames m (applyInput m s e) rest = 0 := by
        omega
      exact (ih (applyInput m s e) hrest).trans (applyInput_currentCameraPos m s e)

/-- C29: `currentCameraPos` is written only by frames that run the
smooth-movement block: no input event changes it, and a frame that skips the
block leaves it as it was.  Hence after any steps from startup among which no
frame ran the block, `currentCameraPos` is still the origin, and in the next
frame that runs the block the eye position passed to `glm::lookAt` is 0.08
times the `targetCameraPos` of that frame, whatever the mouse and the keys did
to the yaw, the pitch and the distance of the camera before. -/
theorem first_move_starts_at_origin (m : MathFns α) (steps : List (LoopStep α))
    (deltaTime : α) (glfwGetKey : Int → Int)
    (hnone : movingFrames m initialState steps = 0)
    (hmove : movingToLocation
      (frameSetup m (runLoop m initialState steps) deltaTime glfwGetKey).1 = true) :
    (∀ (s : State α) (e : InputEvent α), (applyInput m s e).currentCameraPos = s.currentCameraPos)
    ∧ (∀ (s : State α) (dt : α) (keys : Int → Int),
        movingToLocation (frameSetup m s dt keys).1 = false →
        (renderFrame m s dt keys).currentCameraPos = s.currentCameraPos)
    ∧ (runLoop m initialState steps).currentCameraPos = ⟨0, 0, 0⟩
    ∧ (frameEye m (runLoop m initialState steps) deltaTime glfwGetKey).cameraPos
        = Vec3.scale
            (frameEye m (runLoop m initialState steps) deltaTime glfwGetKey).targetCameraPos
            0.08 := by
  have hzero : (runLoop m initialState steps).currentCameraPos = (⟨0, 0, 0⟩ : Vec3 α) := by
    rw [runLoop_currentCameraPos m steps initialState hnone]
    simp only [initialState, Vec3.mk.injEq]
    norm_num
  refine ⟨applyInput_currentCameraPos m, renderFrame_currentCameraPos m, hzero, ?_⟩
  have hm := frameCamera_moving m _ (frameSetup m (runLoop m initialState steps) deltaTime
    glfwGetKey).2 (frameSetup m (runLoop m initialState steps) deltaTime
    glfwGetKey).1.planetPositions hmove
  unfold frameEye
  rw [hm.1, hm.2.1, frameSetup_currentCameraPos, hzero]
  unfold mix Vec3.scale cameraLerpSpeed
  simp only [zero_mul, zero_add]

/-- Witness of `first_move_starts_at_origin`: after a scroll and a frame
without keys, a frame in which the keys 3 and O are down runs the block. -/
theorem first_move_starts_at_origin_witness :
    (runLoop realMath (initialState (α := ℝ))
        [ .input (.mouse (.scroll 0 1)), .frame 1 (keysDown []) ]).currentCameraPos = ⟨0, 0, 0⟩
    ∧ (frameEye realMath (runLoop realMath (initialState (α := ℝ))
          [ .input (.mouse (.scroll 0 1)), .frame 1 (keysDown []) ]) 1
          (keysDown [GLFW_KEY_3, GLFW_KEY_O])).cameraPos
        = Vec3.scale
            (frameEye realMath (runLoop realMath (initialState (α := ℝ))
              [ .input (.mouse (.scroll 0 1)), .frame 1 (keysDown []) ]) 1
              (keysDown [GLFW_KEY_3, GLFW_KEY_O])).targetCameraPos
            0.08 :=
  (first_move_starts_at_origin realMath
    [ .input (.mouse (.scroll 0 1)), .frame 1 (keysDown []) ] 1
    (keysDown [GLFW_KEY_3, GLFW_KEY_O]) (by decide) (by decide)).2.2

end CameraPosTheorems

/-! ## Theorems: the reachable values of `focusedPlanet` -/

section ScanFoundTheorems

variable {α : Type}

/-- A scan that does not return -1 returns the start index plus the index of a
moon of planet 3. -/
theorem earthMoonScan_found (moons : List (Moon α)) (start : Nat) :
    earthMoonScan moons start = -1
      ∨ ∃ (i : Nat) (moon : Moon α), earthMoonScan moons start = ((start + i : Nat) : Int)
          ∧ moons.get? i = some moon ∧ moon.parentPlanet = 3 := by
  induction moons generalizing start with
  | nil => exact Or.inl rfl
  | cons mn rest ih =>
    rw [earthMoonScan]
    split_ifs with h
    · exact Or.inr ⟨0, mn, rfl, rfl, h⟩
    · rcases ih (start + 1) with h1 | ⟨i, moon, h1, h2, h3⟩
      · exact Or.inl h1
      · refine Or.inr ⟨i + 1, moon, ?_, h2, h3⟩
        rw [h1]
        congr 1
        omega

/-- A property of the moon list and the focus that every focus key and the
key-9 action keep is kept by a focus statement. -/
theorem focusKey_focus (P : List (Moon α) → Int → Prop)
    (hfocus : ∀ (moons : List (Moon α)) (fp v : Int), P moons fp → 0 ≤ v → v ≤ 8 → P moons v)
    (s : State α) (glfwGetKey : Int → Int) (key planet : Int) (h0 : 0 ≤ planet)
    (h8 : planet ≤ 8) (h : P s.moons s.focusedPlanet) :
    P (focusKey s glfwGetKey key planet).moons (focusKey s glfwGetKey key planet).focusedPlanet := by
  unfold focusKey
  split_ifs
  · exact hfocus s.moons s.focusedPlanet planet h h0 h8
  · exact h

/-- The nine focus statements keep such a property. -/
theorem processFocusKeys_focus (P : List (Moon α) → Int → Prop)
    (hfocus : ∀ (moons : List (Moon α)) (fp v : Int), P moons fp → 0 ≤ v → v ≤ 8 → P moons v)
    (s : State α) (glfwGetKey : Int → Int) (h : P s.moons s.focusedPlanet) :
    P (processFocusKeys s glfwGetKey).moons (processFocusKeys s glfwGetKey).focusedPlanet := by
  unfold processFocusKeys
  simp only []
  repeat' apply focusKey_focus P hfocus
  all_goals first | exact h | decide

/-- The key-9 statements keep such a property. -/
theorem processKey9_focus (P : List (Moon α) → Int → Prop)
    (hkey9 : ∀ s : State α, P s.moons s.focusedPlanet →
      P (key9Action s).moons (key9Action s).focusedPlanet)
    (s : State α) (glfwGetKey : Int → Int) (h : P s.moons s.focusedPlanet) :
    P (processKey9 s glfwGetKey).moons (processKey9 s glfwGetKey).focusedPlanet := by
  unfold processKey9
  simp only []
  split_ifs
  · exact hkey9 s h
  · exact h
  · exact hkey9 s h
  · exact h

end ScanFoundTheorems

section FocusTheorems

variable {α : Type} [LinearOrderedField α]

/-- The function `processInput` keeps such a property. -/
theorem processInput_focus (P : List (Moon α) → Int → Prop)
    (hfocus : ∀ (moons : List (Moon α)) (fp v : Int), P moons fp → 0 ≤ v → v ≤ 8 → P moons v)
    (hkey9 : ∀ s : State α, P s.moons s.focusedPlanet →
      P (key9Action s).moons (key9Action s).focusedPlanet)
    (s : State α) (glfwGetKey : Int → Int) (h : P s.moons s.focusedPlanet) :
    P (processInput s glfwGetKey).moons (processInput s glfwGetKey).focusedPlanet := by
  rw [processInput_eq, (processSaturnLocationKeys_keeps _ _).1,
    (processSaturnLocationKeys_keeps _ _).2.1, (processEarthLocationKeys_keeps _ _).1,
    (processEarthLocationKeys_keeps _ _).2.1]
  apply processKey9_focus P hkey9
  apply processFocusKeys_focus P hfocus
  rw [(processSlowDownKey_keeps _ _).1, (processSlowDownKey_keeps _ _).2.1,
    (processSpeedUpKey_keeps _ _).1, (processSpeedUpKey_keeps _ _).2.1,
    (processEscapeKey_keeps _ _).1, (processEscapeKey_keeps _ _).2.1]
  exact h

/-- Every sequence of input events keeps such a property. -/
theorem applyInputs_focus (m : MathFns α) (P : List (Moon α) → Int → Prop)
    (hfocus : ∀ (moons : List (Moon α)) (fp v : Int), P moons fp → 0 ≤ v → v ≤ 8 → P moons v)
    (hkey9 : ∀ s : State α, P s.moons s.focusedPlanet →
      P (key9Action s).moons (key9Action s).focusedPlanet)
    (events : List (InputEvent α)) :
    ∀ s : State α, P s.moons s.focusedPlanet →
      P (applyInputs m s events).moons (applyInputs m s events).focusedPlanet := by
  induction events with
  | nil => intro s h; exact h
  | cons e es ih =>
    intro s h
    refine ih (applyInput m s e) ?_
    cases e with
    | keys glfwGetKey => exact processInput_focus P hfocus hkey9 s glfwGetKey h
    | earthButton i =>
      simp only [applyInput]
      rw [(earthLocationButton_keeps s i).1, (earthLocationButton_keeps s i).2.1]
      exact h
    | saturnButton i =>
      simp only [applyInput]
      rw [(saturnLocationButton_keeps s i).1, (saturnLocationButton_keeps s i).2.1]
      exact h
    | mouse ev =>
      simp only [applyInput]
      rw [(handleEvent_keeps m s ev).1, (handleEvent_keeps m s ev).2.1]
      exact h

/-- The startup moon table without the moon of planet 4. -/
theorem removeMoons_startup :
    removeMoonsOfPlanet 4 (startupMoons (α := α))
        = [ ⟨5, 4.5, 8.0, 0.3, 0⟩, ⟨5, 6.0, 5.0, 0.35, 0⟩, ⟨5, 8.0, 3.0, 0.25, 0⟩,
            ⟨6, 5.5, 10.0, 0.3, 0⟩, ⟨6, 7.0, 7.0, 0.2, 0⟩, ⟨3, 2.5, 13.0, 0.4, 0⟩ ]
    ∧ removeMoonsOfPlanet 4 (removeMoonsOfPlanet 4 (startupMoons (α := α)))
        = removeMoonsOfPlanet 4 (startupMoons (α := α)) := by
  have h1 : removeMoonsOfPlanet 4 (startupMoons (α := α))
      = [ ⟨5, 4.5, 8.0, 0.3, 0⟩, ⟨5, 6.0, 5.0, 0.35, 0⟩, ⟨5, 8.0, 3.0, 0.25, 0⟩,
          ⟨6, 5.5, 10.0, 0.3, 0⟩, ⟨6, 7.0, 7.0, 0.2, 0⟩, ⟨3, 2.5, 13.0, 0.4, 0⟩ ] := by
    rw [removal_is_filter]
    simp [startupMoons]
  refine ⟨h1, ?_⟩
  rw [h1, removal_is_filter]
  simp

/-- From the startup table, or from that table without the moon of planet 4,
the key-9 action leaves the table without the moon of planet 4 and sets the
focus to 14. -/
theorem key9Action_startup (s : State α)
    (h : s.moons = startupMoons ∨ s.moons = removeMoonsOfPlanet 4 startupMoons) :
    (key9Action s).moons = removeMoonsOfPlanet 4 startupMoons
    ∧ (key9Action s).focusedPlanet = 14 := by
  have hm : removeMoonsOfPlanet 4 s.moons = removeMoonsOfPlanet 4 startupMoons := by
    rcases h with h | h
    · rw [h]
    · rw [h, (removeMoons_startup (α := α)).2]
  have hscan : earthMoonScan (removeMoonsOfPlanet 4 (startupMoons (α := α))) 0 = 5 := by
    rw [(removeMoons_startup (α := α)).1]
    simp [earthMoonScan]
  have hfp : (key9Action s).focusedPlanet
      = if earthMoonScan (removeMoonsOfPlanet 4 s.moons) 0 ≥ 0
          then 9 + earthMoonScan (removeMoonsOfPlanet 4 s.moons) 0 else 3 := rfl
  refine ⟨hm, ?_⟩
  rw [hfp, hm, hscan]
  decide

/-- C27: in every state reachable from startup by input events (key polls with
any key states among them), whatever the moon table was at startup,
`focusedPlanet` is in `0..8` or equals `9 + i` for an index `i` of the current
moon list whose moon has parent 3 (Earth).  With the startup moon table of the
program the reachable values are exactly 0 to 8 and 14: no other value is
reached, and each of these is. -/
theorem focusedPlanet_reachable (m : MathFns α) :
    (∀ (table : List (Moon α)) (events : List (InputEvent α)),
        (0 ≤ (applyInputs m { initialState with moons := table } events).focusedPlanet
          ∧ (applyInputs m { initialState with moons := table } events).focusedPlanet ≤ 8)
        ∨ ∃ (i : Nat) (moon : Moon α),
            (applyInputs m { initialState with moons := table } events).focusedPlanet
              = 9 + (i : Int)
            ∧ (applyInputs m { initialState with moons := table } events).moons.get? i
              = some moon
            ∧ moon.parentPlanet = 3)
    ∧ (∀ events : List (InputEvent α),
        (0 ≤ (applyInputs m initialState events).focusedPlanet
          ∧ (applyInputs m initialState events).focusedPlanet ≤ 8)
        ∨ (applyInputs m initialState events).focusedPlanet = 14)
    ∧ (∀ v : Int, ((0 ≤ v ∧ v ≤ 8) ∨ v = 14) →
        ∃ events : List (InputEvent α), (applyInputs m initialState events).focusedPlanet = v) := by
  refine ⟨?_, ?_, ?_⟩
  · intro table events
    refine applyInputs_focus m
      (fun moons fp => (0 ≤ fp ∧ fp ≤ 8)
        ∨ ∃ (i : Nat) (moon : Moon α), fp = 9 + (i : Int) ∧ moons.get? i = some moon
            ∧ moon.parentPlanet = 3)
      (fun _ _ v _ h0 h8 => Or.inl ⟨h0, h8⟩) ?_ events _
      (Or.inl ⟨(by decide : (0 : Int) ≤ 0), (by decide : (0 : Int) ≤ 8)⟩)
    intro s _
    have hfp : (key9Action s).focusedPlanet
        = if earthMoonScan (key9Action s).moons 0 ≥ 0
            then 9 + earthMoonScan (key9Action s).moons 0 else 3 := rfl
    rcases earthMoonScan_found (key9Action s).moons 0 with hnone | ⟨i, moon, hi, hget, hpar⟩
    · left
      rw [hfp, hnone]
      decide
    · right
      refine ⟨i, moon, ?_, hget, hpar⟩
      rw [hfp, hi]
      simp
  · intro events
    have h := applyInputs_focus m
      (fun moons fp => (moons = startupMoons ∨ moons = removeMoonsOfPlanet 4 startupMoons)
        ∧ ((0 ≤ fp ∧ fp ≤ 8) ∨ fp = 14))
      (fun _ _ v h h0 h8 => ⟨h.1, Or.inl ⟨h0, h8⟩⟩)
      (fun s h => ⟨Or.inr (key9Action_startup s h.1).1, Or.inr (key9Action_startup s h.1).2⟩)
      events initialState
      ⟨Or.inl rfl, Or.inl ⟨(by decide : (0 : Int) ≤ 0), (by decide : (0 : Int) ≤ 8)⟩⟩
    exact h.2
  · intro v hv
    have hkey : ∀ (key planet : Int), (key, planet) ∈ [ (GLFW_KEY_0, (0 : Int)),
          (GLFW_KEY_1, 1), (GLFW_KEY_2, 2), (GLFW_KEY_3, 3), (GLFW_KEY_4, 4), (GLFW_KEY_5, 5),
          (GLFW_KEY_6, 6), (GLFW_KEY_7, 7), (GLFW_KEY_8, 8) ] →
        (applyInputs m (initialState (α := α)) [ .keys (keysDown [key]) ]).focusedPlanet
          = planet := by
      intro key planet hmem
      simp only [List.mem_cons, Prod.mk.injEq, List.mem_singleton, List.not_mem_nil,
        or_false] at hmem
      rcases hmem with h | h | h | h | h | h | h | h | h <;> obtain ⟨rfl, rfl⟩ := h <;> rfl
    rcases hv with ⟨h0, h8⟩ | h14
    · interval_cases v
      · exact ⟨_, hkey GLFW_KEY_0 0 (by simp)⟩
      · exact ⟨_, hkey GLFW_KEY_1 1 (by simp)⟩
      · exact ⟨_, hkey GLFW_KEY_2 2 (by simp)⟩
      · exact ⟨_, hkey GLFW_KEY_3 3 (by simp)⟩
      · exact ⟨_, hkey GLFW_KEY_4 4 (by simp)⟩
      · exact ⟨_, hkey GLFW_KEY_5 5 (by simp)⟩
      · exact ⟨_, hkey GLFW_KEY_6 6 (by simp)⟩
      · exact ⟨_, hkey GLFW_KEY_7 7 (by simp)⟩
      · exact ⟨_, hkey GLFW_KEY_8 8 (by simp)⟩
    · subst h14
      refine ⟨[ .keys (keysDown [GLFW_KEY_9]) ], ?_⟩
      have hstep : applyInputs m (initialState (α := α)) [ .keys (keysDown [GLFW_KEY_9]) ]
          = processInput initialState (keysDown [GLFW_KEY_9]) := rfl
      rw [hstep, processInput_eq, (processSaturnLocationKeys_keeps _ _).2.1,
        (processEarthLocationKeys_keeps _ _).2.1]
      have hk9 : ∀ t : State α, t.nineKeyPressed = false →
          processKey9 t (keysDown [GLFW_KEY_9]) = key9Action t := by
        intro t ht
        have hpress : keysDown [GLFW_KEY_9] GLFW_KEY_9 = GLFW_PRESS := by decide
        unfold processKey9
        simp only [hpress, ht, and_self, if_true]
        rw [if_neg (by decide)]
      rw [hk9 _ (by
        rw [(processFocusKeys_keeps _ _).2.2.2.2.2.1, (processSlowDownKey_keeps _ _).2.2.2.2.2.1,
          (processSpeedUpKey_keeps _ _).2.2.2.2.2.1, (processEscapeKey_keeps _ _).2.2.2.2.2.1]
        rfl)]
      refine (key9Action_startup _ (Or.inl ?_)).2
      rw [(processFocusKeys_keeps _ _).1, (processSlowDownKey_keeps _ _).1,
        (processSpeedUpKey_keeps _ _).1, (processEscapeKey_keeps _ _).1]
      rfl

end FocusTheorems

/-! ## Theorems: the focused Earth location -/

section LocationPlainTheorems

variable {α : Type}

/-- The Earth block keeps `focusedLocationIndex` non-negative. -/
theorem processEarthLocationKeys_index (s : State α) (glfwGetKey : Int → Int)
    (h : 0 ≤ s.focusedLocationIndex) :
    0 ≤ (processEarthLocationKeys s glfwGetKey).focusedLocationIndex := by
  have hO : ∀ t : State α, 0 ≤ t.focusedLocationIndex →
      0 ≤ (processKeyO t glfwGetKey).focusedLocationIndex := by
    intro t ht
    unfold processKeyO
    simp only []
    split_ifs <;> first | exact ht | exact (by decide : (0 : Int) ≤ 0)
  have hM : ∀ t : State α, 0 ≤ t.focusedLocationIndex →
      0 ≤ (processKeyM t glfwGetKey).focusedLocationIndex := by
    intro t ht
    unfold processKeyM
    simp only []
    split_ifs <;> first | exact ht | exact (by decide : (0 : Int) ≤ 1)
  have hD : ∀ t : State α, 0 ≤ t.focusedLocationIndex →
      0 ≤ (processKeyD t glfwGetKey).focusedLocationIndex := by
    intro t ht
    unfold processKeyD
    simp only []
    split_ifs <;> first | exact ht | exact (by decide : (0 : Int) ≤ 3)
  have hA : ∀ t : State α, 0 ≤ t.focusedLocationIndex →
      0 ≤ (processKeyA t glfwGetKey).focusedLocationIndex := by
    intro t ht
    unfold processKeyA
    simp only []
    split_ifs <;> first | exact ht | exact (by decide : (0 : Int) ≤ 2)
  unfold processEarthLocationKeys
  simp only []
  split_ifs
  · exact hA _ (hD _ (hM _ (hO _ h)))
  · exact h

/-- The Earth block keeps the property that a movement to a location goes to
the focused location: every location key stores its index in both
`currentLocationIndex` and `focusedLocationIndex`. -/
theorem processEarthLocationKeys_moving (s : State α) (glfwGetKey : Int → Int)
    (h : s.isMovingToLocation = true → s.currentLocationIndex = s.focusedLocationIndex) :
    (processEarthLocationKeys s glfwGetKey).isMovingToLocation = true →
      (processEarthLocationKeys s glfwGetKey).currentLocationIndex
        = (processEarthLocationKeys s glfwGetKey).focusedLocationIndex := by
  have hO : ∀ t : State α,
      (t.isMovingToLocation = true → t.currentLocationIndex = t.focusedLocationIndex) →
      (processKeyO t glfwGetKey).isMovingToLocation = true →
        (processKeyO t glfwGetKey).currentLocationIndex
          = (processKeyO t glfwGetKey).focusedLocationIndex := by
    intro t ht
    unfold processKeyO
    simp only []
    split_ifs <;> first | exact ht | exact fun _ => rfl
  have hM : ∀ t : State α,
      (t.isMovingToLocation = true → t.currentLocationIndex = t.focusedLocationIndex) →
      (processKeyM t glfwGetKey).isMovingToLocation = true →
        (processKeyM t glfwGetKey).currentLocationIndex
          = (processKeyM t glfwGetKey).focusedLocationIndex := by
    intro t ht
    unfold processKeyM
    simp only []
    split_ifs <;> first | exact ht | exact fun _ => rfl
  have hD : ∀ t : State α,
      (t.isMovingToLocation = true → t.currentLocationIndex = t.focusedLocationIndex) →
      (processKeyD t glfwGetKey).isMovingToLocation = true →
        (processKeyD t glfwGetKey).currentLocationIndex
          = (processKeyD t glfwGetKey).focusedLocationIndex := by
    intro t ht
    unfold processKeyD
    simp only []
    split_ifs <;> first | exact ht | exact fun _ => rfl
  have hA : ∀ t : State α,
      (t.isMovingToLocation = true → t.currentLocationIndex = t.focusedLocationIndex) →
      (processKeyA t glfwGetKey).isMovingToLocation = true →
        (processKeyA t glfwGetKey).currentLocationIndex
          = (processKeyA t glfwGetKey).focusedLocationIndex := by
    intro t ht
    unfold processKeyA
    simp only []
    split_ifs <;> first | exact ht | exact fun _ => rfl
  unfold processEarthLocationKeys
  simp only []
  split_ifs
  · exact hA _ (hD _ (hM _ (hO _ h)))
  · intro hm
    exact False.elim hm

end LocationPlainTheorems

section LocationTheorems

variable {α : Type} [LinearOrderedField α]

/-- A poll in which the focus ends on another body than Earth clears
`showEarthLocation` and `isMovingToLocation` and leaves `focusedLocationIndex`
as it was. -/
theorem processInput_leaves_earth (s : State α) (glfwGetKey : Int → Int)
    (h : (processInput s glfwGetKey).focusedPlanet ≠ 3) :
    (processInput s glfwGetKey).showEarthLocation = false
    ∧ (processInput s glfwGetKey).isMovingToLocation = false
    ∧ (processInput s glfwGetKey).focusedLocationIndex = s.focusedLocationIndex := by
  have hblock : ∀ t : State α, (processEarthLocationKeys t glfwGetKey).focusedPlanet ≠ 3 →
      (processEarthLocationKeys t glfwGetKey).showEarthLocation = false
      ∧ (processEarthLocationKeys t glfwGetKey).isMovingToLocation = false
      ∧ (processEarthLocationKeys t glfwGetKey).focusedLocationIndex
          = t.focusedLocationIndex := by
    intro t ht
    rw [(processEarthLocationKeys_keeps t glfwGetKey).2.1] at ht
    unfold processEarthLocationKeys
    rw [if_neg ht]
    exact ⟨rfl, rfl, rfl⟩
  have heq : processInput s glfwGetKey
      = processSaturnLocationKeys (processEarthLocationKeys (processKey9 (processFocusKeys
          (processSlowDownKey (processSpeedUpKey (processEscapeKey s glfwGetKey) glfwGetKey)
            glfwGetKey) glfwGetKey) glfwGetKey) glfwGetKey) glfwGetKey := rfl
  rw [heq] at h ⊢
  rw [(processSaturnLocationKeys_keeps _ _).2.1] at h
  obtain ⟨h1, h2, h3⟩ := hblock _ h
  rw [(processSaturnLocationKeys_keeps _ _).2.2.2.2.2.2.1,
    (processSaturnLocationKeys_keeps _ _).2.2.2.2.2.2.2.1,
    (processSaturnLocationKeys_keeps _ _).2.2.2.2.2.2.2.2.1]
  refine ⟨h1, h2, h3.trans ?_⟩
  rw [(processKey9_keeps _ _).2.2.2.2.2.2.1, (processFocusKeys_keeps _ _).2.2.2.2.2.2.1]
  exact ((processSlowDownKey_keeps _ _).2.2.2.2.2.2.1).trans
    (((processSpeedUpKey_keeps _ _).2.2.2.2.2.2.1).trans
      ((processEscapeKey_keeps _ _).2.2.2.2.2.2.1))

/-- A poll keeps the property that a movement to a location goes to the focused
location. -/
theorem processInput_moving (s : State α) (glfwGetKey : Int → Int)
    (h : s.isMovingToLocation = true → s.currentLocationIndex = s.focusedLocationIndex) :
    (processInput s glfwGetKey).isMovingToLocation = true →
      (processInput s glfwGetKey).currentLocationIndex
        = (processInput s glfwGetKey).focusedLocationIndex := by
  rw [processInput_eq, (processSaturnLocationKeys_keeps _ _).2.2.2.2.2.2.1,
    (processSaturnLocationKeys_keeps _ _).2.2.2.2.2.2.2.2.1,
    (processSaturnLocationKeys_keeps _ _).2.2.2.2.2.2.2.2.2.1]
  apply processEarthLocationKeys_moving
  rw [(processKey9_keeps _ _).2.2.2.2.2.2.1, (processKey9_keeps _ _).2.2.2.2.2.2.2.2.1,
    (processKey9_keeps _ _).2.2.2.2.2.2.2.2.2.1,
    (processFocusKeys_keeps _ _).2.2.2.2.2.2.1, (processFocusKeys_keeps _ _).2.2.2.2.2.2.2.2.1,
    (processFocusKeys_keeps _ _).2.2.2.2.2.2.2.2.2.1,
    (processSlowDownKey_keeps _ _).2.2.2.2.2.2.1,
    (processSlowDownKey_keeps _ _).2.2.2.2.2.2.2.2.1,
    (processSlowDownKey_keeps _ _).2.2.2.2.2.2.2.2.2.1,
    (processSpeedUpKey_keeps _ _).2.2.2.2.2.2.1,
    (processSpeedUpKey_keeps _ _).2.2.2.2.2.2.2.2.1,
    (processSpeedUpKey_keeps _ _).2.2.2.2.2.2.2.2.2.1,
    (processEscapeKey_keeps _ _).2.2.2.2.2.2.1, (processEscapeKey_keeps _ _).2.2.2.2.2.2.2.2.1,
    (processEscapeKey_keeps _ _).2.2.2.2.2.2.2.2.2.1]
  exact h

/-- No input event makes a non-negative `focusedLocationIndex` negative. -/
theorem applyInput_index (m : MathFns α) (s : State α) (e : InputEvent α)
    (h : 0 ≤ s.focusedLocationIndex) : 0 ≤ (applyInput m s e).focusedLocationIndex := by
  cases e with
  | keys glfwGetKey =>
    simp only [applyInput]
    rw [processInput_eq, (processSaturnLocationKeys_keeps _ _).2.2.2.2.2.2.1]
    apply processEarthLocationKeys_index
    rw [(processKey9_keeps _ _).2.2.2.2.2.2.1, (processFocusKeys_keeps _ _).2.2.2.2.2.2.1,
      (processSlowDownKey_keeps _ _).2.2.2.2.2.2.1, (processSpeedUpKey_keeps _ _).2.2.2.2.2.2.1,
      (processEscapeKey_keeps _ _).2.2.2.2.2.2.1]
    exact h
  | earthButton i =>
    simp only [applyInput]
    rw [(earthLocationButton_keeps s i).2.2.2.2.2.2.1]
    exact h
  | saturnButton i =>
    simp only [applyInput]
    rw [(saturnLocationButton_keeps s i).2.2.2.2.2.2.1]
    exact h
  | mouse ev =>
    cases ev with
    | cursorPos xpos ypos =>
      simp only [applyInput, handleEvent]
      rw [(mouse_callback_keeps s xpos ypos).2.2.2.2.2.2.1]
      exact h
    | mouseButton button action cursorX cursorY =>
      have hnext : (0 : Int) ≤ (s.focusedLocationIndex + 1)
          % ((earthLocations (α := α)).length : Int) :=
        Int.emod_nonneg _ (by simp [earthLocations])
      simp only [applyInput, handleEvent, mouse_button_callback]
      split_ifs <;> first | exact h | exact hnext
    | scroll xoffset yoffset =>
      simp only [applyInput, handleEvent]
      rw [(scroll_callback_keeps s xoffset yoffset).2.2.2.2.2.2.1]
      exact h

/-- No sequence of input events makes a non-negative `focusedLocationIndex`
negative. -/
theorem applyInputs_index (m : MathFns α) (events : List (InputEvent α)) :
    ∀ s : State α, 0 ≤ s.focusedLocationIndex →
      0 ≤ (applyInputs m s events).focusedLocationIndex := by
  induction events with
  | nil => intro s h; exact h
  | cons e es ih => intro s h; exact ih (applyInput m s e) (applyInput_index m s e h)

/-- With Earth focused and a valid `focusedLocationIndex`, the camera target of
the frame is Earth's position plus the rotated surface point of an entry of
`earthLocations`: entry `focusedLocationIndex` when the smooth-movement block is
skipped, entry `currentLocationIndex` when it runs; the two are the same entry
when the movement goes to the focused location. -/
theorem frameCamera_target_location (m : MathFns α) (s : State α) (a : α)
    (pp : List (Vec3 α)) (hf : s.focusedPlanet = 3)
    (hidx : s.focusedLocationIndex ≥ 0
      ∧ s.focusedLocationIndex < (earthLocations (α := α)).length) :
    ∃ idx : Int,
      ((s.isMovingToLocation = true → s.currentLocationIndex = s.focusedLocationIndex) →
        idx = s.focusedLocationIndex)
      ∧ (frameCamera m s a pp).cameraTarget
        = pp.getD 3 0 + rotateY m (radians m (a * g_daySpeed * 1.0))
            (latLonToSpherePosition m
              ((earthLocations (α := α)).getD idx.toNat ⟨"", "", 0, 0, 0⟩).latitude
              ((earthLocations (α := α)).getD idx.toNat ⟨"", "", 0, 0, 0⟩).longitude 1.8) := by
  cases hmv : movingToLocation s
  · have hc : ¬ (s.focusedPlanet = 3 ∧ s.isMovingToLocation = true
        ∧ s.currentLocationIndex ≥ 0
        ∧ s.currentLocationIndex < (earthLocations (α := α)).length) := by
      unfold movingToLocation at hmv
      exact of_decide_eq_false hmv
    refine ⟨s.focusedLocationIndex, fun _ => rfl, ?_⟩
    unfold frameCamera
    simp only [if_neg hc, if_pos (And.intro hf hidx)]
  · have hc : s.focusedPlanet = 3 ∧ s.isMovingToLocation = true ∧ s.currentLocationIndex ≥ 0
        ∧ s.currentLocationIndex < (earthLocations (α := α)).length := by
      unfold movingToLocation at hmv
      exact of_decide_eq_true hmv
    refine ⟨s.currentLocationIndex, fun hq => hq hc.2.1, ?_⟩
    unfold frameCamera
    simp only [if_pos hc]

/-- With Earth focused and a valid `focusedLocationIndex`, the camera target of
the frame is Earth's position plus the rotated surface point of the entry
`currentLocationIndex` of `earthLocations` when the smooth-movement block runs,
and of the entry `focusedLocationIndex` when it is skipped. -/
theorem frameCamera_target_index (m : MathFns α) (s : State α) (a : α)
    (pp : List (Vec3 α)) (hf : s.focusedPlanet = 3)
    (hidx : s.focusedLocationIndex ≥ 0
      ∧ s.focusedLocationIndex < (earthLocations (α := α)).length) :
    (frameCamera m s a pp).cameraTarget
      = pp.getD 3 0 + rotateY m (radians m (a * g_daySpeed * 1.0))
          (latLonToSpherePosition m
            ((earthLocations (α := α)).getD
              (if movingToLocation s = true then s.currentLocationIndex
                else s.focusedLocationIndex).toNat ⟨"", "", 0, 0, 0⟩).latitude
            ((earthLocations (α := α)).getD
              (if movingToLocation s = true then s.currentLocationIndex
                else s.focusedLocationIndex).toNat ⟨"", "", 0, 0, 0⟩).longitude 1.8) := by
  cases hmv : movingToLocation s
  · have hc : ¬ (s.focusedPlanet = 3 ∧ s.isMovingToLocation = true
        ∧ s.currentLocationIndex ≥ 0
        ∧ s.currentLocationIndex < (earthLocations (α := α)).length) := by
      unfold movingToLocation at hmv
      exact of_decide_eq_false hmv
    rw [if_neg (by decide)]
    unfold frameCamera
    simp only [if_neg hc, if_pos (And.intro hf hidx)]
  · have hc : s.focusedPlanet = 3 ∧ s.isMovingToLocation = true ∧ s.currentLocationIndex ≥ 0
        ∧ s.currentLocationIndex < (earthLocations (α := α)).length := by
      unfold movingToLocation at hmv
      exact of_decide_eq_true hmv
    rw [if_pos rfl]
    unfold frameCamera
    simp only [if_pos hc]

end LocationTheorems

/-- Over the reals a rotated surface point lies at distance `radius` from the
centre of its sphere. -/
theorem surface_point_norm (theta latitude longitude radius : ℝ) :
    (rotateY realMath theta (latLonToSpherePosition realMath latitude longitude radius)).x ^ 2
      + (rotateY realMath theta (latLonToSpherePosition realMath latitude longitude radius)).y ^ 2
      + (rotateY realMath theta (latLonToSpherePosition realMath latitude longitude radius)).z ^ 2
      = radius ^ 2 := by
  simp only [rotateY, latLonToSpherePosition, realMath]
  have h1 := Real.sin_sq_add_cos_sq theta
  have h2 := Real.sin_sq_add_cos_sq (radians realMath latitude)
  have h3 := Real.sin_sq_add_cos_sq (radians realMath longitude)
  simp only [realMath] at h2 h3
  have e : ∀ r ct st cl sl co so : ℝ, st ^ 2 + ct ^ 2 = 1 → sl ^ 2 + cl ^ 2 = 1 →
      so ^ 2 + co ^ 2 = 1 →
      (ct * (r * cl * co) + st * (r * cl * so)) ^ 2 + (r * sl) ^ 2
        + (-st * (r * cl * co) + ct * (r * cl * so)) ^ 2 = r ^ 2 := by
    intro r ct st cl sl co so ht hl ho
    have : (ct * (r * cl * co) + st * (r * cl * so)) ^ 2 + (r * sl) ^ 2
        + (-st * (r * cl * co) + ct * (r * cl * so)) ^ 2
        = r ^ 2 * (cl ^ 2 * ((st ^ 2 + ct ^ 2) * (so ^ 2 + co ^ 2)) + sl ^ 2) := by ring
    rw [this, ht, ho, mul_one, mul_one, add_comm, hl, mul_one]
  exact e _ _ _ _ _ _ _ h1 h2 h3

/-- C30 (the claim fails as worded): from startup, Earth is focused and key O
pressed (location 0), Jupiter is focused, Earth is focused again and key O
pressed again, and the panel button of the fourth location (Desert) is clicked.
Then Earth is focused, `focusedLocationIndex` is 0 and `currentLocationIndex`
is 3, a movement is under way, and in every frame the camera target is the
surface point of entry 3 and not the surface point of entry
`focusedLocationIndex`: the two points differ in height. -/
theorem target_follows_currentLocationIndex :
    (applyInputs realMath (initialState (α := ℝ))
        [ .keys (keysDown [GLFW_KEY_3]), .keys (keysDown [GLFW_KEY_O]),
          .keys (keysDown [GLFW_KEY_5]), .keys (keysDown [GLFW_KEY_3]),
          .keys (keysDown [GLFW_KEY_O]), .earthButton 3 ]).focusedPlanet = 3
    ∧ (applyInputs realMath (initialState (α := ℝ))
        [ .keys (keysDown [GLFW_KEY_3]), .keys (keysDown [GLFW_KEY_O]),
          .keys (keysDown [GLFW_KEY_5]), .keys (keysDown [GLFW_KEY_3]),
          .keys (keysDown [GLFW_KEY_O]), .earthButton 3 ]).focusedLocationIndex = 0
    ∧ (applyInputs realMath (initialState (α := ℝ))
        [ .keys (keysDown [GLFW_KEY_3]), .keys (keysDown [GLFW_KEY_O]),
          .keys (keysDown [GLFW_KEY_5]), .keys (keysDown [GLFW_KEY_3]),
          .keys (keysDown [GLFW_KEY_O]), .earthButton 3 ]).currentLocationIndex = 3
    ∧ movingToLocation (applyInputs realMath (initialState (α := ℝ))
        [ .keys (keysDown [GLFW_KEY_3]), .keys (keysDown [GLFW_KEY_O]),
          .keys (keysDown [GLFW_KEY_5]), .keys (keysDown [GLFW_KEY_3]),
          .keys (keysDown [GLFW_KEY_O]), .earthButton 3 ]) = true
    ∧ ∀ (g_animationAngle : ℝ) (planetPositions : List (Vec3 ℝ)),
        (frameCamera realMath (applyInputs realMath (initialState (α := ℝ))
        [ .keys (keysDown [GLFW_KEY_3]), .keys (keysDown [GLFW_KEY_O]),
          .keys (keysDown [GLFW_KEY_5]), .keys (keysDown [GLFW_KEY_3]),
          .keys (keysDown [GLFW_KEY_O]), .earthButton 3 ]) g_animationAngle planetPositions).cameraTarget
          = planetPositions.getD 3 0
            + rotateY realMath (radians realMath (g_animationAngle * g_daySpeed * 1.0))
                (latLonToSpherePosition realMath
                  ((earthLocations (α := ℝ)).getD 3 ⟨"", "", 0, 0, 0⟩).latitude
                  ((earthLocations (α := ℝ)).getD 3 ⟨"", "", 0, 0, 0⟩).longitude 1.8)
        ∧ (frameCamera realMath (applyInputs realMath (initialState (α := ℝ))
        [ .keys (keysDown [GLFW_KEY_3]), .keys (keysDown [GLFW_KEY_O]),
          .keys (keysDown [GLFW_KEY_5]), .keys (keysDown [GLFW_KEY_3]),
          .keys (keysDown [GLFW_KEY_O]), .earthButton 3 ]) g_animationAngle planetPositions).cameraTarget
          ≠ planetPositions.getD 3 0
            + rotateY realMath (radians realMath (g_animationAngle * g_daySpeed * 1.0))
                (latLonToSpherePosition realMath
                  ((earthLocations (α := ℝ)).getD
                    (applyInputs realMath (initialState (α := ℝ))
        [ .keys (keysDown [GLFW_KEY_3]), .keys (keysDown [GLFW_KEY_O]),
          .keys (keysDown [GLFW_KEY_5]), .keys (keysDown [GLFW_KEY_3]),
          .keys (keysDown [GLFW_KEY_O]), .earthButton 3 ]).focusedLocationIndex.toNat ⟨"", "", 0, 0, 0⟩).latitude
                  ((earthLocations (α := ℝ)).getD
                    (applyInputs realMath (initialState (α := ℝ))
        [ .keys (keysDown [GLFW_KEY_3]), .keys (keysDown [GLFW_KEY_O]),
          .keys (keysDown [GLFW_KEY_5]), .keys (keysDown [GLFW_KEY_3]),
          .keys (keysDown [GLFW_KEY_O]), .earthButton 3 ]).focusedLocationIndex.toNat ⟨"", "", 0, 0, 0⟩).longitude 1.8) := by
  have hf : (applyInputs realMath (initialState (α := ℝ))
        [ .keys (keysDown [GLFW_KEY_3]), .keys (keysDown [GLFW_KEY_O]),
          .keys (keysDown [GLFW_KEY_5]), .keys (keysDown [GLFW_KEY_3]),
          .keys (keysDown [GLFW_KEY_O]), .earthButton 3 ]).focusedPlanet = 3 := by decide
  have hi : (applyInputs realMath (initialState (α := ℝ))
        [ .keys (keysDown [GLFW_KEY_3]), .keys (keysDown [GLFW_KEY_O]),
          .keys (keysDown [GLFW_KEY_5]), .keys (keysDown [GLFW_KEY_3]),
          .keys (keysDown [GLFW_KEY_O]), .earthButton 3 ]).focusedLocationIndex = 0 := by decide
  have hc : (applyInputs realMath (initialState (α := ℝ))
        [ .keys (keysDown [GLFW_KEY_3]), .keys (keysDown [GLFW_KEY_O]),
          .keys (keysDown [GLFW_KEY_5]), .keys (keysDown [GLFW_KEY_3]),
          .keys (keysDown [GLFW_KEY_O]), .earthButton 3 ]).currentLocationIndex = 3 := by decide
  have hm : movingToLocation (applyInputs realMath (initialState (α := ℝ))
        [ .keys (keysDown [GLFW_KEY_3]), .keys (keysDown [GLFW_KEY_O]),
          .keys (keysDown [GLFW_KEY_5]), .keys (keysDown [GLFW_KEY_3]),
          .keys (keysDown [GLFW_KEY_O]), .earthButton 3 ]) = true := by decide
  refine ⟨hf, hi, hc, hm, ?_⟩
  intro g_animationAngle planetPositions
  have ht := frameCamera_target_index realMath (applyInputs realMath (initialState (α := ℝ))
        [ .keys (keysDown [GLFW_KEY_3]), .keys (keysDown [GLFW_KEY_O]),
          .keys (keysDown [GLFW_KEY_5]), .keys (keysDown [GLFW_KEY_3]),
          .keys (keysDown [GLFW_KEY_O]), .earthButton 3 ]) g_animationAngle planetPositions hf
    ⟨by rw [hi], by rw [hi]; decide⟩
  rw [if_pos hm, hc] at ht
  have ht3 : (3 : Int).toNat = 3 := rfl
  rw [ht3] at ht
  refine ⟨ht, ?_⟩
  rw [ht, hi]
  intro heq
  have hy := congrArg Vec3.y heq
  have h0 : (0 : Int).toNat = 0 := rfl
  rw [h0] at hy
  have hpos : 0 < Real.sin (20 * (Real.pi / 180)) := by
    apply Real.sin_pos_of_pos_of_lt_pi
    · positivity
    · nlinarith [Real.pi_pos]
  have hy2 : (planetPositions.getD 3 0).y + 1.8 * Real.sin (20.0 * (Real.pi / 180))
      = (planetPositions.getD 3 0).y + 1.8 * Real.sin (0.0 * (Real.pi / 180)) := hy
  have e1 : (20.0 : ℝ) = 20 := by norm_num
  have e2 : (0.0 : ℝ) = 0 := by norm_num
  rw [e1, e2, zero_mul, Real.sin_zero, mul_zero, add_zero] at hy2
  linarith

/-- C30 (as amended): from any state that satisfies the invariant of the event
loop and has a non-negative `focusedLocationIndex`, no sequence of input events
makes the index negative again.  A poll in which the focus ends on another body
than Earth clears `showEarthLocation` and `isMovingToLocation` and leaves
`focusedLocationIndex` unchanged.  So whenever Earth is the focused body
afterwards, the camera target of the frame is Earth's position plus the
rotated surface point of an entry of `earthLocations`, and differs, over the
reals, from Earth's centre: the entry is `currentLocationIndex` while a
movement to a location is under way and `focusedLocationIndex` otherwise.  When
a poll focuses Earth in a state in which no movement to a location is under way
(such as any state in which another body is focused), the entry is
`focusedLocationIndex`. -/
theorem focusedLocationIndex_sticky (s0 : State ℝ) (events : List (InputEvent ℝ))
    (hinv : ReachableInvariant s0) (hidx : 0 ≤ s0.focusedLocationIndex) :
    0 ≤ (applyInputs realMath s0 events).focusedLocationIndex
    ∧ (∀ (s : State ℝ) (glfwGetKey : Int → Int), (processInput s glfwGetKey).focusedPlanet ≠ 3 →
        (processInput s glfwGetKey).showEarthLocation = false
        ∧ (processInput s glfwGetKey).isMovingToLocation = false
        ∧ (processInput s glfwGetKey).focusedLocationIndex = s.focusedLocationIndex)
    ∧ ((applyInputs realMath s0 events).focusedPlanet = 3 →
        ∀ (g_animationAngle : ℝ) (planetPositions : List (Vec3 ℝ)),
          (frameCamera realMath (applyInputs realMath s0 events) g_animationAngle
              planetPositions).cameraTarget
            = planetPositions.getD 3 0
              + rotateY realMath (radians realMath (g_animationAngle * g_daySpeed * 1.0))
                  (latLonToSpherePosition realMath
                    ((earthLocations (α := ℝ)).getD
                      (if movingToLocation (applyInputs realMath s0 events) = true
                        then (applyInputs realMath s0 events).currentLocationIndex
                        else (applyInputs realMath s0 events).focusedLocationIndex).toNat
                      ⟨"", "", 0, 0, 0⟩).latitude
                    ((earthLocations (α := ℝ)).getD
                      (if movingToLocation (applyInputs realMath s0 events) = true
                        then (applyInputs realMath s0 events).currentLocationIndex
                        else (applyInputs realMath s0 events).focusedLocationIndex).toNat
                      ⟨"", "", 0, 0, 0⟩).longitude
                    1.8)
          ∧ (frameCamera realMath (applyInputs realMath s0 events) g_animationAngle
              planetPositions).cameraTarget ≠ planetPositions.getD 3 0)
    ∧ ((applyInputs realMath s0 events).isMovingToLocation = false →
        ∀ (glfwGetKey : Int → Int) (g_animationAngle : ℝ) (planetPositions : List (Vec3 ℝ)),
          (processInput (applyInputs realMath s0 events) glfwGetKey).focusedPlanet = 3 →
          (frameCamera realMath (processInput (applyInputs realMath s0 events) glfwGetKey)
              g_animationAngle planetPositions).cameraTarget
            = planetPositions.getD 3 0
              + rotateY realMath (radians realMath (g_animationAngle * g_daySpeed * 1.0))
                  (latLonToSpherePosition realMath
                    ((earthLocations (α := ℝ)).getD
                      (processInput (applyInputs realMath s0 events)
                        glfwGetKey).focusedLocationIndex.toNat ⟨"", "", 0, 0, 0⟩).latitude
                    ((earthLocations (α := ℝ)).getD
                      (processInput (applyInputs realMath s0 events)
                        glfwGetKey).focusedLocationIndex.toNat ⟨"", "", 0, 0, 0⟩).longitude
                    1.8)) := by
  have hnn := applyInputs_index realMath events s0 hidx
  have hreach := applyInputs_invariant realMath events s0 hinv
  refine ⟨hnn, fun s k h => processInput_leaves_earth s k h, ?_, ?_⟩
  · intro hf g_animationAngle planetPositions
    refine ⟨frameCamera_target_index realMath (applyInputs realMath s0 events)
      g_animationAngle planetPositions hf
      ⟨hnn, by simpa [earthLocations] using hreach.2.1.2⟩, ?_⟩
    obtain ⟨idx, _, htarget⟩ := frameCamera_target_location realMath
      (applyInputs realMath s0 events) g_animationAngle planetPositions hf
      ⟨hnn, by simpa [earthLocations] using hreach.2.1.2⟩
    rw [htarget]
    intro heq
    have hnorm := surface_point_norm (radians realMath (g_animationAngle * g_daySpeed * 1.0))
      ((earthLocations (α := ℝ)).getD idx.toNat ⟨"", "", 0, 0, 0⟩).latitude
      ((earthLocations (α := ℝ)).getD idx.toNat ⟨"", "", 0, 0, 0⟩).longitude 1.8
    have hx := congrArg Vec3.x heq
    have hy := congrArg Vec3.y heq
    have hz := congrArg Vec3.z heq
    have hx0 : (rotateY realMath (radians realMath (g_animationAngle * g_daySpeed * 1.0))
        (latLonToSpherePosition realMath
          ((earthLocations (α := ℝ)).getD idx.toNat ⟨"", "", 0, 0, 0⟩).latitude
          ((earthLocations (α := ℝ)).getD idx.toNat ⟨"", "", 0, 0, 0⟩).longitude 1.8)).x = 0 :=
      add_right_eq_self.mp hx
    have hy0 : (rotateY realMath (radians realMath (g_animationAngle * g_daySpeed * 1.0))
        (latLonToSpherePosition realMath
          ((earthLocations (α := ℝ)).getD idx.toNat ⟨"", "", 0, 0, 0⟩).latitude
          ((earthLocations (α := ℝ)).getD idx.toNat ⟨"", "", 0, 0, 0⟩).longitude 1.8)).y = 0 :=
      add_right_eq_self.mp hy
    have hz0 : (rotateY realMath (radians realMath (g_animationAngle * g_daySpeed * 1.0))
        (latLonToSpherePosition realMath
          ((earthLocations (α := ℝ)).getD idx.toNat ⟨"", "", 0, 0, 0⟩).latitude
          ((earthLocations (α := ℝ)).getD idx.toNat ⟨"", "", 0, 0, 0⟩).longitude 1.8)).z = 0 :=
      add_right_eq_self.mp hz
    rw [hx0, hy0, hz0] at hnorm
    norm_num at hnorm
  · intro hstill glfwGetKey g_animationAngle planetPositions hf
    have hnn2 : 0 ≤ (processInput (applyInputs realMath s0 events) glfwGetKey).focusedLocationIndex :=
      applyInput_index realMath _ (.keys glfwGetKey) hnn
    have hreach2 : ReachableInvariant (processInput (applyInputs realMath s0 events) glfwGetKey) :=
      processInput_invariant _ glfwGetKey hreach
    have hq := processInput_moving (applyInputs realMath s0 events) glfwGetKey
      (fun hm => absurd (hstill.symm.trans hm) (by decide))
    obtain ⟨idx, hsel, htarget⟩ := frameCamera_target_location realMath
      (processInput (applyInputs realMath s0 events) glfwGetKey) g_animationAngle
      planetPositions hf ⟨hnn2, by simpa [earthLocations] using hreach2.2.1.2⟩
    rw [htarget, hsel hq]

/-- Witness of `focusedLocationIndex_sticky`: Earth is focused and key O
pressed, then Jupiter is focused; the index stays 0 while Jupiter is focused. -/
theorem focusedLocationIndex_sticky_witness :
    0 ≤ (applyInputs realMath
          (applyInputs realMath (initialState (α := ℝ))
            [ .keys (keysDown [GLFW_KEY_3]), .keys (keysDown [GLFW_KEY_O]) ])
          [ .keys (keysDown [GLFW_KEY_5]) ]).focusedLocationIndex
    ∧ (applyInputs realMath
          (applyInputs realMath (initialState (α := ℝ))
            [ .keys (keysDown [GLFW_KEY_3]), .keys (keysDown [GLFW_KEY_O]) ])
          [ .keys (keysDown [GLFW_KEY_5]) ]).focusedPlanet = 5
    ∧ (applyInputs realMath
          (applyInputs realMath (initialState (α := ℝ))
            [ .keys (keysDown [GLFW_KEY_3]), .keys (keysDown [GLFW_KEY_O]) ])
          [ .keys (keysDown [GLFW_KEY_5]) ]).isMovingToLocation = false :=
  ⟨(focusedLocationIndex_sticky
      (applyInputs realMath (initialState (α := ℝ))
        [ .keys (keysDown [GLFW_KEY_3]), .keys (keysDown [GLFW_KEY_O]) ])
      [ .keys (keysDown [GLFW_KEY_5]) ]
      (applyInputs_invariant realMath _ _ initialState_invariant) (by decide)).1,
    by decide, by decide⟩

/-! ## Theorems: the camera distance over all input events -/

section DistanceTheorems

variable {α : Type} [LinearOrderedField α]

/-- No block of `processInput` writes `cameraDistance`. -/
theorem processInput_cameraDistance (s : State α) (glfwGetKey : Int → Int) :
    (processInput s glfwGetKey).cameraDistance = s.cameraDistance := by
  rw [processInput_eq, (processSaturnLocationKeys_keeps _ _).2.2.2.2.2.2.2.2.2.2.1,
    (processEarthLocationKeys_keeps _ _).2.2.2.2.2.2.2.2.2.2.1, (processKey9_keeps _ _).2.2.2.2.2.2.2.2.2.2.1,
    (processFocusKeys_keeps _ _).2.2.2.2.2.2.2.2.2.2.1, (processSlowDownKey_keeps _ _).2.2.2.2.2.2.2.2.2.2.1,
    (processSpeedUpKey_keeps _ _).2.2.2.2.2.2.2.2.2.2.1, (processEscapeKey_keeps _ _).2.2.2.2.2.2.2.2.2.2.1]

/-- A press of the left button with Earth focused and the cursor less than 300
pixels from the window centre selects the next Earth location and sets the
distance to 2.5. -/
theorem mouse_button_callback_select (m : MathFns α) (s : State α) (cursorX cursorY : α)
    (hf : s.focusedPlanet = 3)
    (hc : distFromCenter m s.SCR_WIDTH s.SCR_HEIGHT cursorX cursorY < 300) :
    (mouse_button_callback m s GLFW_MOUSE_BUTTON_LEFT GLFW_PRESS cursorX cursorY).cameraDistance
        = 2.5
    ∧ (mouse_button_callback m s GLFW_MOUSE_BUTTON_LEFT GLFW_PRESS cursorX
        cursorY).focusedLocationIndex = (s.focusedLocationIndex + 1) % 4
    ∧ (mouse_button_callback m s GLFW_MOUSE_BUTTON_LEFT GLFW_PRESS cursorX
        cursorY).showEarthLocation = true := by
  rw [centre_click m s cursorX cursorY hf hc]
  exact ⟨rfl, rfl, rfl⟩

/-- One input event keeps the distance in `[1, 800]`. -/
theorem applyInput_cameraDistance (m : MathFns α) (s : State α) (e : InputEvent α)
    (hd : 1 ≤ s.cameraDistance ∧ s.cameraDistance ≤ 800) :
    1 ≤ (applyInput m s e).cameraDistance ∧ (applyInput m s e).cameraDistance ≤ 800 := by
  cases e with
  | keys glfwGetKey =>
    simp only [applyInput]
    rw [processInput_cameraDistance]
    exact hd
  | earthButton i =>
    simp only [applyInput]
    rw [(earthLocationButton_keeps s i).2.2.2.2.2.2.2.2.2.2.1]
    exact hd
  | saturnButton i =>
    simp only [applyInput]
    rw [(saturnLocationButton_keeps s i).2.2.2.2.2.2.2.2.2.2.1]
    exact hd
  | mouse ev =>
    cases ev with
    | cursorPos xpos ypos =>
      simp only [applyInput, handleEvent]
      rw [(mouse_callback_keeps s xpos ypos).2.2.2.2.2.2.2.2.2.2.1]
      exact hd
    | mouseButton button action cursorX cursorY =>
      simp only [applyInput, handleEvent]
      rcases (mouse_button_callback_bounds m s button action cursorX cursorY).2 with h | h
      · rw [h]
        exact hd
      · rw [h]
        norm_num
    | scroll xoffset yoffset =>
      simp only [applyInput, handleEvent]
      exact ⟨(scroll_callback_bounds s xoffset yoffset).1,
        (scroll_callback_bounds s xoffset yoffset).2.1⟩

/-- Any finite sequence of input events keeps the distance in `[1, 800]`. -/
theorem applyInputs_cameraDistance (m : MathFns α) (events : List (InputEvent α)) :
    ∀ s : State α, (1 ≤ s.cameraDistance ∧ s.cameraDistance ≤ 800) →
      1 ≤ (applyInputs m s events).cameraDistance
        ∧ (applyInputs m s events).cameraDistance ≤ 800 := by
  induction events with
  | nil => intro s hd; exact hd
  | cons e es ih =>
    intro s hd
    exact ih (applyInput m s e) (applyInput_cameraDistance m s e hd)

/-- C8: `cameraDistance` lies in `[1, 800]` after any finite sequence of input
events (scroll events with arbitrary offsets, mouse-button events, cursor moves,
polls of the keyboard and panel clicks, in any order), from the startup state
and from every state, whatever body is focused, whose distance is in `[1, 800]`.
The clicks that select a location are among the events: with Earth focused, a
press of the left button less than 300 pixels from the window centre selects
the next location and sets the distance to 2.5, and a scroll event after it
leaves the distance in `[1, 800]`. -/
theorem cameraDistance_in_range (m : MathFns α) (s : State α) (events : List (InputEvent α))
    (hd : 1 ≤ s.cameraDistance ∧ s.cameraDistance ≤ 800) :
    (1 ≤ (applyInputs m s events).cameraDistance
      ∧ (applyInputs m s events).cameraDistance ≤ 800)
    ∧ (1 ≤ (applyInputs m initialState events).cameraDistance
      ∧ (applyInputs m initialState events).cameraDistance ≤ 800)
    ∧ (∀ (t : State α) (cursorX cursorY xoffset yoffset : α), t.focusedPlanet = 3 →
        distFromCenter m t.SCR_WIDTH t.SCR_HEIGHT cursorX cursorY < 300 →
        (applyInput m t (.mouse (.mouseButton GLFW_MOUSE_BUTTON_LEFT GLFW_PRESS cursorX
            cursorY))).cameraDistance = 2.5
        ∧ (applyInput m t (.mouse (.mouseButton GLFW_MOUSE_BUTTON_LEFT GLFW_PRESS cursorX
            cursorY))).focusedLocationIndex = (t.focusedLocationIndex + 1) % 4
        ∧ 1 ≤ (applyInputs m t
            [ .mouse (.mouseButton GLFW_MOUSE_BUTTON_LEFT GLFW_PRESS cursorX cursorY),
              .mouse (.scroll xoffset yoffset) ]).cameraDistance
        ∧ (applyInputs m t
            [ .mouse (.mouseButton GLFW_MOUSE_BUTTON_LEFT GLFW_PRESS cursorX cursorY),
              .mouse (.scroll xoffset yoffset) ]).cameraDistance ≤ 800) := by
  refine ⟨applyInputs_cameraDistance m events s hd,
    applyInputs_cameraDistance m events initialState (by norm_num [initialState]), ?_⟩
  intro t cursorX cursorY xoffset yoffset hf hc
  have hsel := mouse_button_callback_select m t cursorX cursorY hf hc
  exact ⟨hsel.1, hsel.2.1,
    (scroll_callback_bounds _ xoffset yoffset).1, (scroll_callback_bounds _ xoffset yoffset).2.1⟩

/-- Witness of `cameraDistance_in_range`: Earth is focused at distance 50; a
click at the window centre, a scroll of one million notches inward and a
scroll of one million notches outward follow. -/
theorem cameraDistance_in_range_witness :
    (1 ≤ ({ initialState (α := ℝ) with focusedPlanet := 3 } : State ℝ).cameraDistance
      ∧ ({ initialState (α := ℝ) with focusedPlanet := 3 } : State ℝ).cameraDistance ≤ 800)
    ∧ 1 ≤ (applyInputs realMath { initialState (α := ℝ) with focusedPlanet := 3 }
        [ .mouse (.mouseButton GLFW_MOUSE_BUTTON_LEFT GLFW_PRESS 960 540),
          .mouse (.scroll 0 1000000), .mouse (.scroll 0 (-1000000)) ]).cameraDistance
    ∧ (applyInputs realMath { initialState (α := ℝ) with focusedPlanet := 3 }
        [ .mouse (.mouseButton GLFW_MOUSE_BUTTON_LEFT GLFW_PRESS 960 540),
          .mouse (.scroll 0 1000000), .mouse (.scroll 0 (-1000000)) ]).cameraDistance ≤ 800 :=
  ⟨by norm_num [initialState],
    (cameraDistance_in_range realMath { initialState (α := ℝ) with focusedPlanet := 3 }
      [ .mouse (.mouseButton GLFW_MOUSE_BUTTON_LEFT GLFW_PRESS 960 540),
        .mouse (.scroll 0 1000000), .mouse (.scroll 0 (-1000000)) ]
      (by norm_num [initialState])).1⟩

end DistanceTheorems

/-! ## Theorems: exact values and single precision -/

section ExactValueTheorems

variable {α : Type} [LinearOrderedField α]

end ExactValueTheorems

end SolarSystem
